import Mathlib

/-!
# Per-host plugin launcher (`src/src/pluginlaunch.c`)

A shallow embedding of the launcher of `pluginlaunch.c`: the slot table
`processes`, the counters `num_running_processes`, `max_running_processes`,
`old_max_running_processes`, the list `non_simult_ports` and `hostname` are
the fields of one record that every function takes and returns.

Everything the file calls but does not define (the catalog, the preference
store, `select`, `internal_recv`, `process_alive`, the spawner, the clock) is
a field of the record `externals`.  Answers that can differ from call to call
are indexed by the number of external calls made so far (`tick`), so a
statement quantified over `externals` covers every behaviour of the children
and of the operating system.  Calls with an effect on the outside (frames
sent, signals, closed descriptors) are appended to `events`.

`while` loops take a bound on their number of iterations (`fuel`); a run that
exhausts it yields `failure.out_of_fuel`.  The write through `processes[-1]`
that `plugin_launch` performs when `next_free_process` finds no slot is
outside the table and yields `failure.out_of_bounds`; what the statements of
`plugin_launch` do to the count in that case is `launch_outside_table`.

The cached preference getters of `src/src/preferences.c` are embedded the
same way: their `static` variables are the fields of the record
`prefs_cache`, which every getter takes and returns next to its value.
`preferences_get_string` and `preferences_plugin_timeout` are functions of
the argument list; the loop body of `preferences_process` works on the line
buffer as a list of bytes and records the indices its trimming loops touch.
-/

namespace PluginLaunch

/-! ## Data model -/

/-- Hard limit of the number of concurrent plugins per host (`#define MAX_PROCESSES 32`). -/
def MAX_PROCESSES : Nat := 32

/-- Signal numbers passed to `kill`. -/
def SIGTERM : Int := 15

/-- Signal number of the unconditional kill. -/
def SIGKILL : Int := 9

/-- Option bit of `waitpid` for a non-blocking call. -/
def WNOHANG : Int := 1

/-- The `struct timeval` of the C library: seconds and microseconds. -/
structure timeval where
  tv_sec : Int
  tv_usec : Int
deriving DecidableEq, Repr

/-- Modelled from the spec: the `running_state` of a routine descriptor
(`enum plugin_status` of `pluginscheduler.h`, which is not under `src/`) takes
the values UNRUN, RUNNING and DONE. -/
inductive plugin_status where
  | PLUGIN_STATUS_UNRUN
  | PLUGIN_STATUS_RUNNING
  | PLUGIN_STATUS_DONE
deriving DecidableEq, Repr

/-- The two fields of `struct scheduler_plugin` that the launcher touches. -/
structure scheduler_plugin where
  oid : Option String
  running_state : plugin_status
deriving DecidableEq, Repr

/-- The slot record `struct running`.  `plugin` is the address of a routine
descriptor, `0` standing for `NULL`. -/
structure running where
  plugin : Nat
  start : timeval
  pid : Int
  timeout : Int
  upstream_soc : Int
  internal_soc : Int
  alive : Int
deriving DecidableEq, Repr

/-- The all-zero slot record that `bzero` leaves. -/
def running.zero : running :=
  { plugin := 0, start := { tv_sec := 0, tv_usec := 0 }, pid := 0, timeout := 0,
    upstream_soc := 0, internal_soc := 0, alive := 0 }

/-- Calls with an outside effect, in the order they are made; `process_alive`
is recorded with its answer. -/
inductive event where
  | internal_send (soc : Int) (buffer : String) (type : Nat)
  | kill (pid : Int) (sig : Int)
  | terminate_process (pid : Int)
  | close (fd : Int)
  | waitpid (pid : Int) (options : Int)
  | select (watched : List Int) (usec : Int)
  | usleep (usec : Int)
  | process_alive (pid : Int) (answer : Bool)
  | nasl_plugin_launch (oid : Option String) (soc : Int)
deriving DecidableEq, Repr

/-- Everything `pluginlaunch.c` uses without defining it.

* The message-type bits of `internal_com.h` and `ACT_SCANNER` of
  `nvt_categories.h` are constants of headers that are not under `src/`.
* The preference store and the catalog are read-only lookups.
* The remaining fields are answers of the operating system, the children and
  the spawner; their first argument is the number of external calls made
  before (`launcher.tick`).  `select` stands for the `EINTR` retry loop around
  it and answers with the last return value and the descriptor set it left.
-/
structure externals where
  INTERNAL_COMM_MSG_TYPE_DATA : Nat
  INTERNAL_COMM_MSG_TYPE_CTRL : Nat
  INTERNAL_COMM_CTRL_FINISHED : Nat
  ACT_SCANNER : Int
  prefs_get : String → Option String
  prefs_nvt_timeout : Option String → Int
  nvticache_get_timeout : Option String → Int
  nvticache_get_category : Option String → Int
  nvticache_get_required_ports : String → Option String
  get_max_checks_number : Int
  gettimeofday : Nat → timeval
  internal_recv : Nat → Int → Int × String × Nat
  internal_send : Nat → Int
  select : Nat → List Int → Int × (Int → Bool)
  process_alive : Nat → Int → Bool
  socketpair : Nat → Int × Int × Int
  nasl_plugin_launch : Nat → Option String → Int → Int

/-- The static variables of `pluginlaunch.c`, the routine descriptors they
point to (`plugins`, indexed by address), and the history of external calls. -/
structure launcher where
  processes : Nat → running
  num_running_processes : Int
  max_running_processes : Int
  old_max_running_processes : Int
  non_simult_ports : List String
  hostname : Option String
  plugins : Nat → scheduler_plugin
  tick : Nat
  events : List event

/-- Ways in which a run yields no state. -/
inductive failure where
  | out_of_fuel
  | out_of_bounds
  | null_dereference
deriving DecidableEq, Repr

/-- One more external call has been made. -/
def launcher.step (s : launcher) : launcher :=
  { s with tick := s.tick + 1 }

/-- Record an outside effect. -/
def launcher.emit (s : launcher) (e : event) : launcher :=
  { s with events := s.events ++ [e] }

/-- Assignment to `processes[i]`. -/
def launcher.set_process (s : launcher) (i : Nat) (r : running) : launcher :=
  { s with processes := Function.update s.processes i r }

/-- Assignment to `plugin->running_state` for the descriptor at address `a`. -/
def launcher.set_running_state (s : launcher) (a : Nat) (st : plugin_status) : launcher :=
  { s with plugins := Function.update s.plugins a { s.plugins a with running_state := st } }

/-! ## String helpers of the C library and GLib -/

/-- The pieces of `g_strsplit (string, ", ", 0)` after the first `acc`
characters of the current piece have been read (kept reversed in `acc`). -/
def strsplit_from : List Char → List Char → List String
  | [], acc => [String.mk acc.reverse]
  | ',' :: ' ' :: rest, acc => String.mk acc.reverse :: strsplit_from rest []
  | c :: rest, acc => strsplit_from rest (c :: acc)

/-- The vector `g_strsplit (string, ", ", 0)`: the empty string gives the empty
vector, any other string its pieces between occurrences of the delimiter. -/
def g_strsplit (string : String) : List String :=
  if string.data = [] then [] else strsplit_from string.data []

/-- The C library's `isspace` in the C locale. -/
def isspace (c : Char) : Bool :=
  c = ' ' || c = '\t' || c = '\n' || c = '\x0b' || c = '\x0c' || c = '\r'

/-- Value of the leading decimal digits of a text, after the value `acc`. -/
def atoi_digits : List Char → Nat → Nat
  | [], acc => acc
  | c :: rest, acc => if c.isDigit then atoi_digits rest (10 * acc + (c.toNat - 48)) else acc

/-- The C library's `atoi`: blanks, an optional sign, decimal digits; `0` when
no digit follows.  Values outside the range of `int` are not modelled. -/
def atoi (s : String) : Int :=
  match s.data.dropWhile isspace with
  | '-' :: rest => - (atoi_digits rest 0 : Int)
  | '+' :: rest => (atoi_digits rest 0 : Int)
  | rest => (atoi_digits rest 0 : Int)

/-- The conversion `%d` of `printf`. -/
def fmt_d (n : Int) : String :=
  match n with
  | Int.ofNat k => Nat.repr k
  | Int.negSucc k => "-" ++ Nat.repr (k + 1)

/-- The conversion `%s` of `printf` (glibc prints `(null)` for `NULL`). -/
def fmt_s (s : Option String) : String :=
  match s with
  | some t => t
  | none => "(null)"

/-! ## Conflict decision -/

/-- The function `common`: 1 when the two lists share a string. -/
def common (list1 list2 : List String) : Bool :=
  if list1 = [] ∨ list2 = [] then false
  else list1.any (fun a => list2.any (fun b => a == b))

/-- The function `required_ports_in_list`: the entries of `list` equal to a
piece of the routine's required-ports text, prepended one by one. -/
def required_ports_in_list (env : externals) (oid : Option String) (list : List String) :
    List String :=
  match oid with
  | none => []
  | some o =>
    if list = [] then []
    else
      match env.nvticache_get_required_ports o with
      | none => []
      | some ports =>
        (g_strsplit ports).foldl
          (fun common_ports piece =>
            list.foldl (fun acc tmp => if tmp = piece then tmp :: acc else acc) common_ports)
          []

/-- The condition of the `if` in `wait_if_simult_ports`. -/
def simult_ports (env : externals) (non_simult_ports : List String)
    (oid next_oid : Option String) : Bool :=
  let common_ports1 := required_ports_in_list env oid non_simult_ports
  let common_ports2 :=
    if common_ports1 ≠ [] then required_ports_in_list env next_oid non_simult_ports else []
  common_ports1 ≠ [] && common_ports2 ≠ [] && common common_ports1 common_ports2

/-! ## The functions of `pluginlaunch.c` -/

/-- The function `process_internal_msg` for slot `p`: its return value and the
state it leaves. -/
def process_internal_msg (env : externals) (p : Nat) (s : launcher) : Int × launcher :=
  let r := env.internal_recv s.tick (s.processes p).internal_soc
  let s := s.step
  let e := r.1
  let buffer := r.2.1
  let type := r.2.2
  if e < 0 then
    (-1, s.set_process p { s.processes p with alive := 0 })
  else if type &&& env.INTERNAL_COMM_MSG_TYPE_DATA ≠ 0 then
    let e := env.internal_send s.tick
    (e, (s.emit (event.internal_send (s.processes p).upstream_soc buffer type)).step)
  else if type &&& env.INTERNAL_COMM_MSG_TYPE_CTRL ≠ 0 then
    if type &&& env.INTERNAL_COMM_CTRL_FINISHED ≠ 0 then
      let s := s.emit (event.kill (s.processes p).pid SIGTERM)
      (e, s.set_process p { s.processes p with alive := 0 })
    else (e, s)
  else (e, s)

/-- The function `wait_for_children`: one non-blocking `waitpid (-1, ...)` (with
its retries on `EINTR`) per slot whose pid is not zero. -/
def wait_for_children (s : launcher) : launcher :=
  (List.range MAX_PROCESSES).foldl
    (fun st i =>
      if (st.processes i).pid ≠ 0 then st.emit (event.waitpid (-1) WNOHANG) else st)
    s

/-- The timeout frame that `update_running_processes` builds with
`g_strdup_printf`. -/
def timeout_message (hostname : Option String) (timeout : Int) (oid : Option String) : String :=
  "SERVER <|> ERRMSG <|> " ++ fmt_s hostname ++ " <|> general/tcp"
    ++ " <|> NVT timed out after " ++ fmt_d timeout ++ " seconds."
    ++ " <|> " ++ oid.getD "0" ++ " <|> SERVER\n"

/-- The body of the `for` loop of `update_running_processes` for index `i`,
at the time `now` read before the loop.  The local copy of `now` that the
second branch changes is restored from `old_now` before the branch ends, so
every iteration sees the same `now`. -/
def update_running_process (env : externals) (now : timeval) (i : Nat) (s : launcher) :
    launcher :=
  if 0 < (s.processes i).pid then
    if (s.processes i).alive = 0
        ∨ (0 < (s.processes i).timeout
            ∧ (s.processes i).timeout < now.tv_sec - (s.processes i).start.tv_sec) then
      let oid := (s.plugins (s.processes i).plugin).oid
      let s :=
        if (s.processes i).alive ≠ 0 then
          let msg := timeout_message s.hostname (s.processes i).timeout oid
          let s := s.emit (event.internal_send (s.processes i).upstream_soc msg
                      env.INTERNAL_COMM_MSG_TYPE_DATA)
          let s := s.emit (event.terminate_process (s.processes i).pid)
          s.set_process i { s.processes i with alive := 0 }
        else
          let s :=
            if now.tv_usec < (s.processes i).start.tv_usec then
              s.set_process i { s.processes i with
                start := { (s.processes i).start with
                  tv_sec := (s.processes i).start.tv_sec + 1 } }
            else s
          s.emit (event.waitpid (s.processes i).pid 0)
      let s := { s with num_running_processes := s.num_running_processes - 1 }
      let s := s.set_running_state (s.processes i).plugin plugin_status.PLUGIN_STATUS_DONE
      let s := s.emit (event.close (s.processes i).internal_soc)
      s.set_process i running.zero
    else s
  else s

/-- The function `update_running_processes`. -/
def update_running_processes (env : externals) (s : launcher) : launcher :=
  let now := env.gettimeofday s.tick
  let s := s.step
  if s.num_running_processes = 0 then s
  else (List.range MAX_PROCESSES).foldl (fun st i => update_running_process env now i st) s

/-- The descriptors that `read_running_processes` puts in the set `rd`. -/
def watched_set (s : launcher) : List Int :=
  (List.range MAX_PROCESSES).filterMap
    (fun i => if 0 < (s.processes i).pid then some (s.processes i).internal_soc else none)

/-- The body of the second `for` loop of `read_running_processes`; the first
component counts `flag`. -/
def read_running_process (env : externals) (rd : Int → Bool) (acc : Nat × launcher)
    (i : Nat) : Nat × launcher :=
  if 0 < (acc.2.processes i).pid then
    if rd (acc.2.processes i).internal_soc then
      (acc.1 + 1, (process_internal_msg env i acc.2).2)
    else (acc.1 + 1, acc.2)
  else acc

/-- The function `read_running_processes`. -/
def read_running_processes (env : externals) (s : launcher) : launcher :=
  if s.num_running_processes = 0 then s
  else
    let watched := watched_set s
    let r := env.select s.tick watched
    let s := (s.emit (event.select watched 500000)).step
    if r.1 = 0 then s
    else
      let fs := (List.range MAX_PROCESSES).foldl (read_running_process env r.2) (0, s)
      if fs.1 = 0 ∧ fs.2.num_running_processes ≠ 0 then
        { fs.2 with num_running_processes := 0 }
      else fs.2

/-- The loop `while (process_alive (pid))` of `wait_if_simult_ports`. -/
def wait_while_alive (env : externals) (pid : Int) : Nat → launcher → Except failure launcher
  | 0, _ => Except.error failure.out_of_fuel
  | fuel + 1, s =>
    let a := env.process_alive s.tick pid
    let s := (s.emit (event.process_alive pid a)).step
    if a then
      wait_while_alive env pid fuel
        (wait_for_children (update_running_processes env (read_running_processes env s)))
    else Except.ok s

/-- The function `wait_if_simult_ports`. -/
def wait_if_simult_ports (env : externals) (fuel : Nat) (pid : Int)
    (oid next_oid : Option String) (s : launcher) : Except failure launcher :=
  if simult_ports env s.non_simult_ports oid next_oid then wait_while_alive env pid fuel s
  else Except.ok s

/-- The body of the first `for` loop of `next_free_process`. -/
def next_free_wait (env : externals) (fuel : Nat) (upcoming : Nat) (s : launcher) (r : Nat) :
    Except failure launcher :=
  if 0 < (s.processes r).pid then
    wait_if_simult_ports env fuel (s.processes r).pid (s.plugins (s.processes r).plugin).oid
      (s.plugins upcoming).oid s
  else Except.ok s

/-- The second `for` loop of `next_free_process`: the first index whose pid is
not positive, `-1` when there is none. -/
def first_free (s : launcher) : Int :=
  match (List.range MAX_PROCESSES).find? (fun r => decide ((s.processes r).pid ≤ 0)) with
  | some r => (r : Int)
  | none => -1

/-- The function `next_free_process`. -/
def next_free_process (env : externals) (fuel : Nat) (upcoming : Nat) (s : launcher) :
    Except failure (Int × launcher) :=
  match (List.range MAX_PROCESSES).foldlM (next_free_wait env fuel upcoming)
      (wait_for_children s) with
  | Except.error f => Except.error f
  | Except.ok s => Except.ok (first_free s, s)

/-- The function `pluginlaunch_init`.  When the preference `non_simult_ports`
is absent `g_strsplit` returns `NULL` and the loop reads through it. -/
def pluginlaunch_init (env : externals) (host : Option String) (s : launcher) :
    Except failure launcher :=
  match env.prefs_get "non_simult_ports" with
  | none => Except.error failure.null_dereference
  | some text =>
    let non_simult_ports :=
      (g_strsplit text).foldl (fun acc piece => piece :: acc) s.non_simult_ports
    let max_running_processes := env.get_max_checks_number
    let old_max_running_processes := max_running_processes
    let max_running_processes :=
      if max_running_processes ≥ (MAX_PROCESSES : Int) then (MAX_PROCESSES : Int) - 1
      else max_running_processes
    Except.ok { s with
      non_simult_ports := non_simult_ports
      max_running_processes := max_running_processes
      old_max_running_processes := old_max_running_processes
      hostname := host
      num_running_processes := 0
      processes := fun i => if i < MAX_PROCESSES then running.zero else s.processes i }

/-- The function `pluginlaunch_disable_parrallel_checks`. -/
def pluginlaunch_disable_parrallel_checks (s : launcher) : launcher :=
  { s with max_running_processes := 1 }

/-- The function `pluginlaunch_enable_parrallel_checks`. -/
def pluginlaunch_enable_parrallel_checks (s : launcher) : launcher :=
  { s with max_running_processes := s.old_max_running_processes }

/-- The body of the last `for` loop of `pluginlaunch_stop`. -/
def stop_process (s : launcher) (i : Nat) : launcher :=
  if 0 < (s.processes i).pid then
    let s := s.emit (event.kill (s.processes i).pid SIGKILL)
    let s := { s with num_running_processes := s.num_running_processes - 1 }
    let s := s.set_running_state (s.processes i).plugin plugin_status.PLUGIN_STATUS_DONE
    let s := s.emit (event.close (s.processes i).internal_soc)
    s.set_process i running.zero
  else s

/-- The function `pluginlaunch_stop`. -/
def pluginlaunch_stop (env : externals) (soft_stop : Int) (s : launcher) : launcher :=
  let s :=
    if soft_stop ≠ 0 then
      let s := read_running_processes env s
      let s := (List.range MAX_PROCESSES).foldl
        (fun st i =>
          if 0 < (st.processes i).pid then st.emit (event.kill (st.processes i).pid SIGTERM)
          else st)
        s
      s.emit (event.usleep 20000)
    else s
  (List.range MAX_PROCESSES).foldl stop_process s

/-- The admission loop at the head of `plugin_launch`. -/
def wait_for_admission (env : externals) : Nat → launcher → Except failure launcher
  | 0, _ => Except.error failure.out_of_fuel
  | fuel + 1, s =>
    if s.max_running_processes ≤ s.num_running_processes then
      wait_for_admission env fuel (update_running_processes env (read_running_processes env s))
    else Except.ok s

/-- The timeout that `plugin_launch` computes for the routine `oid`, as the
three assignments to `processes[p].timeout`. -/
def launch_timeout (env : externals) (oid : Option String) : Int :=
  let timeout := env.prefs_nvt_timeout oid
  let timeout := if timeout = 0 then env.nvticache_get_timeout oid else timeout
  if timeout = 0 then
    let category := env.nvticache_get_category oid
    if category = env.ACT_SCANNER then
      atoi ((env.prefs_get "scanner_plugins_timeout").getD "-1")
    else atoi ((env.prefs_get "plugins_timeout").getD "-1")
  else timeout

/-- The part of `plugin_launch` after the slot index `p` is known: the slot is
filled field by field and the spawner called.  `global_socket` is the value
of `arg_get_value_int (globals, "global_socket")`. -/
def launch_in_slot (env : externals) (global_socket : Int) (plugin : Nat) (p : Nat)
    (s : launcher) : Int × launcher :=
  let oid := (s.plugins plugin).oid
  let slot := { s.processes p with plugin := plugin }
  let slot := { slot with timeout := launch_timeout env oid }
  let dsoc := env.socketpair s.tick
  let s := s.step
  let slot := { slot with start := env.gettimeofday s.tick }
  let s := s.step
  let slot := { slot with upstream_soc := global_socket }
  let slot := { slot with internal_soc := dsoc.2.1 }
  let slot := { slot with pid := env.nasl_plugin_launch s.tick oid dsoc.2.2 }
  let s := (s.emit (event.nasl_plugin_launch oid dsoc.2.2)).step
  let slot := { slot with alive := 1 }
  let s := s.set_process p slot
  let s := s.emit (event.close dsoc.2.2)
  let s :=
    if 0 < slot.pid then { s with num_running_processes := s.num_running_processes + 1 }
    else s.set_running_state slot.plugin plugin_status.PLUGIN_STATUS_UNRUN
  (slot.pid, s)

/-- The function `plugin_launch`, with the slot index it used next to the pid
it returns. -/
def plugin_launch_at (env : externals) (fuel : Nat) (global_socket : Int) (plugin : Nat)
    (s : launcher) : Except failure (Nat × Int × launcher) :=
  match wait_for_admission env fuel s with
  | Except.error f => Except.error f
  | Except.ok s =>
    match next_free_process env fuel plugin s with
    | Except.error f => Except.error f
    | Except.ok (p, s) =>
      if p < 0 then Except.error failure.out_of_bounds
      else Except.ok (p.toNat, launch_in_slot env global_socket plugin p.toNat s)

/-- The function `plugin_launch`: the pid it returns and the state it leaves. -/
def plugin_launch (env : externals) (fuel : Nat) (global_socket : Int) (plugin : Nat)
    (s : launcher) : Except failure (Int × launcher) :=
  match plugin_launch_at env fuel global_socket plugin s with
  | Except.error f => Except.error f
  | Except.ok r => Except.ok r.2

/-- The function `pluginlaunch_wait` (a `do ... while` loop). -/
def pluginlaunch_wait (env : externals) : Nat → launcher → Except failure launcher
  | 0, _ => Except.error failure.out_of_fuel
  | fuel + 1, s =>
    let s := update_running_processes env (read_running_processes env (wait_for_children s))
    if s.num_running_processes ≠ 0 then pluginlaunch_wait env fuel s else Except.ok s

/-- The function `pluginlaunch_child_cleanup`. -/
def pluginlaunch_child_cleanup (s : launcher) : launcher :=
  (List.range MAX_PROCESSES).foldl
    (fun st i =>
      if (st.processes i).internal_soc ≠ 0 then st.emit (event.close (st.processes i).internal_soc)
      else st)
    s

/-- The loop of `pluginlaunch_wait_for_free_process` for the count `num` read
on entry. -/
def wait_for_change (env : externals) (num : Int) : Nat → launcher → Except failure launcher
  | 0, _ => Except.error failure.out_of_fuel
  | fuel + 1, s =>
    let s := update_running_processes env (read_running_processes env (wait_for_children s))
    if s.num_running_processes = num then wait_for_change env num fuel s else Except.ok s

/-- The function `pluginlaunch_wait_for_free_process`. -/
def pluginlaunch_wait_for_free_process (env : externals) (fuel : Nat) (s : launcher) :
    Except failure launcher :=
  wait_for_change env s.num_running_processes fuel s

/-! ## Reachable launcher states -/

/-- The states the launcher can be in between two public operations: those
`pluginlaunch_init` leaves (from any earlier contents of the static
variables) and those one of the six public operations leaves when it returns
from such a state.  A launch into a full table, which writes through
`processes[-1]`, leaves no state of the model and so no reachable state. -/
inductive Reachable (env : externals) : launcher → Prop
  | init (host : Option String) (s0 s : launcher) :
      pluginlaunch_init env host s0 = Except.ok s → Reachable env s
  | launch (fuel : Nat) (global_socket : Int) (plugin : Nat) (pid : Int) (s s1 : launcher) :
      Reachable env s →
      plugin_launch env fuel global_socket plugin s = Except.ok (pid, s1) → Reachable env s1
  | wait (fuel : Nat) (s s1 : launcher) :
      Reachable env s → pluginlaunch_wait env fuel s = Except.ok s1 → Reachable env s1
  | wait_for_free_process (fuel : Nat) (s s1 : launcher) :
      Reachable env s →
      pluginlaunch_wait_for_free_process env fuel s = Except.ok s1 → Reachable env s1
  | stop (soft_stop : Int) (s : launcher) :
      Reachable env s → Reachable env (pluginlaunch_stop env soft_stop s)
  | disable (s : launcher) :
      Reachable env s → Reachable env (pluginlaunch_disable_parrallel_checks s)
  | enable (s : launcher) :
      Reachable env s → Reachable env (pluginlaunch_enable_parrallel_checks s)

/-- The number of occupied slots: indices below `MAX_PROCESSES` with a
positive pid. -/
def occupied_count (s : launcher) : Nat :=
  (List.range MAX_PROCESSES).countP (fun i => decide (0 < (s.processes i).pid))

/-- The invariant I1: the cached count equals the number of occupied slots. -/
def counted (s : launcher) : Prop :=
  s.num_running_processes = (occupied_count s : Int)

/-- What the draining steps (reading the children, sweeping the table,
reaping, stopping) may do to a state: the configuration and the oids stay,
events are only added, an occupied slot was occupied by the same pid and
routine before, a free slot is left as it is, and the count follows the
table. -/
structure Drained (s s1 : launcher) : Prop where
  max_eq : s1.max_running_processes = s.max_running_processes
  old_eq : s1.old_max_running_processes = s.old_max_running_processes
  ports_eq : s1.non_simult_ports = s.non_simult_ports
  host_eq : s1.hostname = s.hostname
  oid_eq : ∀ a, (s1.plugins a).oid = (s.plugins a).oid
  events_ext : s.events <+: s1.events
  occupied : ∀ j, 0 < (s1.processes j).pid →
    (s1.processes j).pid = (s.processes j).pid ∧ (s1.processes j).plugin = (s.processes j).plugin
  free : ∀ j, (s.processes j).pid ≤ 0 → s1.processes j = s.processes j
  count_kept : counted s → counted s1
  num_le : counted s → s1.num_running_processes ≤ s.num_running_processes

/-! ## A concrete run -/

/-- A preference store, catalog and operating system for concrete runs: two
routines `oid-R1` and `oid-R2` that both require port 139, which is one of
the non-simultaneous ports; every child is reported dead by `process_alive`,
`select` times out, the spawner hands out pids from 100 on. -/
def demo_env : externals where
  INTERNAL_COMM_MSG_TYPE_DATA := 262144
  INTERNAL_COMM_MSG_TYPE_CTRL := 65536
  INTERNAL_COMM_CTRL_FINISHED := 1
  ACT_SCANNER := 1
  prefs_get := fun name =>
    if name = "non_simult_ports" then some "139, 445"
    else if name = "plugins_timeout" then some "320"
    else none
  prefs_nvt_timeout := fun _ => 0
  nvticache_get_timeout := fun _ => 0
  nvticache_get_category := fun _ => 3
  nvticache_get_required_ports := fun oid =>
    if oid = "oid-R1" then some "139" else if oid = "oid-R2" then some "139" else none
  get_max_checks_number := 4
  gettimeofday := fun t => { tv_sec := t, tv_usec := 0 }
  internal_recv := fun _ _ => (-1, "", 0)
  internal_send := fun _ => 0
  select := fun _ _ => (0, fun _ => false)
  process_alive := fun _ _ => false
  socketpair := fun t => (0, 10 + 2 * t, 11 + 2 * t)
  nasl_plugin_launch := fun t _ _ => 100 + t

/-- The static variables before `pluginlaunch_init`, with two routine
descriptors at the addresses 1 and 2. -/
def demo_boot : launcher where
  processes := fun _ => running.zero
  num_running_processes := 0
  max_running_processes := 0
  old_max_running_processes := 0
  non_simult_ports := []
  hostname := none
  plugins := fun a =>
    if a = 1 then { oid := some "oid-R1", running_state := plugin_status.PLUGIN_STATUS_UNRUN }
    else if a = 2 then { oid := some "oid-R2", running_state := plugin_status.PLUGIN_STATUS_UNRUN }
    else { oid := none, running_state := plugin_status.PLUGIN_STATUS_UNRUN }
  tick := 0
  events := []

/-- The state a run leaves, the given state when it fails. -/
def state_of (r : Except failure launcher) (otherwise : launcher) : launcher :=
  match r with
  | Except.ok s => s
  | Except.error _ => otherwise

/-- The state a launch leaves, the given state when it fails. -/
def launched_state (r : Except failure (Int × launcher)) (otherwise : launcher) : launcher :=
  match r with
  | Except.ok x => x.2
  | Except.error _ => otherwise

/-- The concrete run after `pluginlaunch_init`. -/
def demo_init : launcher :=
  state_of (pluginlaunch_init demo_env (some "testhost") demo_boot) demo_boot

/-- The concrete run after launching the routine at address 1. -/
def demo_one : launcher :=
  launched_state (plugin_launch demo_env 1 7 1 demo_init) demo_init

/-- The concrete run after launching the routine at address 2 as well. -/
def demo_two : launcher :=
  launched_state (plugin_launch demo_env 1 7 2 demo_one) demo_one

/-- The tokens of a routine's required-ports text: the pieces of its split
on ", ", none when the routine or its text is missing. -/
def required_tokens (env : externals) (oid : Option String) : List String :=
  match oid with
  | none => []
  | some o =>
    match env.nvticache_get_required_ports o with
    | none => []
    | some ports => g_strsplit ports

/-- A catalog in which routine `a` requires port `139` and every other routine
the tokens `0139` and ` 139` (the text `0139,  139`). -/
def padded_env : externals :=
  { demo_env with
    nvticache_get_required_ports := fun oid =>
      if oid = "a" then some "139" else some "0139,  139" }

/-- The concrete environment with a configured `max_checks` of 100, which
`pluginlaunch_init` clamps. -/
def clamped_env : externals :=
  { demo_env with get_max_checks_number := 100 }

/-- The state `pluginlaunch_init` leaves for a configured `max_checks` of 100. -/
def clamped_init : launcher :=
  state_of (pluginlaunch_init clamped_env (some "testhost") demo_boot) demo_boot

/-! ## What one sweep does to a slot -/

/-- The slot is one the sweep reclaims at time `now`: occupied, and dead or
past its timeout (the condition of the `if` in `update_running_processes`). -/
def sweep_reclaims (now : timeval) (r : running) : Prop :=
  0 < r.pid ∧ (r.alive = 0 ∨ (0 < r.timeout ∧ r.timeout < now.tv_sec - r.start.tv_sec))

instance sweep_reclaims_decidable (now : timeval) (r : running) :
    Decidable (sweep_reclaims now r) := by
  unfold sweep_reclaims
  infer_instance

/-- The slot is one the sweep times out at time `now`: occupied, not marked
dead, with a positive timeout that the elapsed seconds exceed. -/
def sweep_times_out (now : timeval) (r : running) : Prop :=
  0 < r.pid ∧ r.alive ≠ 0 ∧ 0 < r.timeout ∧ r.timeout < now.tv_sec - r.start.tv_sec

instance sweep_times_out_decidable (now : timeval) (r : running) :
    Decidable (sweep_times_out now r) := by
  unfold sweep_times_out
  infer_instance

/-- The external calls the sweep makes for a slot with the contents `r` whose
routine has the oid `oid`. -/
def sweep_events (env : externals) (hostname : Option String) (oid : Option String)
    (now : timeval) (r : running) : List event :=
  if sweep_reclaims now r then
    (if r.alive ≠ 0 then
      [event.internal_send r.upstream_soc (timeout_message hostname r.timeout oid)
          env.INTERNAL_COMM_MSG_TYPE_DATA,
        event.terminate_process r.pid]
    else [event.waitpid r.pid 0]) ++ [event.close r.internal_soc]
  else []

/-- The events a function added: those of the later state after the ones the
earlier state already had. -/
def events_since (s s1 : launcher) : List event :=
  s1.events.drop s.events.length

/-- The frames among a list of events, each with the socket it was sent to. -/
def frames_sent (evs : List event) : List (Int × String × Nat) :=
  evs.filterMap (fun e =>
    match e with
    | event.internal_send soc buffer type => some (soc, buffer, type)
    | _ => none)

/-- The timeout frame as the specification writes it, for the host `h`, the
stored timeout `T` and the routine's oid `o` (`"0"` when it is missing). -/
def timeout_frame (h : String) (T : Int) (o : Option String) : String :=
  "SERVER <|> ERRMSG <|> " ++ h ++ " <|> general/tcp <|> NVT timed out after " ++ fmt_d T
    ++ " seconds. <|> "
    ++ (match o with
        | some t => t
        | none => "0")
    ++ " <|> SERVER\n"

/-- The frames the specification expects from one sweep at time `now`: one
per slot that is timed out, in index order. -/
def expected_frames (env : externals) (s : launcher) (h : String) (now : timeval) :
    List (Int × String × Nat) :=
  (List.range MAX_PROCESSES).filterMap (fun i =>
    if sweep_times_out now (s.processes i) then
      some ((s.processes i).upstream_soc,
        timeout_frame h (s.processes i).timeout (s.plugins (s.processes i).plugin).oid,
        env.INTERNAL_COMM_MSG_TYPE_DATA)
    else none)

/-- The concrete run after one launch, at the time 321: the only routine has
the timeout 320 and was started at the time 1. -/
def boundary_state : launcher :=
  { demo_one with tick := 321 }

/-- A state for the timeout scenario at time 5: slot 0 holds the routine
`oid-R` for the host `testhost` with the timeout 1, started at time 0 and not
marked dead; slot 1 holds a routine marked dead; slot 2 a live routine
without an oid and with the timeout 2. -/
def timeout_state : launcher where
  processes := fun i =>
    if i = 0 then
      { plugin := 3, start := { tv_sec := 0, tv_usec := 0 }, pid := 100, timeout := 1,
        upstream_soc := 7, internal_soc := 10, alive := 1 }
    else if i = 1 then
      { plugin := 4, start := { tv_sec := 0, tv_usec := 0 }, pid := 101, timeout := 1,
        upstream_soc := 7, internal_soc := 12, alive := 0 }
    else if i = 2 then
      { plugin := 5, start := { tv_sec := 1, tv_usec := 0 }, pid := 102, timeout := 2,
        upstream_soc := 7, internal_soc := 14, alive := 1 }
    else running.zero
  num_running_processes := 3
  max_running_processes := 4
  old_max_running_processes := 4
  non_simult_ports := []
  hostname := some "testhost"
  plugins := fun a =>
    if a = 3 then { oid := some "oid-R", running_state := plugin_status.PLUGIN_STATUS_RUNNING }
    else if a = 4 then
      { oid := some "oid-S", running_state := plugin_status.PLUGIN_STATUS_RUNNING }
    else { oid := none, running_state := plugin_status.PLUGIN_STATUS_RUNNING }
  tick := 5
  events := []

/-! ## The timeout stored at launch, as the specification words it -/

/-- The integer value of a preference, `-1` when the preference is absent. -/
def preference_value (env : externals) (name : String) : Int :=
  match env.prefs_get name with
  | some text => atoi text
  | none => -1

/-- The preference that holds the default timeout of a routine's category. -/
def default_timeout_preference (env : externals) (oid : Option String) : String :=
  if env.nvticache_get_category oid = env.ACT_SCANNER then "scanner_plugins_timeout"
  else "plugins_timeout"

/-- The timeout of a routine as the specification resolves it: the
per-routine override if non-zero, else the catalog value if non-zero, else
the value of the category's default preference. -/
def claimed_timeout (env : externals) (oid : Option String) : Int :=
  if env.prefs_nvt_timeout oid ≠ 0 then env.prefs_nvt_timeout oid
  else if env.nvticache_get_timeout oid ≠ 0 then env.nvticache_get_timeout oid
  else preference_value env (default_timeout_preference env oid)

/-- The concrete environment with the preference `plugins_timeout` set to
the text `0`. -/
def zero_timeout_env : externals :=
  { demo_env with
    prefs_get := fun name =>
      if name = "non_simult_ports" then some "139, 445"
      else if name = "plugins_timeout" then some "0"
      else none }

/-- The concrete environment with the preference `plugins_timeout` set to a
text that is no number. -/
def text_timeout_env : externals :=
  { demo_env with
    prefs_get := fun name =>
      if name = "non_simult_ports" then some "139, 445"
      else if name = "plugins_timeout" then some "never"
      else none }

/-- The state a launch with `plugins_timeout = 0` leaves. -/
def zero_timeout_one : launcher :=
  launched_state (plugin_launch zero_timeout_env 1 7 1 demo_init) demo_init

/-- The state a launch with a non-numeric `plugins_timeout` leaves. -/
def text_timeout_one : launcher :=
  launched_state (plugin_launch text_timeout_env 1 7 1 demo_init) demo_init

/-- The timeout scenario with the cached count set to 0. -/
def idle_state : launcher :=
  { timeout_state with num_running_processes := 0 }

/-- What the draining steps may do to the routine descriptors: a
`running_state` is left as it is or set to DONE. -/
def StateKept (s s1 : launcher) : Prop :=
  ∀ a, (s1.plugins a).running_state = (s.plugins a).running_state
    ∨ (s1.plugins a).running_state = plugin_status.PLUGIN_STATUS_DONE

/-! ## A concrete run with a failed launch -/

/-- The concrete environment with a spawner that succeeds on its first call
(the third external call of the run) and returns `-1` afterwards. -/
def flaky_env : externals :=
  { demo_env with nasl_plugin_launch := fun t _ _ => if t < 3 then 100 + t else -1 }

/-- The static variables before `pluginlaunch_init`, with the two routine
descriptors already marked RUNNING by the caller. -/
def queued_boot : launcher :=
  { demo_boot with
    plugins := fun a =>
      if a = 1 then
        { oid := some "oid-R1", running_state := plugin_status.PLUGIN_STATUS_RUNNING }
      else if a = 2 then
        { oid := some "oid-R2", running_state := plugin_status.PLUGIN_STATUS_RUNNING }
      else { oid := none, running_state := plugin_status.PLUGIN_STATUS_UNRUN } }

/-- The run with the flaky spawner after `pluginlaunch_init`. -/
def flaky_init : launcher :=
  state_of (pluginlaunch_init flaky_env (some "testhost") queued_boot) queued_boot

/-- The run with the flaky spawner after the launch of the routine at
address 1, which succeeds. -/
def flaky_one : launcher :=
  launched_state (plugin_launch flaky_env 1 7 1 flaky_init) flaky_init

/-- The run with the flaky spawner after the launch of the routine at
address 2, which fails. -/
def flaky_two : launcher :=
  launched_state (plugin_launch flaky_env 1 7 2 flaky_one) flaky_one

/-- The run with the flaky spawner after `pluginlaunch_stop (0)` and
`pluginlaunch_wait`. -/
def flaky_stopped : launcher :=
  state_of (pluginlaunch_wait flaky_env 1 (pluginlaunch_stop flaky_env 0 flaky_two)) flaky_two

/-- The concrete environment with the preference `non_simult_ports` changed
to `80`. -/
def reinit_env : externals :=
  { demo_env with
    prefs_get := fun name => if name = "non_simult_ports" then some "80" else none }

/-- The state a second `pluginlaunch_init`, with the changed preference,
leaves after the first one. -/
def reinit_state : launcher :=
  state_of (pluginlaunch_init reinit_env (some "otherhost") demo_init) demo_init

/-- The state after `n` calls of `update_running_processes`. -/
def sweeps (env : externals) : Nat → launcher → launcher
  | 0, s => s
  | n + 1, s => sweeps env n (update_running_processes env s)

/-- The timeout scenario with the timeout of slot 2 set to `-1`. -/
def patient_state : launcher :=
  { timeout_state with
    processes := fun i =>
      if i = 2 then { timeout_state.processes 2 with timeout := -1 }
      else timeout_state.processes i }

/-! ## Frames read from one child -/

/-- The state after `n` calls of `process_internal_msg` for slot `p`. -/
def pump (env : externals) (p : Nat) : Nat → launcher → launcher
  | 0, s => s
  | n + 1, s => pump env p n (process_internal_msg env p s).2

/-- The answers of `internal_recv` in `n` successive calls of
`process_internal_msg` for slot `p`: return value, buffer and type. -/
def received (env : externals) (p : Nat) : Nat → launcher → List (Int × String × Nat)
  | 0, _ => []
  | n + 1, s =>
    env.internal_recv s.tick (s.processes p).internal_soc
      :: received env p n (process_internal_msg env p s).2

/-- The answer of `internal_recv` is a frame (no error) with the DATA bit. -/
def is_data_frame (env : externals) (f : Int × String × Nat) : Bool :=
  decide (0 ≤ f.1) && decide (f.2.2 &&& env.INTERNAL_COMM_MSG_TYPE_DATA ≠ 0)

/-- The concrete environment with children that always send the buffer
`hello` in a frame with the DATA, CONTROL and FINISHED bits. -/
def chatty_env : externals :=
  { demo_env with internal_recv := fun _ _ => (0, "hello", 262144 + 65536 + 1) }

/-! ## The preference cache (`src/src/preferences.c`) -/

/-- An argument list as far as `preferences.c` reads it: the value and the
type stored under a name (`arg_get_value`, `arg_get_type` of the arglist
library, which is not under `src/`); `none` is `NULL`. -/
structure arglist where
  arg_get_value : String → Option String
  arg_get_type : String → Int

/-- Constants of headers that are not under `src/`: the host-expansion flags
and the default timeout `NVT_TIMEOUT`. -/
structure pref_constants where
  HG_NFS : Nat
  HG_DNS_AXFR : Nat
  HG_SUBNET : Nat
  HG_REVLOOKUP : Nat
  NVT_TIMEOUT : Int

/-- The `static` variables of the cached getters of `preferences.c`, one
field per function. -/
structure prefs_cache where
  host_expansion : Int
  checks_read_timeout : Int
  log_whole_attack : Int
  optimize_test : Int
  log_plugins_at_load : Int
  ntp_show_end : Int
  plugins_timeout : Int
  benice : Int
  save_session : Int
  save_empty_sessions : Int
  autoload_dependencies : Int
  safe_checks_enabled : Int
  use_mac_addr : Int
  nasl_no_signature_check : Int
  report_killed_plugins : Int
  silent_dependencies : Int
  network_scan : Int
deriving DecidableEq, Repr

/-- The C library's `strstr (haystack, needle) != NULL` on character lists. -/
def strstr_chars (needle : List Char) : List Char → Bool
  | [] => needle.isEmpty
  | c :: rest => needle.isPrefixOf (c :: rest) || strstr_chars needle rest

/-- The test `strstr (haystack, needle) != NULL`. -/
def strstr_found (haystack needle : String) : Bool :=
  strstr_chars needle.data haystack.data

/-- The function `preferences_get_host_expansion`. -/
def preferences_get_host_expansion (k : pref_constants) (preferences : Option arglist)
    (c : prefs_cache) : Int × prefs_cache :=
  match preferences with
  | none => (-1, { c with host_expansion := -1 })
  | some a =>
    if c.host_expansion ≥ 0 then (c.host_expansion, c)
    else
      let ret : Nat := 0
      let ret : Nat :=
        match a.arg_get_value "host_expansion" with
        | none => k.HG_SUBNET
        | some pref =>
          let ret : Nat := if strstr_found pref "dns" then ret ||| k.HG_DNS_AXFR else ret
          let ret : Nat := if strstr_found pref "nfs" then ret ||| k.HG_NFS else ret
          if strstr_found pref "ip" then ret ||| k.HG_SUBNET else ret
      let ret : Nat :=
        match a.arg_get_value "reverse_lookup" with
        | some pref => if strstr_found pref "yes" then ret ||| k.HG_REVLOOKUP else ret
        | none => ret
      ((ret : Int), { c with host_expansion := (ret : Int) })

/-- The function `preferences_get_checks_read_timeout`. -/
def preferences_get_checks_read_timeout (preferences : Option arglist) (c : prefs_cache) :
    Int × prefs_cache :=
  match preferences with
  | none => (-1, { c with checks_read_timeout := -1 })
  | some a =>
    if c.checks_read_timeout ≥ 0 then (c.checks_read_timeout, c)
    else
      let ret :=
        match a.arg_get_value "checks_read_timeout" with
        | some pref => if atoi pref = 0 then 15 else atoi pref
        | none => 15
      (ret, { c with checks_read_timeout := ret })

/-- The function `preferences_log_whole_attack`. -/
def preferences_log_whole_attack (preferences : Option arglist) (c : prefs_cache) :
    Int × prefs_cache :=
  match preferences with
  | none => (-1, { c with log_whole_attack := -1 })
  | some a =>
    if c.log_whole_attack ≥ 0 then (c.log_whole_attack, c)
    else
      let yes :=
        match a.arg_get_value "log_whole_attack" with
        | some value => if value ≠ "yes" then 0 else 1
        | none => 1
      (yes, { c with log_whole_attack := yes })

/-- The function `preferences_optimize_test`. -/
def preferences_optimize_test (preferences : Option arglist) (c : prefs_cache) :
    Int × prefs_cache :=
  match preferences with
  | none => (-1, { c with optimize_test := -1 })
  | some a =>
    if c.optimize_test ≥ 0 then (c.optimize_test, c)
    else
      let yes :=
        match a.arg_get_value "optimize_test" with
        | some optimize_asc => if optimize_asc = "no" then 0 else 1
        | none => 1
      (yes, { c with optimize_test := yes })

/-- The function `preferences_plugins_timeout`. -/
def preferences_plugins_timeout (k : pref_constants) (preferences : Option arglist)
    (c : prefs_cache) : Int × prefs_cache :=
  match preferences with
  | none => (-1, { c with plugins_timeout := -1 })
  | some a =>
    if c.plugins_timeout ≥ 0 then (c.plugins_timeout, c)
    else
      let timeout :=
        match a.arg_get_value "plugins_timeout" with
        | some pref => if atoi pref = 0 then k.NVT_TIMEOUT else atoi pref
        | none => k.NVT_TIMEOUT
      (timeout, { c with plugins_timeout := timeout })

/-- The test `pref && !strcmp (pref, "yes")` as the value stored in `yes`. -/
def yes_value (pref : Option String) : Int :=
  match pref with
  | some value => if value = "yes" then 1 else 0
  | none => 0

/-- The function `preferences_benice`: with `NULL` it returns the cached
value and does not touch it. -/
def preferences_benice (preferences : Option arglist) (c : prefs_cache) : Int × prefs_cache :=
  match preferences with
  | none => (c.benice, c)
  | some a =>
    if c.benice ≥ 0 then (c.benice, c)
    else
      let yes := yes_value (a.arg_get_value "be_nice")
      (yes, { c with benice := yes })

/-- The function `preferences_save_empty_sessions`, which returns `yes == 1`
after filling the cache. -/
def preferences_save_empty_sessions (preferences : Option arglist) (c : prefs_cache) :
    Int × prefs_cache :=
  match preferences with
  | none => (-1, { c with save_empty_sessions := -1 })
  | some a =>
    if c.save_empty_sessions ≥ 0 then (c.save_empty_sessions, c)
    else
      let yes := yes_value (a.arg_get_value "save_empty_sessions")
      ((if yes = 1 then 1 else 0), { c with save_empty_sessions := yes })

/-- The function `preferences_report_killed_plugins`. -/
def preferences_report_killed_plugins (preferences : Option arglist) (c : prefs_cache) :
    Int × prefs_cache :=
  match preferences with
  | none => (-1, { c with report_killed_plugins := -1 })
  | some a =>
    if c.report_killed_plugins ≥ 0 then (c.report_killed_plugins, c)
    else
      let yes :=
        match a.arg_get_value "report_killed_plugins" with
        | none => 0
        | some pref => if pref ≠ "yes" then 0 else 1
      (yes, { c with report_killed_plugins := yes })

/-- The function `preferences_log_plugins_at_load`. -/
def preferences_log_plugins_at_load (preferences : Option arglist) (c : prefs_cache) :
    Int × prefs_cache :=
  match preferences with
  | none => (-1, { c with log_plugins_at_load := -1 })
  | some a =>
    if c.log_plugins_at_load ≥ 0 then (c.log_plugins_at_load, c)
    else
      let yes := yes_value (a.arg_get_value "log_plugins_name_at_load")
      (yes, { c with log_plugins_at_load := yes })

/-- The function `preferences_ntp_show_end`. -/
def preferences_ntp_show_end (preferences : Option arglist) (c : prefs_cache) :
    Int × prefs_cache :=
  match preferences with
  | none => (-1, { c with ntp_show_end := -1 })
  | some a =>
    if c.ntp_show_end ≥ 0 then (c.ntp_show_end, c)
    else
      let yes := yes_value (a.arg_get_value "ntp_opt_show_end")
      (yes, { c with ntp_show_end := yes })

/-- The function `preferences_save_session`. -/
def preferences_save_session (preferences : Option arglist) (c : prefs_cache) :
    Int × prefs_cache :=
  match preferences with
  | none => (-1, { c with save_session := -1 })
  | some a =>
    if c.save_session ≥ 0 then (c.save_session, c)
    else
      let yes := yes_value (a.arg_get_value "save_session")
      (yes, { c with save_session := yes })

/-- The function `preferences_autoload_dependencies`. -/
def preferences_autoload_dependencies (preferences : Option arglist) (c : prefs_cache) :
    Int × prefs_cache :=
  match preferences with
  | none => (-1, { c with autoload_dependencies := -1 })
  | some a =>
    if c.autoload_dependencies ≥ 0 then (c.autoload_dependencies, c)
    else
      let yes := yes_value (a.arg_get_value "auto_enable_dependencies")
      (yes, { c with autoload_dependencies := yes })

/-- The function `preferences_safe_checks_enabled`. -/
def preferences_safe_checks_enabled (preferences : Option arglist) (c : prefs_cache) :
    Int × prefs_cache :=
  match preferences with
  | none => (-1, { c with safe_checks_enabled := -1 })
  | some a =>
    if c.safe_checks_enabled ≥ 0 then (c.safe_checks_enabled, c)
    else
      let yes := yes_value (a.arg_get_value "safe_checks")
      (yes, { c with safe_checks_enabled := yes })

/-- The function `preferences_use_mac_addr`. -/
def preferences_use_mac_addr (preferences : Option arglist) (c : prefs_cache) :
    Int × prefs_cache :=
  match preferences with
  | none => (-1, { c with use_mac_addr := -1 })
  | some a =>
    if c.use_mac_addr ≥ 0 then (c.use_mac_addr, c)
    else
      let yes := yes_value (a.arg_get_value "use_mac_addr")
      (yes, { c with use_mac_addr := yes })

/-- The function `preferences_nasl_no_signature_check`. -/
def preferences_nasl_no_signature_check (preferences : Option arglist) (c : prefs_cache) :
    Int × prefs_cache :=
  match preferences with
  | none => (-1, { c with nasl_no_signature_check := -1 })
  | some a =>
    if c.nasl_no_signature_check ≥ 0 then (c.nasl_no_signature_check, c)
    else
      let yes := yes_value (a.arg_get_value "nasl_no_signature_check")
      (yes, { c with nasl_no_signature_check := yes })

/-- The function `preferences_silent_dependencies`. -/
def preferences_silent_dependencies (preferences : Option arglist) (c : prefs_cache) :
    Int × prefs_cache :=
  match preferences with
  | none => (-1, { c with silent_dependencies := -1 })
  | some a =>
    if c.silent_dependencies ≥ 0 then (c.silent_dependencies, c)
    else
      let yes := yes_value (a.arg_get_value "silent_dependencies")
      (yes, { c with silent_dependencies := yes })

/-- The function `preferences_network_scan`. -/
def preferences_network_scan (preferences : Option arglist) (c : prefs_cache) :
    Int × prefs_cache :=
  match preferences with
  | none => (-1, { c with network_scan := -1 })
  | some a =>
    if c.network_scan ≥ 0 then (c.network_scan, c)
    else
      let yes := yes_value (a.arg_get_value "network_scan")
      (yes, { c with network_scan := yes })

/-- The function `preferences_reset_cache`: the calls with `NULL`, in the
order of the source. -/
def preferences_reset_cache (k : pref_constants) (c : prefs_cache) : prefs_cache :=
  let c := (preferences_get_host_expansion k none c).2
  let c := (preferences_get_checks_read_timeout none c).2
  let c := (preferences_log_whole_attack none c).2
  let c := (preferences_report_killed_plugins none c).2
  let c := (preferences_optimize_test none c).2
  let c := (preferences_ntp_show_end none c).2
  let c := (preferences_log_plugins_at_load none c).2
  let c := (preferences_plugins_timeout k none c).2
  let c := (preferences_benice none c).2
  let c := (preferences_autoload_dependencies none c).2
  let c := (preferences_safe_checks_enabled none c).2
  let c := (preferences_use_mac_addr none c).2
  let c := (preferences_save_session none c).2
  let c := (preferences_save_empty_sessions none c).2
  (preferences_silent_dependencies none c).2

/-- The caches as the program starts: every `static` is `-1`. -/
def fresh_cache : prefs_cache :=
  { host_expansion := -1, checks_read_timeout := -1, log_whole_attack := -1,
    optimize_test := -1, log_plugins_at_load := -1, ntp_show_end := -1,
    plugins_timeout := -1, benice := -1, save_session := -1, save_empty_sessions := -1,
    autoload_dependencies := -1, safe_checks_enabled := -1, use_mac_addr := -1,
    nasl_no_signature_check := -1, report_killed_plugins := -1, silent_dependencies := -1,
    network_scan := -1 }

/-- Concrete header constants. -/
def demo_constants : pref_constants :=
  { HG_NFS := 1, HG_DNS_AXFR := 2, HG_SUBNET := 4, HG_REVLOOKUP := 16, NVT_TIMEOUT := 320 }

/-- An argument list in which every preference has the value `yes`. -/
def all_yes : arglist :=
  { arg_get_value := fun _ => some "yes", arg_get_type := fun _ => 1 }

/-- An argument list in which every preference has the value `no`. -/
def all_no : arglist :=
  { arg_get_value := fun _ => some "no", arg_get_type := fun _ => 1 }

/-- The caches after `preferences_benice`, `preferences_nasl_no_signature_check`,
`preferences_network_scan` and `preferences_silent_dependencies` have been
called with the list `all_yes`. -/
def warm_cache : prefs_cache :=
  (preferences_silent_dependencies (some all_yes)
    (preferences_network_scan (some all_yes)
      (preferences_nasl_no_signature_check (some all_yes)
        (preferences_benice (some all_yes) fresh_cache).2).2).2).2

/-- What the draining steps may do to a slot record: its pid is kept, or the
record is all zero (the slot was reclaimed). -/
def Vacated (s s1 : launcher) : Prop :=
  ∀ j, (s1.processes j).pid = (s.processes j).pid ∨ s1.processes j = running.zero

/-- The state in which `next_free_process` returns in the concrete run with
one routine running, when the routine at address 2 is upcoming. -/
def demo_free : launcher :=
  launched_state (next_free_process demo_env 1 2 demo_one) demo_one

/-- A state whose cached count is 1 while no slot is occupied: the state
after `pluginlaunch_init` of the concrete run with the count set to 1. -/
def stale_state : launcher :=
  { demo_init with num_running_processes := 1 }

/-- The concrete environment with a `select` that fails with `-1`. -/
def failing_select_env : externals :=
  { demo_env with select := fun _ _ => (-1, fun _ => false) }

/-! ## Reading preferences (`src/src/preferences.c`) -/

/-- The function `preferences_get_string`; `none` is `NULL`. -/
def preferences_get_string (preferences : arglist) (name : String) : Option String :=
  match preferences.arg_get_value name with
  | some pref => if pref ≠ "" ∧ pref ≠ "no" then some pref else none
  | none => none

/-- The function `preferences_plugin_timeout`.  `ARG_STRING` is a constant of
the arglist header, which is not under `src/`.  When the entry has the type
`ARG_STRING` and no value, `atoi` is called with `NULL`. -/
def preferences_plugin_timeout (ARG_STRING : Int) (preferences : arglist)
    (oid : Option String) : Except failure Int :=
  let ret : Int := 0
  let pref_name := "timeout." ++ fmt_s oid
  if preferences.arg_get_type pref_name = ARG_STRING then
    match preferences.arg_get_value pref_name with
    | none => Except.error failure.null_dereference
    | some text =>
      let timeout := atoi text
      if timeout ≠ 0 then Except.ok timeout else Except.ok ret
  else Except.ok ret

/-- An argument list in which `report_email` is the empty string, `kb_dir`
is `no` and `logfile` is `/var/log/openvas.log`; the routine `1.3.6.1` has
the timeout `120` and the routine `1.3.6.2` the timeout `0`, both stored as
strings (type 1). -/
def sample_prefs : arglist where
  arg_get_value := fun name =>
    if name = "report_email" then some ""
    else if name = "kb_dir" then some "no"
    else if name = "logfile" then some "/var/log/openvas.log"
    else if name = "timeout.1.3.6.1" then some "120"
    else if name = "timeout.1.3.6.2" then some "0"
    else none
  arg_get_type := fun name =>
    if name = "report_email" ∨ name = "kb_dir" ∨ name = "logfile"
        ∨ name = "timeout.1.3.6.1" ∨ name = "timeout.1.3.6.2" then 1
    else -1

/-! ### One line of the configuration file -/

/-- The byte that ends a C string. -/
def NUL : Char := Char.ofNat 0

/-- The value `strlen (buffer + start)`. -/
def strlen_from (buffer : List Char) (start : Nat) : Nat :=
  ((buffer.drop start).takeWhile (fun c => decide (c ≠ NUL))).length

/-- The C string that starts at index `start` of the buffer. -/
def string_from (buffer : List Char) (start : Nat) : List Char :=
  (buffer.drop start).takeWhile (fun c => decide (c ≠ NUL))

/-- The index `strchr (buffer, c) - buffer`, `none` when `strchr` returns
`NULL`. -/
def strchr_index (buffer : List Char) (c : Char) : Option Nat :=
  let text := string_from buffer 0
  let i := text.findIdx (fun x => decide (x = c))
  if i < text.length then some i else none

/-- The state of one of the two trimming loops of `preferences_process`: the
buffer, the variable `len`, and the indices `len - 1` of the trimmed string
that the loop has read and written so far. -/
structure trimmed where
  buffer : List Char
  len : Int
  reads : List Int
  writes : List Int
deriving DecidableEq, Repr

/-- The loop `while (str[len - 1] == ' ') { str[len - 1] = '\0'; len--; }`
for the string `str = buffer + base`, with a bound on its iterations.  An
access below the first byte of the array `buffer` yields
`failure.out_of_bounds`; an access below `str` that is still inside the array
is performed and recorded with its negative index. -/
def trim_trailing (base : Nat) : Nat → trimmed → Except failure trimmed
  | 0, _ => Except.error failure.out_of_fuel
  | fuel + 1, st =>
    let pos : Int := (base : Int) + (st.len - 1)
    if pos < 0 then Except.error failure.out_of_bounds
    else
      let st := { st with reads := st.reads ++ [st.len - 1] }
      if st.buffer.getD pos.toNat NUL = ' ' then
        trim_trailing base fuel
          { st with
            buffer := st.buffer.set pos.toNat NUL
            writes := st.writes ++ [st.len - 1]
            len := st.len - 1 }
      else Except.ok st

/-- The head of the loop body of `preferences_process` for the characters
`line` that `fgets` stored: the newline is removed, a comment line or a line
without `=` is skipped (`none`), otherwise the `=` is overwritten with the
terminating byte and `t` moved past it and past the blanks that follow.  The
result is the buffer and the index of `t`.  For an empty string the test
`buffer[len - 1] == '\n'` reads the byte before the array. -/
def split_line (line : List Char) : Except failure (Option (List Char × Nat)) :=
  let buffer := line ++ [NUL]
  let len := strlen_from buffer 0
  if len = 0 then Except.error failure.out_of_bounds
  else
    let buffer := if buffer.getD (len - 1) NUL = '\n' then buffer.set (len - 1) NUL else buffer
    if buffer.getD 0 NUL = '#' then Except.ok none
    else
      match strchr_index buffer '=' with
      | none => Except.ok none
      | some e =>
        let buffer := buffer.set e NUL
        let t := e + 1
        let t := t + ((buffer.drop t).takeWhile (fun c => decide (c = ' '))).length
        Except.ok (some (buffer, t))

/-- The first trimming loop, on the option name `opt = buffer`. -/
def trim_name (buffer : List Char) : Except failure trimmed :=
  trim_trailing 0 (buffer.length + 1)
    { buffer := buffer, len := (strlen_from buffer 0 : Int), reads := [], writes := [] }

/-- The second trimming loop, on the value `t`. -/
def trim_value (buffer : List Char) (t : Nat) : Except failure trimmed :=
  trim_trailing t (buffer.length + 1)
    { buffer := buffer, len := (strlen_from buffer t : Int), reads := [], writes := [] }

/-- The two trimming loops of `preferences_process` for one line, one after
the other: the index of `t`, the state the loop on the name leaves and the
state the loop on the value leaves; `none` for a skipped line. -/
def trim_line (line : List Char) : Except failure (Option (Nat × trimmed × trimmed)) :=
  match split_line line with
  | Except.error f => Except.error f
  | Except.ok none => Except.ok none
  | Except.ok (some (buffer, t)) =>
    match trim_name buffer with
    | Except.error f => Except.error f
    | Except.ok a =>
      match trim_value a.buffer t with
      | Except.error f => Except.error f
      | Except.ok b => Except.ok (some (t, a, b))

/-- The loop body of `preferences_process` for one line: the name and the
value it passes to `arg_add_value`, `none` for a skipped line.  With a
negative `len` the call `strncpy (value, t, len)` writes past the
`len + 1` bytes of `value`. -/
def preferences_process_line (line : List Char) : Except failure (Option (String × String)) :=
  match trim_line line with
  | Except.error f => Except.error f
  | Except.ok none => Except.ok none
  | Except.ok (some (t, _, b)) =>
    if b.len < 0 then Except.error failure.out_of_bounds
    else
      Except.ok (some (String.mk (string_from b.buffer 0),
        String.mk ((string_from b.buffer t).take b.len.toNat)))

/-! ## A launch into a full table -/

/-- The part of `plugin_launch` after the slot index is known, for the index
`-1` that `next_free_process` returns when no slot is free.  The record
`processes[-1]` lies before the table: it is taken as memory of its own, with
the contents `outside` before the call, so the seven assignments change no
slot of the table; the test `processes[p].pid > 0` reads the pid just stored
there.  The result is the pid returned, the record left before the table and
the state. -/
def launch_outside_table (env : externals) (global_socket : Int) (plugin : Nat)
    (outside : running) (s : launcher) : Int × running × launcher :=
  let oid := (s.plugins plugin).oid
  let slot := { outside with plugin := plugin }
  let slot := { slot with timeout := launch_timeout env oid }
  let dsoc := env.socketpair s.tick
  let s := s.step
  let slot := { slot with start := env.gettimeofday s.tick }
  let s := s.step
  let slot := { slot with upstream_soc := global_socket }
  let slot := { slot with internal_soc := dsoc.2.1 }
  let slot := { slot with pid := env.nasl_plugin_launch s.tick oid dsoc.2.2 }
  let s := (s.emit (event.nasl_plugin_launch oid dsoc.2.2)).step
  let slot := { slot with alive := 1 }
  let s := s.emit (event.close dsoc.2.2)
  let s :=
    if 0 < slot.pid then { s with num_running_processes := s.num_running_processes + 1 }
    else s.set_running_state slot.plugin plugin_status.PLUGIN_STATUS_UNRUN
  (slot.pid, slot, s)

/-- The state after `n` further calls of `plugin_launch`, for the routines at
the addresses `a`, `a + 1`, ...; a call that yields no state is skipped. -/
def launches (env : externals) : Nat → Nat → launcher → launcher
  | 0, _, s => s
  | n + 1, a, s => launches env n (a + 1) (launched_state (plugin_launch env 1 7 a s) s)

/-- A concrete environment with a configured `max_checks` of 100, routines
without required ports and children that stay alive. -/
def crowded_env : externals :=
  { demo_env with
    get_max_checks_number := 100
    nvticache_get_required_ports := fun _ => none
    process_alive := fun _ _ => true }

/-- The static variables before `pluginlaunch_init`, with a routine descriptor
at every address. -/
def crowded_boot : launcher :=
  { demo_boot with
    plugins := fun a =>
      { oid := some ("1.3.6.1.4.1.25623.1.0." ++ Nat.repr a),
        running_state := plugin_status.PLUGIN_STATUS_UNRUN } }

/-- The run with `max_checks = 100` after `pluginlaunch_init`. -/
def crowded_init : launcher :=
  state_of (pluginlaunch_init crowded_env (some "testhost") crowded_boot) crowded_boot

/-- The run with `max_checks = 100` after `pluginlaunch_init`,
`pluginlaunch_enable_parrallel_checks` and 32 launches, of the routines at the
addresses 1 to 32. -/
def full_table : launcher :=
  launches crowded_env 32 1 (pluginlaunch_enable_parrallel_checks crowded_init)

/-- The state in which `next_free_process` returns during the 33rd launch. -/
def full_free : launcher :=
  launched_state (next_free_process crowded_env 1 33 full_table) full_table

/-! # Proofs -/

/-! ## The conflict decision -/

theorem mem_foldl_match (list : List String) (piece t : String) (init : List String) :
    t ∈ list.foldl (fun acc tmp => if tmp = piece then tmp :: acc else acc) init
      ↔ t ∈ init ∨ (t = piece ∧ t ∈ list) := by
  induction list generalizing init with
  | nil => simp
  | cons x xs ih =>
    simp only [List.foldl_cons, ih, List.mem_cons]
    by_cases hx : x = piece
    · subst hx
      simp only [if_true, List.mem_cons]
      constructor
      · rintro (h | h)
        · rcases h with h | h
          · exact Or.inr ⟨h, Or.inl h⟩
          · exact Or.inl h
        · exact Or.inr ⟨h.1, Or.inr h.2⟩
      · rintro (h | ⟨h1, h2⟩)
        · exact Or.inl (Or.inr h)
        · exact Or.inl (Or.inl h1)
    · simp only [hx, if_false]
      constructor
      · rintro (h | h)
        · exact Or.inl h
        · exact Or.inr ⟨h.1, Or.inr h.2⟩
      · rintro (h | ⟨h1, h2⟩)
        · exact Or.inl h
        · rcases h2 with h2 | h2
          · exact absurd (h2.symm.trans h1) hx
          · exact Or.inr ⟨h1, h2⟩

theorem mem_foldl_pieces (pieces list : List String) (t : String) (init : List String) :
    t ∈ pieces.foldl
        (fun common_ports piece =>
          list.foldl (fun acc tmp => if tmp = piece then tmp :: acc else acc) common_ports)
        init
      ↔ t ∈ init ∨ (t ∈ pieces ∧ t ∈ list) := by
  induction pieces generalizing init with
  | nil => simp
  | cons p ps ih =>
    simp only [List.foldl_cons, ih, mem_foldl_match, List.mem_cons]
    constructor
    · rintro ((h | ⟨h1, h2⟩) | ⟨h1, h2⟩)
      · exact Or.inl h
      · exact Or.inr ⟨Or.inl h1, h2⟩
      · exact Or.inr ⟨Or.inr h1, h2⟩
    · rintro (h | ⟨h1 | h1, h2⟩)
      · exact Or.inl (Or.inl h)
      · exact Or.inl (Or.inr ⟨h1, h2⟩)
      · exact Or.inr ⟨h1, h2⟩

theorem mem_required_ports_in_list (env : externals) (oid : Option String)
    (list : List String) (t : String) :
    t ∈ required_ports_in_list env oid list ↔ t ∈ required_tokens env oid ∧ t ∈ list := by
  unfold required_ports_in_list required_tokens
  cases oid with
  | none => simp
  | some o =>
    by_cases hl : list = []
    · simp [hl]
    · cases hp : env.nvticache_get_required_ports o with
      | none => simp [hl, hp]
      | some ports => simp [hl, hp, mem_foldl_pieces]

theorem common_iff (list1 list2 : List String) :
    common list1 list2 = true ↔ ∃ t, t ∈ list1 ∧ t ∈ list2 := by
  unfold common
  by_cases h : list1 = [] ∨ list2 = []
  · rcases h with h | h <;> simp [h]
  · simp only [h, if_false, List.any_eq_true, beq_iff_eq]
    constructor
    · rintro ⟨a, ha, b, hb, hab⟩
      exact ⟨a, ha, hab ▸ hb⟩
    · rintro ⟨t, h1, h2⟩
      exact ⟨t, h1, t, h2, rfl⟩

theorem simult_ports_iff_exists (env : externals) (non_simult_ports : List String)
    (oid next_oid : Option String) :
    simult_ports env non_simult_ports oid next_oid = true
      ↔ ∃ t, t ∈ required_tokens env oid ∧ t ∈ required_tokens env next_oid
            ∧ t ∈ non_simult_ports := by
  unfold simult_ports
  simp only [Bool.and_eq_true, decide_eq_true_eq, common_iff]
  constructor
  · rintro ⟨⟨h1, _⟩, t, ht1, ht2⟩
    simp only [h1, ne_eq, not_false_eq_true, if_true] at ht2
    rw [mem_required_ports_in_list] at ht1 ht2
    exact ⟨t, ht1.1, ht2.1, ht1.2⟩
  · rintro ⟨t, h1, h2, h3⟩
    have m1 : t ∈ required_ports_in_list env oid non_simult_ports :=
      (mem_required_ports_in_list env oid non_simult_ports t).2 ⟨h1, h3⟩
    have m2 : t ∈ required_ports_in_list env next_oid non_simult_ports :=
      (mem_required_ports_in_list env next_oid non_simult_ports t).2 ⟨h2, h3⟩
    have n1 : required_ports_in_list env oid non_simult_ports ≠ [] := List.ne_nil_of_mem m1
    have n2 : required_ports_in_list env next_oid non_simult_ports ≠ [] := List.ne_nil_of_mem m2
    simp only [n1, ne_eq, not_false_eq_true, if_true]
    exact ⟨⟨trivial, n2⟩, t, m1, m2⟩



/-! ## Counting occupied slots -/

theorem countP_range_update (f : Nat → running) (i : Nat) (r : running) (n : Nat)
    (hi : i < n) :
    (List.range n).countP (fun j => decide (0 < (Function.update f i r j).pid))
        + (if 0 < (f i).pid then 1 else 0)
      = (List.range n).countP (fun j => decide (0 < (f j).pid))
        + (if 0 < r.pid then 1 else 0) := by
  induction n with
  | zero => omega
  | succ n ih =>
    rw [List.range_succ, List.countP_append, List.countP_append]
    by_cases h : i = n
    · subst h
      have hsame : (List.range i).countP (fun j => decide (0 < (Function.update f i r j).pid))
          = (List.range i).countP (fun j => decide (0 < (f j).pid)) := by
        apply List.countP_congr
        intro j hj
        have : j ≠ i := by
          have := List.mem_range.1 hj
          omega
        simp [Function.update_noteq this]
      rw [hsame]
      simp only [List.countP_cons, List.countP_nil, Function.update_same, decide_eq_true_eq]
      omega
    · have hi2 : i < n := by omega
      have := ih hi2
      have hn : n ≠ i := fun e => h e.symm
      simp only [List.countP_cons, List.countP_nil, Function.update_noteq hn]
      omega

theorem occupied_count_congr (s s1 : launcher)
    (h : ∀ j, 0 < (s1.processes j).pid ↔ 0 < (s.processes j).pid) :
    occupied_count s1 = occupied_count s := by
  unfold occupied_count
  apply List.countP_congr
  intro j _
  simp [h j]

theorem occupied_count_set_process (s : launcher) (i : Nat) (r : running)
    (hi : i < MAX_PROCESSES) :
    occupied_count (s.set_process i r) + (if 0 < (s.processes i).pid then 1 else 0)
      = occupied_count s + (if 0 < r.pid then 1 else 0) := by
  unfold occupied_count launcher.set_process
  exact countP_range_update s.processes i r MAX_PROCESSES hi


/-! ## Draining steps -/

theorem Drained.refl (s : launcher) : Drained s s :=
  ⟨rfl, rfl, rfl, rfl, fun _ => rfl, List.prefix_refl _, fun _ _ => ⟨rfl, rfl⟩,
    fun _ _ => rfl, fun h => h, fun _ => le_refl _⟩

theorem Drained.trans {s s1 s2 : launcher} (h1 : Drained s s1) (h2 : Drained s1 s2) :
    Drained s s2 where
  max_eq := h2.max_eq.trans h1.max_eq
  old_eq := h2.old_eq.trans h1.old_eq
  ports_eq := h2.ports_eq.trans h1.ports_eq
  host_eq := h2.host_eq.trans h1.host_eq
  oid_eq := fun a => (h2.oid_eq a).trans (h1.oid_eq a)
  events_ext := h1.events_ext.trans h2.events_ext
  occupied := fun j hj => by
    have a := h2.occupied j hj
    have b := h1.occupied j (a.1 ▸ hj)
    exact ⟨a.1.trans b.1, a.2.trans b.2⟩
  free := fun j hj => by
    have a := h1.free j hj
    have b := h2.free j (a ▸ hj)
    exact b.trans a
  count_kept := fun h => h2.count_kept (h1.count_kept h)
  num_le := fun h => le_trans (h2.num_le (h1.count_kept h)) (h1.num_le h)

/-- A step that leaves every pid, every routine pointer and the count alone. -/
theorem Drained.of_same_pids {s s1 : launcher}
    (hmax : s1.max_running_processes = s.max_running_processes)
    (hold : s1.old_max_running_processes = s.old_max_running_processes)
    (hports : s1.non_simult_ports = s.non_simult_ports)
    (hhost : s1.hostname = s.hostname)
    (hoid : ∀ a, (s1.plugins a).oid = (s.plugins a).oid)
    (hev : s.events <+: s1.events)
    (hpid : ∀ j, (s1.processes j).pid = (s.processes j).pid
      ∧ (s1.processes j).plugin = (s.processes j).plugin)
    (hfree : ∀ j, (s.processes j).pid ≤ 0 → s1.processes j = s.processes j)
    (hnum : s1.num_running_processes = s.num_running_processes) : Drained s s1 where
  max_eq := hmax
  old_eq := hold
  ports_eq := hports
  host_eq := hhost
  oid_eq := hoid
  events_ext := hev
  occupied := fun j _ => hpid j
  free := hfree
  count_kept := fun h => by
    unfold counted at *
    rw [hnum, h, occupied_count_congr s s1 (fun j => by rw [(hpid j).1])]
  num_le := fun _ => le_of_eq hnum

/-- A step that zeroes the occupied slot `i` and decrements the count. -/
theorem Drained.of_reclaim {s s1 : launcher} (i : Nat) (hi : i < MAX_PROCESSES)
    (hocc : 0 < (s.processes i).pid)
    (hmax : s1.max_running_processes = s.max_running_processes)
    (hold : s1.old_max_running_processes = s.old_max_running_processes)
    (hports : s1.non_simult_ports = s.non_simult_ports)
    (hhost : s1.hostname = s.hostname)
    (hoid : ∀ a, (s1.plugins a).oid = (s.plugins a).oid)
    (hev : s.events <+: s1.events)
    (hproc : s1.processes = Function.update s.processes i running.zero)
    (hnum : s1.num_running_processes = s.num_running_processes - 1) : Drained s s1 where
  max_eq := hmax
  old_eq := hold
  ports_eq := hports
  host_eq := hhost
  oid_eq := hoid
  events_ext := hev
  occupied := fun j hj => by
    rw [hproc] at hj ⊢
    by_cases h : j = i
    · subst h
      simp [running.zero] at hj
    · simp [Function.update_noteq h]
  free := fun j hj => by
    rw [hproc]
    by_cases h : j = i
    · subst h
      omega
    · simp [Function.update_noteq h]
  count_kept := fun h => by
    unfold counted at *
    have e := occupied_count_set_process s i running.zero hi
    have e1 : occupied_count s1 = occupied_count (s.set_process i running.zero) := by
      unfold occupied_count launcher.set_process
      rw [hproc]
    have hz : ¬ (0 < running.zero.pid) := by simp [running.zero]
    simp only [hocc, if_true, hz, if_false] at e
    rw [hnum, h, e1]
    omega
  num_le := fun _ => by rw [hnum]; omega


theorem update_alive_pid (f : Nat → running) (p j : Nat) (v : Int) :
    (Function.update f p { f p with alive := v } j).pid = (f j).pid
      ∧ (Function.update f p { f p with alive := v } j).plugin = (f j).plugin := by
  by_cases h : j = p
  · subst h; simp
  · simp [Function.update_noteq h]

theorem update_alive_free (f : Nat → running) (p j : Nat) (v : Int) (hp : 0 < (f p).pid)
    (hj : (f j).pid ≤ 0) : Function.update f p { f p with alive := v } j = f j := by
  by_cases h : j = p
  · subst h; omega
  · simp [Function.update_noteq h]

theorem process_internal_msg_drained (env : externals) (p : Nat) (s : launcher)
    (hp : 0 < (s.processes p).pid) : Drained s (process_internal_msg env p s).2 := by
  unfold process_internal_msg
  simp only [launcher.step, launcher.emit, launcher.set_process]
  split_ifs
  all_goals
    apply Drained.of_same_pids
  all_goals first
    | rfl
    | exact fun _ => rfl
    | exact List.prefix_refl _
    | exact List.prefix_append _ _
    | exact fun j => update_alive_pid s.processes p j 0
    | exact fun j hj => update_alive_free s.processes p j 0 hp hj
    | exact fun _ => ⟨rfl, rfl⟩
    | exact fun _ _ => rfl

theorem process_internal_msg_pid (env : externals) (p : Nat) (s : launcher) (j : Nat) :
    ((process_internal_msg env p s).2.processes j).pid = (s.processes j).pid := by
  unfold process_internal_msg
  simp only [launcher.step, launcher.emit, launcher.set_process]
  split_ifs
  all_goals first
    | rfl
    | exact (update_alive_pid s.processes p j 0).1

theorem process_internal_msg_num (env : externals) (p : Nat) (s : launcher) :
    (process_internal_msg env p s).2.num_running_processes = s.num_running_processes := by
  unfold process_internal_msg
  simp only [launcher.step, launcher.emit, launcher.set_process]
  split_ifs <;> rfl

theorem Drained.foldl (f : launcher → Nat → launcher) (l : List Nat)
    (h : ∀ s i, i ∈ l → Drained s (f s i)) (s : launcher) : Drained s (l.foldl f s) := by
  induction l generalizing s with
  | nil => exact Drained.refl s
  | cons x xs ih =>
    rw [List.foldl_cons]
    exact (h s x (List.mem_cons_self _ _)).trans
      (ih (fun s i hi => h s i (List.mem_cons_of_mem _ hi)) (f s x))

theorem read_running_process_drained (env : externals) (rd : Int → Bool)
    (acc : Nat × launcher) (i : Nat) :
    Drained acc.2 (read_running_process env rd acc i).2 := by
  unfold read_running_process
  split_ifs with h1 h2
  · exact process_internal_msg_drained env i acc.2 h1
  · exact Drained.refl _
  · exact Drained.refl _

theorem read_running_process_pid (env : externals) (rd : Int → Bool)
    (acc : Nat × launcher) (i j : Nat) :
    ((read_running_process env rd acc i).2.processes j).pid = (acc.2.processes j).pid := by
  unfold read_running_process
  split_ifs
  · exact process_internal_msg_pid env i acc.2 j
  · rfl
  · rfl

theorem read_running_process_num (env : externals) (rd : Int → Bool)
    (acc : Nat × launcher) (i : Nat) :
    (read_running_process env rd acc i).2.num_running_processes
      = acc.2.num_running_processes := by
  unfold read_running_process
  split_ifs
  · exact process_internal_msg_num env i acc.2
  · rfl
  · rfl

theorem read_running_process_flag (env : externals) (rd : Int → Bool)
    (acc : Nat × launcher) (i : Nat) :
    (read_running_process env rd acc i).1
      = acc.1 + (if 0 < (acc.2.processes i).pid then 1 else 0) := by
  unfold read_running_process
  split_ifs <;> rfl

theorem read_fold (env : externals) (rd : Int → Bool) (l : List Nat) (acc : Nat × launcher) :
    Drained acc.2 (l.foldl (read_running_process env rd) acc).2
      ∧ (∀ j, ((l.foldl (read_running_process env rd) acc).2.processes j).pid
            = (acc.2.processes j).pid)
      ∧ (l.foldl (read_running_process env rd) acc).2.num_running_processes
            = acc.2.num_running_processes
      ∧ (l.foldl (read_running_process env rd) acc).1
            = acc.1 + l.countP (fun i => decide (0 < (acc.2.processes i).pid)) := by
  induction l generalizing acc with
  | nil => exact ⟨Drained.refl _, fun _ => rfl, rfl, rfl⟩
  | cons x xs ih =>
    rw [List.foldl_cons]
    obtain ⟨d, hp, hn, hf⟩ := ih (read_running_process env rd acc x)
    refine ⟨(read_running_process_drained env rd acc x).trans d, ?_, ?_, ?_⟩
    · intro j
      rw [hp j, read_running_process_pid]
    · rw [hn, read_running_process_num]
    · rw [hf, read_running_process_flag, List.countP_cons]
      have : List.countP
            (fun i => decide (0 < ((read_running_process env rd acc x).2.processes i).pid)) xs
          = List.countP (fun i => decide (0 < (acc.2.processes i).pid)) xs := by
        apply List.countP_congr
        intro j _
        rw [read_running_process_pid]
      rw [this]
      by_cases hx : 0 < (acc.2.processes x).pid
      · simp [hx]
        omega
      · simp [hx]

theorem Drained.repair {s s1 : launcher} (d : Drained s s1) (h0 : occupied_count s1 = 0) :
    Drained s { s1 with num_running_processes := 0 } where
  max_eq := d.max_eq
  old_eq := d.old_eq
  ports_eq := d.ports_eq
  host_eq := d.host_eq
  oid_eq := d.oid_eq
  events_ext := d.events_ext
  occupied := d.occupied
  free := d.free
  count_kept := fun _ => by
    unfold counted
    have e : occupied_count { s1 with num_running_processes := 0 } = occupied_count s1 := rfl
    rw [e, h0]
    rfl
  num_le := fun hc => by
    unfold counted at hc
    show (0 : Int) ≤ s.num_running_processes
    rw [hc]
    exact Int.natCast_nonneg _

theorem read_running_processes_drained (env : externals) (s : launcher) :
    Drained s (read_running_processes env s) := by
  unfold read_running_processes
  dsimp only
  split_ifs with h0 he hrep
  · exact Drained.refl s
  · apply Drained.of_same_pids <;> try rfl
    · exact fun _ => rfl
    · exact List.prefix_append _ _
    · exact fun _ => ⟨rfl, rfl⟩
    · exact fun _ _ => rfl
  · -- the repair of the count
    have base : Drained s ((s.emit (event.select (watched_set s) 500000)).step) := by
      apply Drained.of_same_pids <;> try rfl
      · exact fun _ => rfl
      · exact List.prefix_append _ _
      · exact fun _ => ⟨rfl, rfl⟩
      · exact fun _ _ => rfl
    obtain ⟨d, hp, hn, hf⟩ := read_fold env (env.select s.tick (watched_set s)).2
      (List.range MAX_PROCESSES) (0, (s.emit (event.select (watched_set s) 500000)).step)
    have dd := base.trans d
    have hcount : occupied_count s = 0 := by
      have h1 := hrep.1
      rw [hf, zero_add] at h1
      unfold occupied_count
      exact h1
    have hc1 : occupied_count (List.foldl (read_running_process env
          (env.select s.tick (watched_set s)).2)
          (0, (s.emit (event.select (watched_set s) 500000)).step)
          (List.range MAX_PROCESSES)).2 = 0 := by
      refine Eq.trans (occupied_count_congr s _ ?_) hcount
      intro j
      rw [hp j]
      rfl
    exact Drained.repair dd hc1
  · have base : Drained s ((s.emit (event.select (watched_set s) 500000)).step) := by
      apply Drained.of_same_pids <;> try rfl
      · exact fun _ => rfl
      · exact List.prefix_append _ _
      · exact fun _ => ⟨rfl, rfl⟩
      · exact fun _ _ => rfl
    exact base.trans (read_fold env (env.select s.tick (watched_set s)).2
      (List.range MAX_PROCESSES) (0, (s.emit (event.select (watched_set s) 500000)).step)).1


theorem update_running_process_drained (env : externals) (now : timeval) (i : Nat)
    (hi : i < MAX_PROCESSES) (s : launcher) :
    Drained s (update_running_process env now i s) := by
  unfold update_running_process
  dsimp only
  split_ifs with hpid hcond halive husec
  · apply Drained.of_reclaim i hi hpid <;> try rfl
    · exact fun a => by
        simp only [launcher.set_process, launcher.emit, launcher.set_running_state]
        by_cases h : a = (Function.update s.processes i
            { s.processes i with alive := 0 } i).plugin
        · subst h; simp
        · simp [Function.update_noteq h]
    · simp only [launcher.set_process, launcher.emit, launcher.set_running_state,
        List.append_assoc]
      exact List.prefix_append _ _
    · simp [launcher.set_process, launcher.emit, launcher.set_running_state]
  · apply Drained.of_reclaim i hi hpid <;> try rfl
    · exact fun a => by
        simp only [launcher.set_process, launcher.emit, launcher.set_running_state]
        by_cases h : a = (Function.update s.processes i
            { s.processes i with
              start := { (s.processes i).start with
                tv_sec := (s.processes i).start.tv_sec + 1 } } i).plugin
        · subst h; simp
        · simp [Function.update_noteq h]
    · simp only [launcher.set_process, launcher.emit, launcher.set_running_state,
        List.append_assoc]
      exact List.prefix_append _ _
    · simp [launcher.set_process, launcher.emit, launcher.set_running_state]
  · apply Drained.of_reclaim i hi hpid <;> try rfl
    · exact fun a => by
        simp only [launcher.set_process, launcher.emit, launcher.set_running_state]
        by_cases h : a = (s.processes i).plugin
        · subst h; simp
        · simp [Function.update_noteq h]
    · simp only [launcher.set_process, launcher.emit, launcher.set_running_state,
        List.append_assoc]
      exact List.prefix_append _ _
  · exact Drained.refl s
  · exact Drained.refl s

theorem step_drained (s : launcher) : Drained s s.step := by
  apply Drained.of_same_pids
  all_goals first
    | rfl
    | exact fun _ => rfl
    | exact fun _ => ⟨rfl, rfl⟩
    | exact fun _ _ => rfl

theorem emit_drained (s : launcher) (e : event) : Drained s (s.emit e) := by
  apply Drained.of_same_pids
  all_goals first
    | rfl
    | exact fun _ => rfl
    | exact List.prefix_append _ _
    | exact fun _ => ⟨rfl, rfl⟩
    | exact fun _ _ => rfl

theorem update_running_processes_drained (env : externals) (s : launcher) :
    Drained s (update_running_processes env s) := by
  unfold update_running_processes
  dsimp only
  split_ifs
  · exact step_drained s
  · exact (step_drained s).trans
      (Drained.foldl _ _ (fun st i hi =>
        update_running_process_drained env _ i (List.mem_range.1 hi) st) _)

theorem wait_for_children_drained (s : launcher) : Drained s (wait_for_children s) := by
  unfold wait_for_children
  apply Drained.foldl
  intro st i _
  dsimp only
  split_ifs
  · exact emit_drained st _
  · exact Drained.refl st

theorem wait_while_alive_drained (env : externals) (pid : Int) (fuel : Nat) (s s1 : launcher)
    (h : wait_while_alive env pid fuel s = Except.ok s1) : Drained s s1 := by
  induction fuel generalizing s with
  | zero => simp [wait_while_alive] at h
  | succ n ih =>
    unfold wait_while_alive at h
    dsimp only at h
    split_ifs at h with ha
    · have d := ih _ h
      exact ((emit_drained s _).trans (step_drained _)).trans
        ((((read_running_processes_drained env _).trans
          (update_running_processes_drained env _)).trans
          (wait_for_children_drained _)).trans d)
    · cases h
      exact (emit_drained s _).trans (step_drained _)

theorem wait_if_simult_ports_drained (env : externals) (fuel : Nat) (pid : Int)
    (oid next_oid : Option String) (s s1 : launcher)
    (h : wait_if_simult_ports env fuel pid oid next_oid s = Except.ok s1) : Drained s s1 := by
  unfold wait_if_simult_ports at h
  split_ifs at h
  · exact wait_while_alive_drained env pid fuel s s1 h
  · cases h
    exact Drained.refl _

theorem next_free_wait_drained (env : externals) (fuel : Nat) (upcoming : Nat)
    (s s1 : launcher) (r : Nat) (h : next_free_wait env fuel upcoming s r = Except.ok s1) :
    Drained s s1 := by
  unfold next_free_wait at h
  split_ifs at h
  · exact wait_if_simult_ports_drained env fuel _ _ _ s s1 h
  · cases h
    exact Drained.refl _

theorem foldlM_drained (f : launcher → Nat → Except failure launcher)
    (hf : ∀ s r s1, f s r = Except.ok s1 → Drained s s1) (l : List Nat) (s s1 : launcher)
    (h : l.foldlM f s = Except.ok s1) : Drained s s1 := by
  induction l generalizing s with
  | nil =>
    simp only [List.foldlM_nil, pure, Except.pure] at h
    cases h
    exact Drained.refl _
  | cons x xs ih =>
    rw [List.foldlM_cons] at h
    cases hx : f s x with
    | error e => simp [hx, bind, Except.bind] at h
    | ok s2 =>
      simp only [hx, bind, Except.bind] at h
      exact (hf s x s2 hx).trans (ih s2 h)

theorem next_free_process_drained (env : externals) (fuel : Nat) (upcoming : Nat)
    (s s1 : launcher) (p : Int)
    (h : next_free_process env fuel upcoming s = Except.ok (p, s1)) :
    Drained s s1 ∧ p = first_free s1 := by
  unfold next_free_process at h
  split at h
  · cases h
  · rename_i s2 hs2
    cases h
    exact ⟨(wait_for_children_drained s).trans
      (foldlM_drained _ (fun a r b => next_free_wait_drained env fuel upcoming a b r) _ _ _ hs2),
      rfl⟩

theorem wait_for_admission_drained (env : externals) (fuel : Nat) (s s1 : launcher)
    (h : wait_for_admission env fuel s = Except.ok s1) :
    Drained s s1 ∧ s1.num_running_processes < s1.max_running_processes := by
  induction fuel generalizing s with
  | zero => simp [wait_for_admission] at h
  | succ n ih =>
    unfold wait_for_admission at h
    split_ifs at h with hc
    · obtain ⟨d, hlt⟩ := ih _ h
      exact ⟨((read_running_processes_drained env _).trans
        (update_running_processes_drained env _)).trans d, hlt⟩
    · cases h
      exact ⟨Drained.refl _, not_le.1 hc⟩

theorem drain_step_drained (env : externals) (s : launcher) :
    Drained s
      (update_running_processes env (read_running_processes env (wait_for_children s))) :=
  ((wait_for_children_drained s).trans (read_running_processes_drained env _)).trans
    (update_running_processes_drained env _)

theorem pluginlaunch_wait_drained (env : externals) (fuel : Nat) (s s1 : launcher)
    (h : pluginlaunch_wait env fuel s = Except.ok s1) :
    Drained s s1 ∧ s1.num_running_processes = 0 := by
  induction fuel generalizing s with
  | zero => simp [pluginlaunch_wait] at h
  | succ n ih =>
    unfold pluginlaunch_wait at h
    dsimp only at h
    split_ifs at h with hc
    · obtain ⟨d, hz⟩ := ih _ h
      exact ⟨(drain_step_drained env s).trans d, hz⟩
    · cases h
      exact ⟨drain_step_drained env s, not_not.1 hc⟩

theorem wait_for_change_drained (env : externals) (num : Int) (fuel : Nat) (s s1 : launcher)
    (h : wait_for_change env num fuel s = Except.ok s1) :
    Drained s s1 ∧ s1.num_running_processes ≠ num := by
  induction fuel generalizing s with
  | zero => simp [wait_for_change] at h
  | succ n ih =>
    unfold wait_for_change at h
    dsimp only at h
    split_ifs at h with hc
    · obtain ⟨d, hz⟩ := ih _ h
      exact ⟨(drain_step_drained env s).trans d, hz⟩
    · cases h
      exact ⟨drain_step_drained env s, hc⟩

theorem stop_process_drained (s : launcher) (i : Nat) (hi : i < MAX_PROCESSES) :
    Drained s (stop_process s i) := by
  unfold stop_process
  dsimp only
  split_ifs with hpid
  · apply Drained.of_reclaim i hi hpid <;> try rfl
    · exact fun a => by
        simp only [launcher.set_process, launcher.emit, launcher.set_running_state]
        by_cases h : a = (s.processes i).plugin
        · subst h; simp
        · simp [Function.update_noteq h]
    · simp only [launcher.set_process, launcher.emit, launcher.set_running_state,
        List.append_assoc]
      exact List.prefix_append _ _
  · exact Drained.refl s

theorem pluginlaunch_stop_drained (env : externals) (soft_stop : Int) (s : launcher) :
    Drained s (pluginlaunch_stop env soft_stop s) := by
  unfold pluginlaunch_stop
  dsimp only
  refine Drained.trans ?_ (Drained.foldl _ _ (fun st i hi =>
    stop_process_drained st i (List.mem_range.1 hi)) _)
  split_ifs
  · refine ((read_running_processes_drained env s).trans ?_).trans (emit_drained _ _)
    apply Drained.foldl
    intro st i _
    dsimp only
    split_ifs
    · exact emit_drained st _
    · exact Drained.refl st
  · exact Drained.refl s


/-! ## Launching -/

theorem first_free_spec (s : launcher) (h : 0 ≤ first_free s) :
    (first_free s).toNat < MAX_PROCESSES ∧ (s.processes (first_free s).toNat).pid ≤ 0 := by
  unfold first_free at h ⊢
  cases hf : (List.range MAX_PROCESSES).find? (fun r => decide ((s.processes r).pid ≤ 0)) with
  | none => simp [hf] at h
  | some r =>
    simp only [Int.toNat_ofNat]
    have h1 := List.find?_some hf
    have h2 := List.mem_of_find?_eq_some hf
    exact ⟨List.mem_range.1 h2, by simpa using h1⟩

theorem launch_in_slot_counted (env : externals) (global_socket : Int) (plugin p : Nat)
    (s : launcher) (hp : p < MAX_PROCESSES) (hfree : (s.processes p).pid ≤ 0)
    (hc : counted s) : counted (launch_in_slot env global_socket plugin p s).2 := by
  unfold counted at *
  have e := occupied_count_set_process s p
    { plugin := plugin, start := env.gettimeofday (s.tick + 1), pid :=
        env.nasl_plugin_launch (s.tick + 1 + 1) (s.plugins plugin).oid (env.socketpair s.tick).2.2,
      timeout := launch_timeout env (s.plugins plugin).oid, upstream_soc := global_socket,
      internal_soc := (env.socketpair s.tick).2.1, alive := 1 } hp
  have hnot : ¬ (0 < (s.processes p).pid) := by omega
  simp only [hnot, if_false, add_zero] at e
  unfold launch_in_slot
  dsimp only [launcher.step, launcher.emit, launcher.set_process, launcher.set_running_state]
  split_ifs with hpid
  · simp only [hpid, if_true] at e
    show s.num_running_processes + 1 = _
    rw [hc]
    have : occupied_count _ = occupied_count s + 1 := e
    unfold occupied_count launcher.set_process at this
    unfold occupied_count
    dsimp only at this ⊢
    rw [this]
    push_cast
    rfl
  · simp only [hpid, if_false, add_zero] at e
    show s.num_running_processes = _
    rw [hc]
    have : occupied_count _ = occupied_count s := e
    unfold occupied_count launcher.set_process at this
    unfold occupied_count
    dsimp only at this ⊢
    rw [this]


theorem plugin_launch_at_ok (env : externals) (fuel : Nat) (global_socket : Int)
    (plugin : Nat) (s s1 : launcher) (p : Nat) (pid : Int)
    (h : plugin_launch_at env fuel global_socket plugin s = Except.ok (p, pid, s1)) :
    ∃ sa sb, wait_for_admission env fuel s = Except.ok sa
      ∧ next_free_process env fuel plugin sa = Except.ok ((p : Int), sb)
      ∧ launch_in_slot env global_socket plugin p sb = (pid, s1) := by
  unfold plugin_launch_at at h
  cases ha : wait_for_admission env fuel s with
  | error e => simp [ha] at h
  | ok sa =>
    simp only [ha] at h
    cases hb : next_free_process env fuel plugin sa with
    | error e => simp [hb] at h
    | ok r =>
      obtain ⟨q, sb⟩ := r
      simp only [hb] at h
      split_ifs at h with hq
      simp only [Except.ok.injEq, Prod.mk.injEq] at h
      have hq2 : (q.toNat : Int) = q := Int.toNat_of_nonneg (by omega)
      refine ⟨sa, sb, rfl, ?_, ?_⟩
      · rw [← h.1, hq2]
        exact hb
      · rw [← h.1]
        exact h.2

theorem plugin_launch_ok (env : externals) (fuel : Nat) (global_socket : Int)
    (plugin : Nat) (s s1 : launcher) (pid : Int)
    (h : plugin_launch env fuel global_socket plugin s = Except.ok (pid, s1)) :
    ∃ p, plugin_launch_at env fuel global_socket plugin s = Except.ok (p, pid, s1) := by
  unfold plugin_launch at h
  cases ha : plugin_launch_at env fuel global_socket plugin s with
  | error e => simp [ha] at h
  | ok r =>
    obtain ⟨p, q, t⟩ := r
    simp only [ha, Except.ok.injEq, Prod.mk.injEq] at h
    exact ⟨p, by rw [h.1, h.2]⟩

theorem pluginlaunch_init_counted (env : externals) (host : Option String) (s0 s : launcher)
    (h : pluginlaunch_init env host s0 = Except.ok s) : counted s := by
  unfold pluginlaunch_init at h
  cases hp : env.prefs_get "non_simult_ports" with
  | none => simp [hp] at h
  | some text =>
    simp only [hp, Except.ok.injEq] at h
    subst h
    unfold counted occupied_count
    dsimp only
    have : List.countP (fun i => decide (0 <
        (if i < MAX_PROCESSES then running.zero else s0.processes i).pid))
        (List.range MAX_PROCESSES) = 0 := by
      rw [List.countP_eq_zero]
      intro i hi
      have := List.mem_range.1 hi
      simp [this, running.zero]
    rw [this]
    rfl

theorem plugin_launch_counted (env : externals) (fuel : Nat) (global_socket : Int)
    (plugin : Nat) (s s1 : launcher) (pid : Int)
    (h : plugin_launch env fuel global_socket plugin s = Except.ok (pid, s1))
    (hc : counted s) : counted s1 := by
  obtain ⟨p, hp⟩ := plugin_launch_ok env fuel global_socket plugin s s1 pid h
  obtain ⟨sa, sb, h1, h2, h3⟩ := plugin_launch_at_ok env fuel global_socket plugin s s1 p pid hp
  have d1 := (wait_for_admission_drained env fuel s sa h1).1
  obtain ⟨d2, hfree⟩ := next_free_process_drained env fuel plugin sa sb p h2
  have hnn : 0 ≤ first_free sb := by rw [← hfree]; exact Int.natCast_nonneg _
  have hs := first_free_spec sb hnn
  rw [← hfree, Int.toNat_ofNat] at hs
  have := launch_in_slot_counted env global_socket plugin p sb hs.1 hs.2
    (d2.count_kept (d1.count_kept hc))
  rw [h3] at this
  exact this

theorem reachable_counted (env : externals) (s : launcher) (h : Reachable env s) :
    counted s := by
  induction h with
  | init host s0 s hi => exact pluginlaunch_init_counted env host s0 s hi
  | launch fuel gs plugin pid s s1 _ hl ih =>
    exact plugin_launch_counted env fuel gs plugin s s1 pid hl ih
  | wait fuel s s1 _ hw ih => exact (pluginlaunch_wait_drained env fuel s s1 hw).1.count_kept ih
  | wait_for_free_process fuel s s1 _ hw ih =>
    exact (wait_for_change_drained env _ fuel s s1 hw).1.count_kept ih
  | stop soft s _ ih => exact (pluginlaunch_stop_drained env soft s).count_kept ih
  | disable s _ ih => exact ih
  | enable s _ ih => exact ih

/-- The invariant I1 on the states of `Reachable`: in every state reached from
`pluginlaunch_init` by public operations none of which writes through
`processes[-1]`, for every behaviour of the external calls,
`num_running_processes` is the number of indices below `MAX_PROCESSES` whose
slot has a positive pid. -/
theorem reachable_count_is_occupied (env : externals) (s : launcher)
    (h : Reachable env s) :
    s.num_running_processes
      = ((List.range MAX_PROCESSES).countP (fun i => decide (0 < (s.processes i).pid)) : Nat) := by
  show counted s
  induction h with
  | init host s0 s hi => exact pluginlaunch_init_counted env host s0 s hi
  | launch fuel gs plugin pid s s1 _ hl ih =>
    exact plugin_launch_counted env fuel gs plugin s s1 pid hl ih
  | wait fuel s s1 _ hw ih => exact (pluginlaunch_wait_drained env fuel s s1 hw).1.count_kept ih
  | wait_for_free_process fuel s s1 _ hw ih =>
    exact (wait_for_change_drained env _ fuel s s1 hw).1.count_kept ih
  | stop soft s _ ih => exact (pluginlaunch_stop_drained env soft s).count_kept ih
  | disable s _ ih => exact ih
  | enable s _ ih => exact ih

theorem demo_init_run :
    pluginlaunch_init demo_env (some "testhost") demo_boot = Except.ok demo_init := rfl

set_option maxRecDepth 100000 in
theorem demo_one_run :
    plugin_launch demo_env 1 7 1 demo_init = Except.ok (102, demo_one) := rfl

set_option maxRecDepth 100000 in
theorem demo_two_run :
    plugin_launch demo_env 1 7 2 demo_one = Except.ok (106, demo_two) := rfl

theorem demo_two_reachable : Reachable demo_env demo_two :=
  Reachable.launch 1 7 2 106 demo_one demo_two
    (Reachable.launch 1 7 1 102 demo_init demo_one
      (Reachable.init (some "testhost") demo_boot demo_init demo_init_run) demo_one_run)
    demo_two_run

set_option maxRecDepth 100000 in
/-- The invariant I1 in the concrete run: after `pluginlaunch_init` and two
launches the count is 2 and two slots are occupied. -/
theorem reachable_count_is_occupied_witness :
    Reachable demo_env demo_two ∧ demo_two.num_running_processes = 2
      ∧ demo_two.num_running_processes
        = ((List.range MAX_PROCESSES).countP
            (fun i => decide (0 < (demo_two.processes i).pid)) : Nat) :=
  ⟨demo_two_reachable, by decide, reachable_count_is_occupied demo_env demo_two demo_two_reachable⟩

set_option maxRecDepth 100000 in
/-- C3: the conflict decision of `wait_if_simult_ports` for two routines is true
exactly when some token occurs in the split of the first routine's required
ports, in the split of the second routine's required ports and in
`non_simult_ports`, tokens being compared as strings; it is false when either
required-ports text is missing or empty or `non_simult_ports` is empty, and
`139` conflicts neither with `0139` nor with ` 139`. -/
theorem simult_ports_decision (env : externals) (non_simult_ports : List String)
    (oid_a oid_b : String) :
    (simult_ports env non_simult_ports (some oid_a) (some oid_b) = true
        ↔ ∃ t, t ∈ required_tokens env (some oid_a) ∧ t ∈ required_tokens env (some oid_b)
              ∧ t ∈ non_simult_ports)
      ∧ ((env.nvticache_get_required_ports oid_a = none
            ∨ env.nvticache_get_required_ports oid_a = some ""
            ∨ env.nvticache_get_required_ports oid_b = none
            ∨ env.nvticache_get_required_ports oid_b = some ""
            ∨ non_simult_ports = [])
          → simult_ports env non_simult_ports (some oid_a) (some oid_b) = false)
      ∧ simult_ports padded_env ["139"] (some "a") (some "b") = false
      ∧ simult_ports padded_env ["139"] (some "a") (some "a") = true := by
  refine ⟨simult_ports_iff_exists env non_simult_ports (some oid_a) (some oid_b), ?_,
    by decide, by decide⟩
  intro h
  rw [Bool.eq_false_iff]
  intro htrue
  obtain ⟨t, h1, h2, h3⟩ :=
    (simult_ports_iff_exists env non_simult_ports (some oid_a) (some oid_b)).1 htrue
  unfold required_tokens at h1 h2
  rcases h with h | h | h | h | h
  · simp [h] at h1
  · simp [h, g_strsplit] at h1
  · simp [h] at h2
  · simp [h, g_strsplit] at h2
  · simp [h] at h3

theorem launch_in_slot_num_le (env : externals) (global_socket : Int) (plugin p : Nat)
    (s : launcher) :
    (launch_in_slot env global_socket plugin p s).2.num_running_processes
      ≤ s.num_running_processes + 1 := by
  unfold launch_in_slot
  dsimp only [launcher.step, launcher.emit, launcher.set_process, launcher.set_running_state]
  split_ifs
  · exact le_refl _
  · show s.num_running_processes ≤ s.num_running_processes + 1
    omega

theorem launch_in_slot_config (env : externals) (global_socket : Int) (plugin p : Nat)
    (s : launcher) :
    (launch_in_slot env global_socket plugin p s).2.max_running_processes
        = s.max_running_processes
      ∧ (launch_in_slot env global_socket plugin p s).2.old_max_running_processes
        = s.old_max_running_processes
      ∧ (launch_in_slot env global_socket plugin p s).2.non_simult_ports = s.non_simult_ports
      ∧ (launch_in_slot env global_socket plugin p s).2.hostname = s.hostname := by
  unfold launch_in_slot
  dsimp only [launcher.step, launcher.emit, launcher.set_process, launcher.set_running_state]
  split_ifs <;> exact ⟨rfl, rfl, rfl, rfl⟩

theorem clamped_init_run :
    pluginlaunch_init clamped_env (some "testhost") demo_boot = Except.ok clamped_init := rfl

theorem clamped_init_reachable : Reachable clamped_env clamped_init :=
  Reachable.init (some "testhost") demo_boot clamped_init clamped_init_run

theorem demo_init_reachable : Reachable demo_env demo_init :=
  Reachable.init (some "testhost") demo_boot demo_init demo_init_run

/-- The bookkeeping of `plugin_launch`: the admission loop ends below the
limit, the waits of `next_free_process` do not raise the count, the launch
adds at most one, and the limits are untouched. -/
theorem plugin_launch_accounting (env : externals) (fuel : Nat) (global_socket : Int)
    (plugin : Nat) (s s1 : launcher) (pid : Int) (hc : counted s)
    (h : plugin_launch env fuel global_socket plugin s = Except.ok (pid, s1)) :
    ∃ (sa sb : launcher) (p : Nat), wait_for_admission env fuel s = Except.ok sa
      ∧ next_free_process env fuel plugin sa = Except.ok ((p : Int), sb)
      ∧ launch_in_slot env global_socket plugin p sb = (pid, s1)
      ∧ sa.num_running_processes < sa.max_running_processes
      ∧ sa.num_running_processes ≤ s.num_running_processes
      ∧ sb.num_running_processes ≤ sa.num_running_processes
      ∧ s1.num_running_processes ≤ sb.num_running_processes + 1
      ∧ s1.max_running_processes = s.max_running_processes
      ∧ sa.max_running_processes = s.max_running_processes
      ∧ s1.old_max_running_processes = s.old_max_running_processes := by
  obtain ⟨p, hp⟩ := plugin_launch_ok env fuel global_socket plugin s s1 pid h
  obtain ⟨sa, sb, h1, h2, h3⟩ := plugin_launch_at_ok env fuel global_socket plugin s s1 p pid hp
  obtain ⟨d1, hlt⟩ := wait_for_admission_drained env fuel s sa h1
  obtain ⟨d2, _⟩ := next_free_process_drained env fuel plugin sa sb p h2
  have hn := launch_in_slot_num_le env global_socket plugin p sb
  have hcfg := launch_in_slot_config env global_socket plugin p sb
  rw [h3] at hn hcfg
  refine ⟨sa, sb, p, h1, h2, h3, hlt, d1.num_le hc, d2.num_le (d1.count_kept hc), hn, ?_,
    d1.max_eq, ?_⟩
  · exact hcfg.1.trans (d2.max_eq.trans d1.max_eq)
  · exact hcfg.2.1.trans (d2.old_eq.trans d1.old_eq)

theorem pluginlaunch_init_limits (env : externals) (host : Option String) (s0 s : launcher)
    (h : pluginlaunch_init env host s0 = Except.ok s) :
    s.num_running_processes = 0
      ∧ s.old_max_running_processes = env.get_max_checks_number
      ∧ s.max_running_processes
        = (if env.get_max_checks_number ≥ (MAX_PROCESSES : Int) then (MAX_PROCESSES : Int) - 1
           else env.get_max_checks_number) := by
  unfold pluginlaunch_init at h
  cases hp : env.prefs_get "non_simult_ports" with
  | none => simp [hp] at h
  | some text =>
    simp only [hp, Except.ok.injEq] at h
    subst h
    exact ⟨rfl, rfl, rfl⟩

theorem reachable_old_max (env : externals) (s : launcher) (h : Reachable env s) :
    s.old_max_running_processes = env.get_max_checks_number := by
  induction h with
  | init host s0 s hi => exact (pluginlaunch_init_limits env host s0 s hi).2.1
  | launch fuel gs plugin pid s s1 hr hl ih =>
    obtain ⟨sa, sb, p, _, _, _, _, _, _, _, _, _, hold⟩ :=
      plugin_launch_accounting env fuel gs plugin s s1 pid (reachable_counted env s hr) hl
    exact hold.trans ih
  | wait fuel s s1 _ hw ih => exact (pluginlaunch_wait_drained env fuel s s1 hw).1.old_eq.trans ih
  | wait_for_free_process fuel s s1 _ hw ih =>
    exact (wait_for_change_drained env _ fuel s s1 hw).1.old_eq.trans ih
  | stop soft s _ ih => exact (pluginlaunch_stop_drained env soft s).old_eq.trans ih
  | disable s _ ih => exact ih
  | enable s _ ih => exact ih

theorem reachable_limits (env : externals) (s : launcher) (h : Reachable env s)
    (hhi : env.get_max_checks_number ≤ (MAX_PROCESSES : Int) - 1) :
    s.num_running_processes ≤ max 1 env.get_max_checks_number
      ∧ (s.max_running_processes = 1
          ∨ s.max_running_processes = env.get_max_checks_number) := by
  induction h with
  | init host s0 s hi =>
    obtain ⟨h0, _, hm⟩ := pluginlaunch_init_limits env host s0 s hi
    have hnot : ¬ (env.get_max_checks_number ≥ (MAX_PROCESSES : Int)) := by omega
    rw [if_neg hnot] at hm
    exact ⟨by rw [h0]; omega, Or.inr hm⟩
  | launch fuel gs plugin pid s s1 hr hl ih =>
    obtain ⟨sa, sb, p, _, _, _, hlt, _, hb, h1, hmax, hamax, _⟩ :=
      plugin_launch_accounting env fuel gs plugin s s1 pid (reachable_counted env s hr) hl
    rw [hamax] at hlt
    refine ⟨?_, by rw [hmax]; exact ih.2⟩
    rcases ih.2 with hm | hm <;> rw [hm] at hlt <;> omega
  | wait fuel s s1 hr hw ih =>
    have d := (pluginlaunch_wait_drained env fuel s s1 hw).1
    exact ⟨le_trans (d.num_le (reachable_counted env s hr)) ih.1, by rw [d.max_eq]; exact ih.2⟩
  | wait_for_free_process fuel s s1 hr hw ih =>
    have d := (wait_for_change_drained env _ fuel s s1 hw).1
    exact ⟨le_trans (d.num_le (reachable_counted env s hr)) ih.1, by rw [d.max_eq]; exact ih.2⟩
  | stop soft s hr ih =>
    have d := pluginlaunch_stop_drained env soft s
    exact ⟨le_trans (d.num_le (reachable_counted env s hr)) ih.1, by rw [d.max_eq]; exact ih.2⟩
  | disable s _ ih => exact ⟨ih.1, Or.inl rfl⟩
  | enable s hr ih => exact ⟨ih.1, Or.inr (reachable_old_max env s hr)⟩

/-- C4 (counterexample): the chain `0 ≤ num ≤ max ≤ MAX_PROCESSES - 1` fails in
reachable states.  With `max_checks = 4`, two routines running and parallel
checks disabled, the count 2 exceeds the limit 1; with `max_checks = 100`,
`pluginlaunch_enable_parrallel_checks` right after `pluginlaunch_init` leaves
the limit 100. -/
theorem reachable_limits_counterexample :
    (Reachable demo_env (pluginlaunch_disable_parrallel_checks demo_two)
        ∧ 1 ≤ demo_env.get_max_checks_number
        ∧ ¬ ((pluginlaunch_disable_parrallel_checks demo_two).num_running_processes
              ≤ (pluginlaunch_disable_parrallel_checks demo_two).max_running_processes))
      ∧ (Reachable clamped_env (pluginlaunch_enable_parrallel_checks clamped_init)
        ∧ 1 ≤ clamped_env.get_max_checks_number
        ∧ ¬ ((pluginlaunch_enable_parrallel_checks clamped_init).max_running_processes
              ≤ (MAX_PROCESSES : Int) - 1)) :=
  ⟨⟨Reachable.disable demo_two demo_two_reachable, by decide, by
      set_option maxRecDepth 100000 in decide⟩,
    ⟨Reachable.enable clamped_init clamped_init_reachable, by decide, by decide⟩⟩

/-- C4 (amended): in every state reached from `pluginlaunch_init` with a
configured `max_checks` value `c`, `1 ≤ c ≤ MAX_PROCESSES - 1`, the count is
between 0 and `c`, the limit is 1 or `c` (so between 1 and
`MAX_PROCESSES - 1`), and the count is at most the limit whenever the limit
is `c`, that is unless parallel checks are disabled. -/
theorem reachable_within_limits (env : externals) (s : launcher) (h : Reachable env s)
    (hlo : 1 ≤ env.get_max_checks_number)
    (hhi : env.get_max_checks_number ≤ (MAX_PROCESSES : Int) - 1) :
    0 ≤ s.num_running_processes
      ∧ s.num_running_processes ≤ env.get_max_checks_number
      ∧ (s.max_running_processes = 1 ∨ s.max_running_processes = env.get_max_checks_number)
      ∧ 1 ≤ s.max_running_processes
      ∧ s.max_running_processes ≤ (MAX_PROCESSES : Int) - 1
      ∧ (s.max_running_processes = env.get_max_checks_number
          → s.num_running_processes ≤ s.max_running_processes) := by
  obtain ⟨hn, hm⟩ := reachable_limits env s h hhi
  have hc := reachable_counted env s h
  unfold counted at hc
  have h0 : 0 ≤ s.num_running_processes := by rw [hc]; exact Int.natCast_nonneg _
  have hn2 : s.num_running_processes ≤ env.get_max_checks_number := by
    rw [max_eq_right hlo] at hn
    exact hn
  refine ⟨h0, hn2, hm, ?_, ?_, ?_⟩
  · rcases hm with e | e
    · rw [e]
    · rw [e]
      exact hlo
  · rcases hm with e | e <;> rw [e]
    · unfold MAX_PROCESSES
      omega
    · exact hhi
  · intro e
    rw [e]
    exact hn2

set_option maxRecDepth 100000 in
/-- Witness for C4 (amended): the concrete run with `max_checks = 4` after two
launches. -/
theorem reachable_within_limits_witness :
    Reachable demo_env demo_two ∧ 1 ≤ demo_env.get_max_checks_number
      ∧ demo_env.get_max_checks_number ≤ (MAX_PROCESSES : Int) - 1
      ∧ demo_two.num_running_processes = 2 ∧ demo_two.max_running_processes = 4
      ∧ demo_two.num_running_processes ≤ demo_two.max_running_processes :=
  ⟨demo_two_reachable, by decide, by decide, by decide, by decide,
    (reachable_within_limits demo_env demo_two demo_two_reachable (by decide) (by decide)).2.2.2.2.2
      (by decide)⟩

/-- C5 (counterexample): `disable; enable` does not always restore the limit.
Called when parallel checks are already disabled (limit 1, `max_checks = 4`)
it leaves 4; called right after `pluginlaunch_init` with `max_checks = 100`
(limit clamped to 31) it leaves 100. -/
theorem disable_enable_counterexample :
    (Reachable demo_env (pluginlaunch_disable_parrallel_checks demo_init)
        ∧ (pluginlaunch_disable_parrallel_checks demo_init).max_running_processes = 1
        ∧ (pluginlaunch_enable_parrallel_checks (pluginlaunch_disable_parrallel_checks
            (pluginlaunch_disable_parrallel_checks demo_init))).max_running_processes = 4)
      ∧ (Reachable clamped_env clamped_init
        ∧ clamped_init.max_running_processes = 31
        ∧ (pluginlaunch_enable_parrallel_checks
            (pluginlaunch_disable_parrallel_checks clamped_init)).max_running_processes = 100) :=
  ⟨⟨Reachable.disable demo_init demo_init_reachable, by decide, by decide⟩,
    ⟨clamped_init_reachable, by decide, by decide⟩⟩

/-- C5 (amended): in every reachable state whose limit equals
`old_max_running_processes` (parallel checks are not already disabled),
`pluginlaunch_disable_parrallel_checks` followed by
`pluginlaunch_enable_parrallel_checks` leaves `max_running_processes` equal
to the value it had before the disable call, and leaves every other variable
as it was; in any state the pair sets the limit to
`old_max_running_processes`. -/
theorem disable_enable_restores (env : externals) (s : launcher) (_h : Reachable env s)
    (hmax : s.max_running_processes = s.old_max_running_processes) :
    (pluginlaunch_enable_parrallel_checks
        (pluginlaunch_disable_parrallel_checks s)).max_running_processes
        = s.max_running_processes
      ∧ pluginlaunch_enable_parrallel_checks (pluginlaunch_disable_parrallel_checks s) = s
      ∧ ∀ t : launcher, (pluginlaunch_enable_parrallel_checks
          (pluginlaunch_disable_parrallel_checks t)).max_running_processes
          = t.old_max_running_processes := by
  refine ⟨hmax.symm, ?_, fun _ => rfl⟩
  unfold pluginlaunch_enable_parrallel_checks pluginlaunch_disable_parrallel_checks
  cases s
  simp only at hmax
  simp [hmax]

set_option maxRecDepth 100000 in
/-- Witness for C5 (amended): the concrete run after two launches, limit 4. -/
theorem disable_enable_restores_witness :
    Reachable demo_env demo_two
      ∧ demo_two.max_running_processes = demo_two.old_max_running_processes
      ∧ (pluginlaunch_enable_parrallel_checks
          (pluginlaunch_disable_parrallel_checks demo_two)).max_running_processes = 4
      ∧ (pluginlaunch_enable_parrallel_checks
          (pluginlaunch_disable_parrallel_checks demo_two)).max_running_processes
        = demo_two.max_running_processes :=
  ⟨demo_two_reachable, by decide, by decide,
    (disable_enable_restores demo_env demo_two demo_two_reachable (by decide)).1⟩

/-- C6 (I2): when `plugin_launch` returns from a state whose count equals the
number of occupied slots, the count is at most the limit: the admission loop
is left with the count below the limit, the waits of `next_free_process` do
not raise it, and the launch adds at most one.  No lower bound on the limit
is needed. -/
theorem plugin_launch_within_limit (env : externals) (fuel : Nat) (global_socket : Int)
    (plugin : Nat) (s s1 : launcher) (pid : Int)
    (hc : s.num_running_processes = (occupied_count s : Int))
    (h : plugin_launch env fuel global_socket plugin s = Except.ok (pid, s1)) :
    s1.num_running_processes ≤ s1.max_running_processes
      ∧ ∃ (sa sb : launcher) (p : Nat),
          wait_for_admission env fuel s = Except.ok sa
          ∧ sa.num_running_processes < sa.max_running_processes
          ∧ next_free_process env fuel plugin sa = Except.ok ((p : Int), sb)
          ∧ sb.num_running_processes ≤ sa.num_running_processes
          ∧ launch_in_slot env global_socket plugin p sb = (pid, s1)
          ∧ s1.num_running_processes ≤ sb.num_running_processes + 1 := by
  obtain ⟨sa, sb, p, h1, h2, h3, hlt, _, hb, hl, hmax, hamax, _⟩ :=
    plugin_launch_accounting env fuel global_socket plugin s s1 pid hc h
  refine ⟨?_, sa, sb, p, h1, hlt, h2, hb, h3, hl⟩
  rw [hmax, ← hamax]
  omega

set_option maxRecDepth 100000 in
/-- Witness for C6: the second launch of the concrete run, from a state with
one routine running and the limit 4. -/
theorem plugin_launch_within_limit_witness :
    demo_one.num_running_processes = (occupied_count demo_one : Int)
      ∧ plugin_launch demo_env 1 7 2 demo_one = Except.ok (106, demo_two)
      ∧ demo_two.num_running_processes = 2
      ∧ demo_two.num_running_processes ≤ demo_two.max_running_processes :=
  ⟨by decide, demo_two_run, by decide,
    (plugin_launch_within_limit demo_env 1 7 2 demo_one demo_two 106 (by decide) demo_two_run).1⟩

/-! ## One sweep, slot by slot -/

/-- The three ways through the loop body of `update_running_processes`. -/
theorem update_running_process_cases (now : timeval) (r : running) :
    (¬ sweep_reclaims now r)
      ∨ (sweep_reclaims now r ∧ r.alive = 0)
      ∨ (sweep_reclaims now r ∧ r.alive ≠ 0 ∧ 0 < r.pid
          ∧ 0 < r.timeout ∧ r.timeout < now.tv_sec - r.start.tv_sec) := by
  by_cases h : sweep_reclaims now r
  · by_cases ha : r.alive = 0
    · exact Or.inr (Or.inl ⟨h, ha⟩)
    · exact Or.inr (Or.inr ⟨h, ha, h.1, h.2.resolve_left ha⟩)
  · exact Or.inl h

theorem update_running_process_skip (env : externals) (now : timeval) (i : Nat)
    (s : launcher) (h : ¬ sweep_reclaims now (s.processes i)) :
    update_running_process env now i s = s := by
  unfold sweep_reclaims at h
  unfold update_running_process
  dsimp only
  by_cases hpid : 0 < (s.processes i).pid
  · have hc : ¬ ((s.processes i).alive = 0
        ∨ (0 < (s.processes i).timeout
            ∧ (s.processes i).timeout < now.tv_sec - (s.processes i).start.tv_sec)) :=
      fun hc => h ⟨hpid, hc⟩
    rw [if_pos hpid, if_neg hc]
  · rw [if_neg hpid]

theorem update_running_process_dead (env : externals) (now : timeval) (i : Nat)
    (s : launcher) (h : sweep_reclaims now (s.processes i)) (ha : (s.processes i).alive = 0) :
    (update_running_process env now i s).processes
        = Function.update s.processes i running.zero
      ∧ (update_running_process env now i s).events
        = s.events ++ [event.waitpid (s.processes i).pid 0,
            event.close (s.processes i).internal_soc]
      ∧ (update_running_process env now i s).num_running_processes
        = s.num_running_processes - 1
      ∧ (update_running_process env now i s).plugins
        = Function.update s.plugins (s.processes i).plugin
            { s.plugins (s.processes i).plugin with
              running_state := plugin_status.PLUGIN_STATUS_DONE } := by
  unfold sweep_reclaims at h
  unfold update_running_process
  dsimp only
  rw [if_pos h.1, if_pos h.2]
  simp only [ha, ne_eq, not_true_eq_false, if_false]
  split_ifs
  all_goals simp [launcher.set_process, launcher.emit, launcher.set_running_state]

theorem update_running_process_timed_out (env : externals) (now : timeval) (i : Nat)
    (s : launcher) (h : sweep_reclaims now (s.processes i)) (ha : (s.processes i).alive ≠ 0) :
    (update_running_process env now i s).processes
        = Function.update s.processes i running.zero
      ∧ (update_running_process env now i s).events
        = s.events ++ [event.internal_send (s.processes i).upstream_soc
              (timeout_message s.hostname (s.processes i).timeout
                (s.plugins (s.processes i).plugin).oid) env.INTERNAL_COMM_MSG_TYPE_DATA,
            event.terminate_process (s.processes i).pid,
            event.close (s.processes i).internal_soc]
      ∧ (update_running_process env now i s).num_running_processes
        = s.num_running_processes - 1
      ∧ (update_running_process env now i s).plugins
        = Function.update s.plugins (s.processes i).plugin
            { s.plugins (s.processes i).plugin with
              running_state := plugin_status.PLUGIN_STATUS_DONE } := by
  unfold sweep_reclaims at h
  unfold update_running_process
  dsimp only
  rw [if_pos h.1, if_pos h.2, if_pos ha]
  simp [launcher.set_process, launcher.emit, launcher.set_running_state]

theorem update_running_process_drained_any (env : externals) (now : timeval) (i : Nat)
    (s : launcher) :
    (update_running_process env now i s).hostname = s.hostname
      ∧ ∀ a, ((update_running_process env now i s).plugins a).oid = (s.plugins a).oid := by
  rcases update_running_process_cases now (s.processes i) with h | ⟨h, ha⟩ | ⟨h, ha, _⟩
  · rw [update_running_process_skip env now i s h]
    exact ⟨rfl, fun _ => rfl⟩
  · refine ⟨?_, ?_⟩
    · unfold sweep_reclaims at h
      unfold update_running_process
      dsimp only
      rw [if_pos h.1, if_pos h.2]
      split_ifs
      all_goals rfl
    · intro a
      rw [(update_running_process_dead env now i s h ha).2.2.2]
      by_cases e : a = (s.processes i).plugin
      · subst e; simp
      · simp [Function.update_noteq e]
  · refine ⟨?_, ?_⟩
    · unfold sweep_reclaims at h
      unfold update_running_process
      dsimp only
      rw [if_pos h.1, if_pos h.2]
      split_ifs
      all_goals rfl
    · intro a
      rw [(update_running_process_timed_out env now i s h ha).2.2.2]
      by_cases e : a = (s.processes i).plugin
      · subst e; simp
      · simp [Function.update_noteq e]

theorem update_running_process_processes (env : externals) (now : timeval) (i : Nat)
    (s : launcher) :
    (update_running_process env now i s).processes
      = if sweep_reclaims now (s.processes i) then Function.update s.processes i running.zero
        else s.processes := by
  rcases update_running_process_cases now (s.processes i) with h | ⟨h, ha⟩ | ⟨h, ha, _⟩
  · rw [update_running_process_skip env now i s h, if_neg h]
  · rw [(update_running_process_dead env now i s h ha).1, if_pos h]
  · rw [(update_running_process_timed_out env now i s h ha).1, if_pos h]

theorem update_running_process_events (env : externals) (now : timeval) (i : Nat)
    (s : launcher) :
    (update_running_process env now i s).events
      = s.events ++ sweep_events env s.hostname (s.plugins (s.processes i).plugin).oid now
          (s.processes i) := by
  unfold sweep_events
  rcases update_running_process_cases now (s.processes i) with h | ⟨h, ha⟩ | ⟨h, ha, _⟩
  · rw [update_running_process_skip env now i s h, if_neg h, List.append_nil]
  · rw [(update_running_process_dead env now i s h ha).2.1, if_pos h]
    simp [ha]
  · rw [(update_running_process_timed_out env now i s h ha).2.1, if_pos h, if_pos ha]
    rfl

theorem update_running_process_num (env : externals) (now : timeval) (i : Nat)
    (s : launcher) :
    (update_running_process env now i s).num_running_processes
      = s.num_running_processes - (if sweep_reclaims now (s.processes i) then 1 else 0) := by
  rcases update_running_process_cases now (s.processes i) with h | ⟨h, ha⟩ | ⟨h, ha, _⟩
  · rw [update_running_process_skip env now i s h, if_neg h, sub_zero]
  · rw [(update_running_process_dead env now i s h ha).2.2.1, if_pos h]
  · rw [(update_running_process_timed_out env now i s h ha).2.2.1, if_pos h]

/-- The slot table, the events and the count after the loop of
`update_running_processes` has run over the distinct indices `l`. -/
theorem sweep_fold (env : externals) (now : timeval) (l : List Nat) (hl : l.Nodup)
    (s : launcher) :
    (∀ j, ((l.foldl (fun st i => update_running_process env now i st) s).processes j)
        = if j ∈ l ∧ sweep_reclaims now (s.processes j) then running.zero else s.processes j)
      ∧ (l.foldl (fun st i => update_running_process env now i st) s).events
        = s.events ++ l.flatMap (fun i =>
            sweep_events env s.hostname (s.plugins (s.processes i).plugin).oid now
              (s.processes i))
      ∧ (l.foldl (fun st i => update_running_process env now i st) s).num_running_processes
        = s.num_running_processes
          - (l.countP (fun i => decide (sweep_reclaims now (s.processes i))) : Nat) := by
  induction l generalizing s with
  | nil => simp
  | cons x xs ih =>
    rw [List.foldl_cons]
    have hx : x ∉ xs := (List.nodup_cons.1 hl).1
    obtain ⟨ih1, ih2, ih3⟩ := ih (List.nodup_cons.1 hl).2 (update_running_process env now x s)
    have d := update_running_process_drained_any env now x s
    have hsame : ∀ j, j ≠ x → (update_running_process env now x s).processes j
        = s.processes j := by
      intro j hj
      rw [update_running_process_processes]
      split_ifs
      · exact Function.update_noteq hj _ _
      · rfl
    refine ⟨?_, ?_, ?_⟩
    · intro j
      rw [ih1 j]
      by_cases hj : j = x
      · subst hj
        simp only [hx, false_and, if_false, List.mem_cons, true_or, true_and]
        rw [update_running_process_processes]
        split_ifs
        · exact Function.update_same _ _ _
        · rfl
      · rw [hsame j hj]
        simp [hj]
    · rw [ih2, update_running_process_events, List.flatMap_cons, List.append_assoc]
      congr 2
      apply List.flatMap_congr
      intro i hi
      have hne : i ≠ x := fun e => hx (e ▸ hi)
      rw [hsame i hne, d.1, d.2]
    · rw [ih3, update_running_process_num, List.countP_cons]
      have hc : List.countP (fun i => decide (sweep_reclaims now
            ((update_running_process env now x s).processes i))) xs
          = List.countP (fun i => decide (sweep_reclaims now (s.processes i))) xs := by
        apply List.countP_congr
        intro i hi
        have hne : i ≠ x := fun e => hx (e ▸ hi)
        rw [hsame i hne]
      rw [hc]
      by_cases hr : sweep_reclaims now (s.processes x)
      · simp [hr]
        omega
      · simp [hr]

theorem update_running_processes_idle (env : externals) (s : launcher)
    (h : s.num_running_processes = 0) : update_running_processes env s = s.step := by
  unfold update_running_processes
  dsimp only
  rw [if_pos (show s.step.num_running_processes = 0 from h)]

theorem update_running_processes_sweep (env : externals) (s : launcher)
    (h : s.num_running_processes ≠ 0) :
    (∀ j, (update_running_processes env s).processes j
        = if j < MAX_PROCESSES ∧ sweep_reclaims (env.gettimeofday s.tick) (s.processes j)
          then running.zero else s.processes j)
      ∧ (update_running_processes env s).events
        = s.events ++ (List.range MAX_PROCESSES).flatMap (fun i =>
            sweep_events env s.hostname (s.plugins (s.processes i).plugin).oid
              (env.gettimeofday s.tick) (s.processes i))
      ∧ (update_running_processes env s).num_running_processes
        = s.num_running_processes
          - ((List.range MAX_PROCESSES).countP
              (fun i => decide (sweep_reclaims (env.gettimeofday s.tick) (s.processes i)))
              : Nat) := by
  unfold update_running_processes
  dsimp only
  rw [if_neg (show ¬ s.step.num_running_processes = 0 from h)]
  obtain ⟨h1, h2, h3⟩ := sweep_fold env (env.gettimeofday s.tick) (List.range MAX_PROCESSES)
    (List.nodup_range _) s.step
  refine ⟨?_, h2, h3⟩
  intro j
  rw [h1 j]
  by_cases hj : j < MAX_PROCESSES
  · have hm : j ∈ List.range MAX_PROCESSES := List.mem_range.2 hj
    simp only [hm, hj, true_and]
    rfl
  · have hm : j ∉ List.range MAX_PROCESSES := fun c => hj (List.mem_range.1 c)
    simp only [hm, hj, false_and, if_false]
    rfl

theorem events_since_append (s s1 : launcher) (evs : List event)
    (h : s1.events = s.events ++ evs) : events_since s s1 = evs := by
  unfold events_since
  rw [h, List.drop_left]

theorem frames_sent_flatMap (l : List Nat) (g : Nat → List event)
    (f : Nat → Option (Int × String × Nat))
    (h : ∀ i, frames_sent (g i) = (f i).toList) :
    frames_sent (l.flatMap g) = l.filterMap f := by
  induction l with
  | nil => rfl
  | cons x xs ih =>
    rw [List.flatMap_cons, List.filterMap_cons]
    unfold frames_sent at ih h ⊢
    rw [List.filterMap_append, ih, h x]
    cases f x <;> rfl

theorem timeout_message_eq (h : String) (T : Int) (o : Option String) :
    timeout_message (some h) T o = timeout_frame h T o := by
  unfold timeout_message timeout_frame fmt_s
  cases o <;> simp [String.append_assoc]

theorem frames_sent_sweep_events (env : externals) (h : String) (oid : Option String)
    (now : timeval) (r : running) :
    frames_sent (sweep_events env (some h) oid now r)
      = (if sweep_times_out now r then
          some (r.upstream_soc, timeout_frame h r.timeout oid, env.INTERNAL_COMM_MSG_TYPE_DATA)
        else none).toList := by
  unfold sweep_events
  rcases update_running_process_cases now r with hr | ⟨hr, ha⟩ | ⟨hr, ha, h1, h2, h3⟩
  · have hn : ¬ sweep_times_out now r := fun t => hr ⟨t.1, Or.inr t.2.2⟩
    rw [if_neg hr, if_neg hn]
    rfl
  · have hn : ¬ sweep_times_out now r := fun t => t.2.1 ha
    rw [if_pos hr, if_neg hn]
    simp [ha, frames_sent]
  · have ht : sweep_times_out now r := ⟨h1, ha, h2, h3⟩
    rw [if_pos hr, if_pos ht, if_pos ha, timeout_message_eq]
    rfl

theorem infix_flatMap_of_mem (l : List Nat) (g : Nat → List event) (i : Nat) (hi : i ∈ l) :
    g i <:+: l.flatMap g := by
  induction l with
  | nil => cases hi
  | cons x xs ih =>
    rw [List.flatMap_cons]
    rcases List.mem_cons.1 hi with e | e
    · subst e
      exact List.infix_append' [] _ _
    · exact (ih e).trans (List.suffix_append _ _).isInfix

theorem flatMap_filter_of_nil (l : List Nat) (g : Nat → List event) (i : Nat)
    (h : g i = []) : l.flatMap g = (l.filter (fun j => decide (j ≠ i))).flatMap g := by
  induction l with
  | nil => rfl
  | cons x xs ih =>
    rw [List.flatMap_cons, List.filter_cons]
    by_cases hx : x = i
    · subst hx
      simp only [ne_eq, not_true_eq_false, decide_False, Bool.false_eq_true, if_false]
      rw [h, List.nil_append, ih]
    · simp only [ne_eq, hx, not_false_eq_true, decide_True, if_true]
      rw [List.flatMap_cons, ih]

set_option maxRecDepth 100000 in
/-- C7 (counterexample): at the boundary the slot is not timed out.  Slot 0 of
the concrete run holds a live routine with the timeout 320 started at time 1;
the sweep at time 321 (`now - start = 320 = T`) leaves the slot as it is and
makes no external call.  Moreover the function returns at once when the
cached count is 0, whatever the table holds: slot 0 of `idle_state` is 5
seconds old with the timeout 1 and is left as it is. -/
theorem sweep_boundary_counterexample :
    (boundary_state.num_running_processes = 1
      ∧ 0 < (boundary_state.processes 0).pid
      ∧ (boundary_state.processes 0).alive = 1
      ∧ (boundary_state.processes 0).timeout = 320
      ∧ (demo_env.gettimeofday boundary_state.tick).tv_sec
          - (boundary_state.processes 0).start.tv_sec = 320
      ∧ (update_running_processes demo_env boundary_state).processes 0
          = boundary_state.processes 0
      ∧ events_since boundary_state (update_running_processes demo_env boundary_state) = [])
    ∧ (idle_state.num_running_processes = 0
      ∧ 0 < (idle_state.processes 0).pid
      ∧ (idle_state.processes 0).alive = 1
      ∧ (idle_state.processes 0).timeout = 1
      ∧ (demo_env.gettimeofday idle_state.tick).tv_sec
          - (idle_state.processes 0).start.tv_sec = 5
      ∧ (update_running_processes demo_env idle_state).processes 0 = idle_state.processes 0
      ∧ events_since idle_state (update_running_processes demo_env idle_state) = []) := by
  decide

/-- C7 (amended): in a state whose count is not 0, an occupied slot that is not
marked dead and has a timeout `T > 0` is timed out by one call of
`update_running_processes` at time `now` whenever
`now.tv_sec - start.tv_sec > T` (strictly): the error frame is sent, the child
terminated, the descriptor closed and the slot zeroed.  When
`now.tv_sec - start.tv_sec ≤ T`, in particular at the boundary
`now.tv_sec - start.tv_sec = T`, the slot is left untouched: all its fields
stay and the external calls of the sweep are those made for the other slots.
So the slot is zeroed exactly when `T < now.tv_sec - start.tv_sec`.  After
the sweep every slot that is still occupied and has `T > 0` has
`now.tv_sec - start.tv_sec ≤ T`. -/
theorem sweep_times_out_late_slot (env : externals) (s : launcher) (i : Nat)
    (hi : i < MAX_PROCESSES) (hnum : s.num_running_processes ≠ 0)
    (hpid : 0 < (s.processes i).pid) (halive : (s.processes i).alive ≠ 0)
    (hT : 0 < (s.processes i).timeout) :
    ((s.processes i).timeout
          < (env.gettimeofday s.tick).tv_sec - (s.processes i).start.tv_sec →
        (update_running_processes env s).processes i = running.zero
          ∧ [event.internal_send (s.processes i).upstream_soc
                (timeout_message s.hostname (s.processes i).timeout
                  (s.plugins (s.processes i).plugin).oid) env.INTERNAL_COMM_MSG_TYPE_DATA,
              event.terminate_process (s.processes i).pid,
              event.close (s.processes i).internal_soc]
            <:+: events_since s (update_running_processes env s))
      ∧ ((env.gettimeofday s.tick).tv_sec - (s.processes i).start.tv_sec
            = (s.processes i).timeout →
          (update_running_processes env s).processes i = s.processes i)
      ∧ ((env.gettimeofday s.tick).tv_sec - (s.processes i).start.tv_sec
            ≤ (s.processes i).timeout →
          (update_running_processes env s).processes i = s.processes i
            ∧ events_since s (update_running_processes env s)
              = ((List.range MAX_PROCESSES).filter (fun j => decide (j ≠ i))).flatMap
                  (fun j => sweep_events env s.hostname (s.plugins (s.processes j).plugin).oid
                    (env.gettimeofday s.tick) (s.processes j)))
      ∧ ((update_running_processes env s).processes i = running.zero ↔
          (s.processes i).timeout
            < (env.gettimeofday s.tick).tv_sec - (s.processes i).start.tv_sec)
      ∧ ∀ j, j < MAX_PROCESSES → 0 < ((update_running_processes env s).processes j).pid →
          0 < ((update_running_processes env s).processes j).timeout →
          (env.gettimeofday s.tick).tv_sec
              - ((update_running_processes env s).processes j).start.tv_sec
            ≤ ((update_running_processes env s).processes j).timeout := by
  obtain ⟨h1, h2, _⟩ := update_running_processes_sweep env s hnum
  have hlate : (s.processes i).timeout
        < (env.gettimeofday s.tick).tv_sec - (s.processes i).start.tv_sec →
      sweep_reclaims (env.gettimeofday s.tick) (s.processes i) :=
    fun h => ⟨hpid, Or.inr ⟨hT, h⟩⟩
  have hearly : (env.gettimeofday s.tick).tv_sec - (s.processes i).start.tv_sec
        ≤ (s.processes i).timeout →
      ¬ sweep_reclaims (env.gettimeofday s.tick) (s.processes i) := by
    intro h hr
    rcases hr.2 with a | a
    · exact halive a
    · exact absurd a.2 (not_lt.2 h)
  have hkeep : (env.gettimeofday s.tick).tv_sec - (s.processes i).start.tv_sec
        ≤ (s.processes i).timeout →
      (update_running_processes env s).processes i = s.processes i := by
    intro h
    rw [h1 i, if_neg (fun c => hearly h c.2)]
  refine ⟨?_, ?_, ?_, ?_, ?_⟩
  · intro hl
    have hr := hlate hl
    refine ⟨?_, ?_⟩
    · rw [h1 i, if_pos ⟨hi, hr⟩]
    · rw [events_since_append s _ _ h2]
      have hin := infix_flatMap_of_mem (List.range MAX_PROCESSES)
        (fun i => sweep_events env s.hostname (s.plugins (s.processes i).plugin).oid
          (env.gettimeofday s.tick) (s.processes i)) i (List.mem_range.2 hi)
      have he : sweep_events env s.hostname (s.plugins (s.processes i).plugin).oid
          (env.gettimeofday s.tick) (s.processes i)
          = [event.internal_send (s.processes i).upstream_soc
              (timeout_message s.hostname (s.processes i).timeout
                (s.plugins (s.processes i).plugin).oid) env.INTERNAL_COMM_MSG_TYPE_DATA,
            event.terminate_process (s.processes i).pid,
            event.close (s.processes i).internal_soc] := by
        unfold sweep_events
        rw [if_pos hr, if_pos halive]
        rfl
      rw [← he]
      exact hin
  · intro hb
    exact hkeep (le_of_eq hb)
  · intro hle
    refine ⟨hkeep hle, ?_⟩
    rw [events_since_append s _ _ h2]
    apply flatMap_filter_of_nil
    unfold sweep_events
    rw [if_neg (hearly hle)]
  · constructor
    · intro hz
      by_contra hnl
      have hk := hkeep (not_lt.1 hnl)
      rw [hz] at hk
      have : (0 : Int) < running.zero.pid := by rw [hk]; exact hpid
      simp [running.zero] at this
    · intro hl
      rw [h1 i, if_pos ⟨hi, hlate hl⟩]
  · intro j hj hp ht
    rw [h1 j] at hp ht ⊢
    by_cases hrj : sweep_reclaims (env.gettimeofday s.tick) (s.processes j)
    · rw [if_pos ⟨hj, hrj⟩] at hp
      simp [running.zero] at hp
    · have hn : ¬ (j < MAX_PROCESSES ∧ sweep_reclaims (env.gettimeofday s.tick)
          (s.processes j)) := fun c => hrj c.2
      rw [if_neg hn] at hp ht ⊢
      unfold sweep_reclaims at hrj
      by_contra hc
      exact hrj ⟨hp, Or.inr ⟨ht, not_le.1 hc⟩⟩

set_option maxRecDepth 100000 in
/-- Witness for C7 (amended): slot 0 of the timeout scenario (timeout 1,
started at time 0) is timed out by the sweep at time 5; slot 0 of the
concrete run (timeout 320, started at time 1) is left untouched by the sweep
at time 321, the boundary. -/
theorem sweep_times_out_late_slot_witness :
    ((timeout_state.processes 0).timeout = 1
      ∧ (demo_env.gettimeofday timeout_state.tick).tv_sec
          - (timeout_state.processes 0).start.tv_sec = 5
      ∧ (update_running_processes demo_env timeout_state).processes 0 = running.zero)
    ∧ ((boundary_state.processes 0).timeout = 320
      ∧ (demo_env.gettimeofday boundary_state.tick).tv_sec
          - (boundary_state.processes 0).start.tv_sec = 320
      ∧ (update_running_processes demo_env boundary_state).processes 0
          = boundary_state.processes 0) :=
  ⟨⟨by decide, by decide,
    ((sweep_times_out_late_slot demo_env timeout_state 0 (by decide) (by decide) (by decide)
      (by decide) (by decide)).1 (by decide)).1⟩,
   ⟨by decide, by decide,
    (sweep_times_out_late_slot demo_env boundary_state 0 (by decide) (by decide) (by decide)
      (by decide) (by decide)).2.1 (by decide)⟩⟩

/-- C8: the frames that one call of `update_running_processes` at time `now`
sends upstream are, in slot order, one DATA frame per slot it times out and
nothing for any other slot (none at all when the count is 0, when the
function returns at once); the frame of a slot is the text
`SERVER <|> ERRMSG <|> h <|> general/tcp <|> NVT timed out after T seconds. <|> o <|> SERVER`
with a final newline, for the host `h`, the stored timeout `T` in decimal and
the oid `o` of the routine, `0` when the oid is missing. -/
theorem sweep_upstream_output (env : externals) (s : launcher) (h : String)
    (hh : s.hostname = some h) :
    frames_sent (events_since s (update_running_processes env s))
      = if s.num_running_processes = 0 then []
        else expected_frames env s h (env.gettimeofday s.tick) := by
  by_cases h0 : s.num_running_processes = 0
  · rw [if_pos h0, update_running_processes_idle env s h0]
    have : events_since s s.step = [] := events_since_append s s.step []
      (by rw [List.append_nil]; rfl)
    rw [this]
    rfl
  · rw [if_neg h0]
    obtain ⟨_, h2, _⟩ := update_running_processes_sweep env s h0
    rw [events_since_append s _ _ h2]
    unfold expected_frames
    apply frames_sent_flatMap
    intro i
    rw [hh]
    exact frames_sent_sweep_events env h _ _ _

set_option maxRecDepth 100000 in
/-- Witness for C8: the timeout scenario, host `testhost`, timeout 1, oid
`oid-R`; the dead slot 1 gives no frame and the routine without oid the
frame with `0`. -/
theorem sweep_upstream_output_witness :
    timeout_state.hostname = some "testhost"
      ∧ frames_sent (events_since timeout_state
          (update_running_processes demo_env timeout_state))
        = [(7, "SERVER <|> ERRMSG <|> testhost <|> general/tcp <|> NVT timed out after 1 seconds. <|> oid-R <|> SERVER\n", 262144),
           (7, "SERVER <|> ERRMSG <|> testhost <|> general/tcp <|> NVT timed out after 2 seconds. <|> 0 <|> SERVER\n", 262144)] :=
  ⟨rfl, (sweep_upstream_output demo_env timeout_state "testhost" rfl).trans (by decide)⟩

/-! ## The stored timeout -/

theorem launch_timeout_eq (env : externals) (oid : Option String) :
    launch_timeout env oid = claimed_timeout env oid := by
  have hm : atoi "-1" = -1 := by decide
  unfold launch_timeout claimed_timeout preference_value default_timeout_preference
  dsimp only
  by_cases h1 : env.prefs_nvt_timeout oid = 0
  · by_cases h2 : env.nvticache_get_timeout oid = 0
    · by_cases h3 : env.nvticache_get_category oid = env.ACT_SCANNER
      · simp only [h1, h2, h3, if_true, ne_eq, not_true_eq_false, if_false]
        cases env.prefs_get "scanner_plugins_timeout" with
        | none => exact hm
        | some t => rfl
      · simp only [h1, h2, h3, if_true, ne_eq, not_true_eq_false, if_false]
        cases env.prefs_get "plugins_timeout" with
        | none => exact hm
        | some t => rfl
    · simp [h1, h2]
  · simp [h1]

theorem launch_in_slot_slot (env : externals) (global_socket : Int) (plugin p : Nat)
    (s : launcher) :
    (launch_in_slot env global_socket plugin p s).2.processes p
        = { plugin := plugin, start := env.gettimeofday (s.tick + 1),
            pid := env.nasl_plugin_launch (s.tick + 1 + 1) (s.plugins plugin).oid
              (env.socketpair s.tick).2.2,
            timeout := launch_timeout env (s.plugins plugin).oid,
            upstream_soc := global_socket, internal_soc := (env.socketpair s.tick).2.1,
            alive := 1 }
      ∧ (launch_in_slot env global_socket plugin p s).1
        = env.nasl_plugin_launch (s.tick + 1 + 1) (s.plugins plugin).oid
            (env.socketpair s.tick).2.2 := by
  unfold launch_in_slot
  dsimp only [launcher.step, launcher.emit, launcher.set_process, launcher.set_running_state]
  split_ifs
  all_goals simp

theorem plugin_launch_of_at (env : externals) (fuel : Nat) (global_socket : Int)
    (plugin : Nat) (s s1 : launcher) (p : Nat) (pid : Int)
    (h : plugin_launch_at env fuel global_socket plugin s = Except.ok (p, pid, s1)) :
    plugin_launch env fuel global_socket plugin s = Except.ok (pid, s1) := by
  unfold plugin_launch
  rw [h]

/-- The slot `plugin_launch` fills: its index is the first free one after the
waits, and the record written there. -/
theorem plugin_launch_at_slot (env : externals) (fuel : Nat) (global_socket : Int)
    (plugin : Nat) (s s1 : launcher) (p : Nat) (pid : Int)
    (h : plugin_launch_at env fuel global_socket plugin s = Except.ok (p, pid, s1)) :
    p < MAX_PROCESSES
      ∧ (s1.processes p).plugin = plugin
      ∧ (s1.processes p).timeout = launch_timeout env (s.plugins plugin).oid
      ∧ (s1.processes p).pid = pid
      ∧ (s1.processes p).alive = 1
      ∧ (s1.processes p).upstream_soc = global_socket := by
  obtain ⟨sa, sb, h1, h2, h3⟩ := plugin_launch_at_ok env fuel global_socket plugin s s1 p pid h
  have d1 := (wait_for_admission_drained env fuel s sa h1).1
  obtain ⟨d2, hfree⟩ := next_free_process_drained env fuel plugin sa sb p h2
  have hnn : 0 ≤ first_free sb := by rw [← hfree]; exact Int.natCast_nonneg _
  have hs := first_free_spec sb hnn
  rw [← hfree, Int.toNat_ofNat] at hs
  obtain ⟨e1, e2⟩ := launch_in_slot_slot env global_socket plugin p sb
  rw [h3] at e1 e2
  have hoid : (sb.plugins plugin).oid = (s.plugins plugin).oid :=
    (d2.oid_eq plugin).trans (d1.oid_eq plugin)
  dsimp only at e1 e2
  rw [e1]
  refine ⟨hs.1, rfl, ?_, ?_, rfl, rfl⟩
  · show launch_timeout env (sb.plugins plugin).oid = _
    rw [hoid]
  · exact e2.symm

/-- C9: the timeout that `plugin_launch` stores in the slot of the routine is
the per-routine override (`prefs_nvt_timeout`) if that is not 0, otherwise
the catalog timeout (`nvticache_get_timeout`) if that is not 0, otherwise the
integer value of the preference `scanner_plugins_timeout` for a routine of
category `ACT_SCANNER` and of `plugins_timeout` for any other category, an
absent preference giving `-1`. -/
theorem plugin_launch_stores_timeout (env : externals) (fuel : Nat) (global_socket : Int)
    (plugin : Nat) (s s1 : launcher) (p : Nat) (pid : Int)
    (h : plugin_launch_at env fuel global_socket plugin s = Except.ok (p, pid, s1)) :
    plugin_launch env fuel global_socket plugin s = Except.ok (pid, s1)
      ∧ (s1.processes p).plugin = plugin
      ∧ (s1.processes p).timeout = claimed_timeout env (s.plugins plugin).oid := by
  obtain ⟨_, h1, h2, _⟩ := plugin_launch_at_slot env fuel global_socket plugin s s1 p pid h
  exact ⟨plugin_launch_of_at env fuel global_socket plugin s s1 p pid h, h1,
    h2.trans (launch_timeout_eq env _)⟩

set_option maxRecDepth 100000 in
theorem demo_one_run_at :
    plugin_launch_at demo_env 1 7 1 demo_init = Except.ok (0, 102, demo_one) := rfl

set_option maxRecDepth 100000 in
/-- Witness for C9: the first launch of the concrete run stores the value 320
of the preference `plugins_timeout` in slot 0. -/
theorem plugin_launch_stores_timeout_witness :
    plugin_launch_at demo_env 1 7 1 demo_init = Except.ok (0, 102, demo_one)
      ∧ claimed_timeout demo_env (demo_init.plugins 1).oid = 320
      ∧ (demo_one.processes 0).timeout = 320 :=
  ⟨demo_one_run_at, by decide,
    (plugin_launch_stores_timeout demo_env 1 7 1 demo_init demo_one 0 102
      demo_one_run_at).2.2.trans (by decide)⟩

set_option maxRecDepth 100000 in
theorem zero_timeout_run_at :
    plugin_launch_at zero_timeout_env 1 7 1 demo_init = Except.ok (0, 102, zero_timeout_one) :=
  rfl

set_option maxRecDepth 100000 in
theorem text_timeout_run_at :
    plugin_launch_at text_timeout_env 1 7 1 demo_init = Except.ok (0, 102, text_timeout_one) :=
  rfl

set_option maxRecDepth 100000 in
/-- C10 (counterexample): with no override, no catalog timeout and the
preference `plugins_timeout` present with the text `0`, or with the text
`never`, `plugin_launch` returns with the timeout 0 stored in the slot. -/
theorem stored_timeout_counterexample :
    (plugin_launch_at zero_timeout_env 1 7 1 demo_init = Except.ok (0, 102, zero_timeout_one)
        ∧ zero_timeout_env.prefs_get "plugins_timeout" = some "0"
        ∧ (zero_timeout_one.processes 0).pid = 102
        ∧ (zero_timeout_one.processes 0).timeout = 0)
      ∧ (plugin_launch_at text_timeout_env 1 7 1 demo_init
            = Except.ok (0, 102, text_timeout_one)
        ∧ text_timeout_env.prefs_get "plugins_timeout" = some "never"
        ∧ (text_timeout_one.processes 0).pid = 102
        ∧ (text_timeout_one.processes 0).timeout = 0) :=
  ⟨⟨zero_timeout_run_at, by decide, by decide, by decide⟩,
    ⟨text_timeout_run_at, by decide, by decide, by decide⟩⟩

/-- C10 (amended): the timeout that `plugin_launch` leaves in the slot is 0
exactly when the per-routine override and the catalog timeout are both 0 and
the default preference of the routine's category is present with a text whose
integer value is 0; it is `-1` when both are 0 and that preference is
absent, and non-zero when the override or the catalog timeout is non-zero. -/
theorem stored_timeout_zero_iff (env : externals) (fuel : Nat) (global_socket : Int)
    (plugin : Nat) (s s1 : launcher) (p : Nat) (pid : Int)
    (h : plugin_launch_at env fuel global_socket plugin s = Except.ok (p, pid, s1)) :
    ((s1.processes p).timeout = 0
        ↔ env.prefs_nvt_timeout (s.plugins plugin).oid = 0
          ∧ env.nvticache_get_timeout (s.plugins plugin).oid = 0
          ∧ ∃ text, env.prefs_get (default_timeout_preference env (s.plugins plugin).oid)
                = some text ∧ atoi text = 0)
      ∧ (env.prefs_nvt_timeout (s.plugins plugin).oid = 0
          → env.nvticache_get_timeout (s.plugins plugin).oid = 0
          → env.prefs_get (default_timeout_preference env (s.plugins plugin).oid) = none
          → (s1.processes p).timeout = -1) := by
  obtain ⟨_, _, h2, _⟩ := plugin_launch_at_slot env fuel global_socket plugin s s1 p pid h
  rw [h2, launch_timeout_eq]
  unfold claimed_timeout preference_value
  constructor
  · by_cases h1 : env.prefs_nvt_timeout (s.plugins plugin).oid = 0
    · by_cases h3 : env.nvticache_get_timeout (s.plugins plugin).oid = 0
      · simp only [h1, h3, ne_eq, not_true_eq_false, if_false, true_and]
        cases env.prefs_get (default_timeout_preference env (s.plugins plugin).oid) with
        | none => simp
        | some t => simp
      · simp [h1, h3]
    · simp [h1]
  · intro h1 h3 h4
    simp [h1, h3, h4]

set_option maxRecDepth 100000 in
/-- Witness for C10 (amended): the launch with `plugins_timeout = 0`. -/
theorem stored_timeout_zero_iff_witness :
    plugin_launch_at zero_timeout_env 1 7 1 demo_init = Except.ok (0, 102, zero_timeout_one)
      ∧ ((zero_timeout_one.processes 0).timeout = 0
        ↔ zero_timeout_env.prefs_nvt_timeout (demo_init.plugins 1).oid = 0
          ∧ zero_timeout_env.nvticache_get_timeout (demo_init.plugins 1).oid = 0
          ∧ ∃ text, zero_timeout_env.prefs_get
                (default_timeout_preference zero_timeout_env (demo_init.plugins 1).oid)
                = some text ∧ atoi text = 0) :=
  ⟨zero_timeout_run_at,
    (stored_timeout_zero_iff zero_timeout_env 1 7 1 demo_init zero_timeout_one 0 102
      zero_timeout_run_at).1⟩

/-! ## Waiting for routines in conflict -/

theorem mem_events_since (s s1 : launcher) (e : event) (a : List event)
    (h : s1.events = s.events ++ a) (he : e ∈ a) : e ∈ events_since s s1 := by
  rw [events_since_append s s1 a h]
  exact he

theorem mem_events_since_right {s s1 s2 : launcher} (e : event)
    (h1 : s.events <+: s1.events) (h2 : s1.events <+: s2.events)
    (he : e ∈ events_since s1 s2) : e ∈ events_since s s2 := by
  obtain ⟨a, ha⟩ := h1
  obtain ⟨b, hb⟩ := h2
  rw [events_since_append s1 s2 b hb.symm] at he
  apply mem_events_since s s2 e (a ++ b)
  · rw [← hb, ← ha, List.append_assoc]
  · exact List.mem_append_right _ he

theorem mem_events_since_left {s s1 s2 : launcher} (e : event)
    (h1 : s.events <+: s1.events) (h2 : s1.events <+: s2.events)
    (he : e ∈ events_since s s1) : e ∈ events_since s s2 := by
  obtain ⟨a, ha⟩ := h1
  obtain ⟨b, hb⟩ := h2
  rw [events_since_append s s1 a ha.symm] at he
  apply mem_events_since s s2 e (a ++ b)
  · rw [← hb, ← ha, List.append_assoc]
  · exact List.mem_append_left _ he

/-- The loop of `wait_if_simult_ports` ends only on the answer "not alive". -/
theorem wait_while_alive_answer (env : externals) (pid : Int) (fuel : Nat) (s s1 : launcher)
    (h : wait_while_alive env pid fuel s = Except.ok s1) :
    event.process_alive pid false ∈ events_since s s1 := by
  induction fuel generalizing s with
  | zero => simp [wait_while_alive] at h
  | succ n ih =>
    have hd := wait_while_alive_drained env pid (n + 1) s s1 h
    unfold wait_while_alive at h
    dsimp only at h
    split_ifs at h with ha
    · have hm := ih _ h
      have d1 : Drained s (wait_for_children (update_running_processes env
          (read_running_processes env (s.emit (event.process_alive pid
            (env.process_alive s.tick pid))).step))) :=
        ((emit_drained s _).trans (step_drained _)).trans
          (((read_running_processes_drained env _).trans
            (update_running_processes_drained env _)).trans (wait_for_children_drained _))
      exact mem_events_since_right _ d1.events_ext
        (wait_while_alive_drained env pid n _ s1 h).events_ext hm
    · cases h
      have hf : env.process_alive s.tick pid = false := by
        cases hx : env.process_alive s.tick pid
        · rfl
        · exact absurd hx ha
      apply mem_events_since s _ _ [event.process_alive pid false]
      · rw [hf]
        rfl
      · exact List.mem_singleton_self _

/-- After the first loop of `next_free_process` over the indices `l`, every
slot with an index in `l` that is still occupied by a routine in conflict
with the upcoming one has had its child reported dead. -/
theorem next_free_waits (env : externals) (fuel : Nat) (upcoming : Nat) (l : List Nat)
    (s s1 : launcher) (h : l.foldlM (next_free_wait env fuel upcoming) s = Except.ok s1) :
    ∀ r, r ∈ l → 0 < (s1.processes r).pid →
      simult_ports env s1.non_simult_ports (s1.plugins (s1.processes r).plugin).oid
        (s1.plugins upcoming).oid = true →
      event.process_alive (s1.processes r).pid false ∈ events_since s s1 := by
  induction l generalizing s with
  | nil => intro r hr; cases hr
  | cons x xs ih =>
    rw [List.foldlM_cons] at h
    cases hx : next_free_wait env fuel upcoming s x with
    | error e => simp [hx, bind, Except.bind] at h
    | ok s2 =>
      simp only [hx, bind, Except.bind] at h
      have d1 : Drained s s2 := next_free_wait_drained env fuel upcoming s s2 x hx
      have d2 : Drained s2 s1 := foldlM_drained _
        (fun a r b => next_free_wait_drained env fuel upcoming a b r) xs s2 s1 h
      intro r hr hocc hconf
      by_cases hin : r ∈ xs
      · exact mem_events_since_right _ d1.events_ext d2.events_ext (ih s2 h r hin hocc hconf)
      · have hrx : r = x := by
          rcases List.mem_cons.1 hr with e | e
          · exact e
          · exact absurd e hin
        subst hrx
        have o2 := d2.occupied r hocc
        have hocc2 : 0 < (s2.processes r).pid := o2.1 ▸ hocc
        have o1 := d1.occupied r hocc2
        have hocc0 : 0 < (s.processes r).pid := o1.1 ▸ hocc2
        have hpid : (s1.processes r).pid = (s.processes r).pid := o2.1.trans o1.1
        have hplug : (s1.processes r).plugin = (s.processes r).plugin := o2.2.trans o1.2
        have hoid : ∀ a, (s1.plugins a).oid = (s.plugins a).oid :=
          fun a => (d2.oid_eq a).trans (d1.oid_eq a)
        have hports : s1.non_simult_ports = s.non_simult_ports :=
          d2.ports_eq.trans d1.ports_eq
        rw [hports, hoid, hoid, hplug] at hconf
        unfold next_free_wait at hx
        rw [if_pos hocc0] at hx
        unfold wait_if_simult_ports at hx
        rw [if_pos hconf] at hx
        rw [hpid]
        exact mem_events_since_left _ d1.events_ext d2.events_ext
          (wait_while_alive_answer env _ fuel s s2 hx)

theorem launch_in_slot_other (env : externals) (global_socket : Int) (plugin p : Nat)
    (s : launcher) :
    (∀ r, r ≠ p → (launch_in_slot env global_socket plugin p s).2.processes r = s.processes r)
      ∧ (∀ a, ((launch_in_slot env global_socket plugin p s).2.plugins a).oid
          = (s.plugins a).oid)
      ∧ s.events <+: (launch_in_slot env global_socket plugin p s).2.events := by
  unfold launch_in_slot
  dsimp only [launcher.step, launcher.emit, launcher.set_process, launcher.set_running_state]
  split_ifs
  · refine ⟨fun r hr => Function.update_noteq hr _ _, fun _ => rfl, ?_⟩
    rw [List.append_assoc]
    exact List.prefix_append _ _
  · refine ⟨fun r hr => Function.update_noteq hr _ _, ?_, ?_⟩
    · intro a
      dsimp only
      by_cases e : a = plugin
      · subst e; simp
      · simp [Function.update_noteq e]
    · dsimp only
      rw [List.append_assoc]
      exact List.prefix_append _ _

set_option maxRecDepth 100000 in
theorem demo_two_run_at :
    plugin_launch_at demo_env 1 7 2 demo_one = Except.ok (1, 106, demo_two) := rfl

set_option maxRecDepth 100000 in
/-- C2 (counterexample): two routines that both require port 139, one of the
non-simultaneous ports, occupy two slots at once when `plugin_launch` returns.
The first child is reported dead by `process_alive` when the second routine
is launched, so the wait ends, but its slot has not been swept. -/
theorem conflict_counterexample :
    plugin_launch demo_env 1 7 2 demo_one = Except.ok (106, demo_two)
      ∧ 0 < (demo_two.processes 0).pid ∧ 0 < (demo_two.processes 1).pid
      ∧ (demo_two.plugins (demo_two.processes 0).plugin).oid = some "oid-R1"
      ∧ (demo_two.plugins (demo_two.processes 1).plugin).oid = some "oid-R2"
      ∧ "139" ∈ required_tokens demo_env (some "oid-R1")
      ∧ "139" ∈ required_tokens demo_env (some "oid-R2")
      ∧ "139" ∈ demo_two.non_simult_ports
      ∧ simult_ports demo_env demo_two.non_simult_ports
          (demo_two.plugins (demo_two.processes 0).plugin).oid
          (demo_two.plugins (demo_two.processes 1).plugin).oid = true :=
  ⟨demo_two_run, by decide, by decide, by decide, by decide, by decide, by decide, by decide,
    by decide⟩

/-- C2 (amended): when `plugin_launch` returns having filled slot `p`, every
other slot that is occupied by a routine in conflict with the launched one has
had its child reported dead by `process_alive` during this call, before slot
`p` was filled; such a slot can still be occupied. -/
theorem launch_waits_for_conflicting (env : externals) (fuel : Nat) (global_socket : Int)
    (plugin : Nat) (s s1 : launcher) (p : Nat) (pid : Int)
    (h : plugin_launch_at env fuel global_socket plugin s = Except.ok (p, pid, s1)) :
    ∃ sb, launch_in_slot env global_socket plugin p sb = (pid, s1)
      ∧ ∀ r, r < MAX_PROCESSES → r ≠ p → 0 < (s1.processes r).pid →
          simult_ports env s1.non_simult_ports (s1.plugins (s1.processes r).plugin).oid
            (s1.plugins plugin).oid = true →
          event.process_alive (s1.processes r).pid false ∈ events_since s sb
            ∧ event.process_alive (s1.processes r).pid false ∈ events_since s s1 := by
  obtain ⟨sa, sb, h1, h2, h3⟩ := plugin_launch_at_ok env fuel global_socket plugin s s1 p pid h
  have d1 := (wait_for_admission_drained env fuel s sa h1).1
  have d2 := (next_free_process_drained env fuel plugin sa sb p h2).1
  refine ⟨sb, h3, ?_⟩
  intro r hr hrp hocc hconf
  obtain ⟨ho, hoid, hev⟩ := launch_in_slot_other env global_socket plugin p sb
  have hcfg := launch_in_slot_config env global_socket plugin p sb
  rw [h3] at ho hoid hev hcfg
  dsimp only at ho hoid hev hcfg
  rw [ho r hrp] at hocc
  rw [ho r hrp, hoid, hoid, hcfg.2.2.1] at hconf
  unfold next_free_process at h2
  cases hf : (List.range MAX_PROCESSES).foldlM (next_free_wait env fuel plugin)
      (wait_for_children sa) with
  | error e => simp [hf] at h2
  | ok sc =>
    simp only [hf, Except.ok.injEq, Prod.mk.injEq] at h2
    obtain ⟨_, hsc⟩ := h2
    subst hsc
    have hw := next_free_waits env fuel plugin (List.range MAX_PROCESSES) _ _ hf r
      (List.mem_range.2 hr) hocc hconf
    have dw := wait_for_children_drained sa
    have dc := foldlM_drained _
      (fun a r b => next_free_wait_drained env fuel plugin a b r) _ _ _ hf
    have hsb : event.process_alive (sc.processes r).pid false ∈ events_since s sc :=
      mem_events_since_right _ (d1.events_ext.trans dw.events_ext) dc.events_ext hw
    rw [ho r hrp]
    exact ⟨hsb, mem_events_since_left _ (d1.events_ext.trans d2.events_ext) hev hsb⟩

set_option maxRecDepth 100000 in
/-- Witness for C2 (amended): in the concrete run the child 102 of slot 0 was
reported dead before the routine in conflict with it was placed in slot 1. -/
theorem launch_waits_for_conflicting_witness :
    plugin_launch_at demo_env 1 7 2 demo_one = Except.ok (1, 106, demo_two)
      ∧ (demo_two.processes 0).pid = 102
      ∧ event.process_alive 102 false ∈ events_since demo_one demo_two :=
  ⟨demo_two_run_at, by decide,
    (launch_waits_for_conflicting demo_env 1 7 2 demo_one demo_two 1 106
      demo_two_run_at).elim
      (fun _ hsb => (hsb.2 0 (by decide) (by decide) (by decide) (by decide)).2)⟩

/-! ## The running state of the routines -/

theorem StateKept.same (s : launcher) : StateKept s s := fun _ => Or.inl rfl

theorem StateKept.chain {s s1 s2 : launcher} (h1 : StateKept s s1) (h2 : StateKept s1 s2) :
    StateKept s s2 := by
  intro a
  rcases h2 a with e | e
  · rcases h1 a with f | f
    · exact Or.inl (e.trans f)
    · exact Or.inr (e.trans f)
  · exact Or.inr e

theorem StateKept.of_eq {s s1 : launcher} (h : s1.plugins = s.plugins) : StateKept s s1 := by
  intro a
  rw [h]
  exact Or.inl rfl

theorem StateKept.fold (f : launcher → Nat → launcher) (l : List Nat)
    (h : ∀ s i, StateKept s (f s i)) (s : launcher) : StateKept s (l.foldl f s) := by
  induction l generalizing s with
  | nil => exact StateKept.same s
  | cons x xs ih =>
    rw [List.foldl_cons]
    exact (h s x).chain (ih (f s x))

theorem StateKept.foldM (f : launcher → Nat → Except failure launcher)
    (hf : ∀ s r s1, f s r = Except.ok s1 → StateKept s s1) (l : List Nat) (s s1 : launcher)
    (h : l.foldlM f s = Except.ok s1) : StateKept s s1 := by
  induction l generalizing s with
  | nil =>
    simp only [List.foldlM_nil, pure, Except.pure] at h
    cases h
    exact StateKept.same _
  | cons x xs ih =>
    rw [List.foldlM_cons] at h
    cases hx : f s x with
    | error e => simp [hx, bind, Except.bind] at h
    | ok s2 =>
      simp only [hx, bind, Except.bind] at h
      exact (hf s x s2 hx).chain (ih s2 h)

theorem process_internal_msg_plugins (env : externals) (p : Nat) (s : launcher) :
    (process_internal_msg env p s).2.plugins = s.plugins := by
  unfold process_internal_msg
  simp only [launcher.step, launcher.emit, launcher.set_process]
  split_ifs
  all_goals rfl

theorem read_running_process_plugins (env : externals) (rd : Int → Bool)
    (acc : Nat × launcher) (i : Nat) :
    (read_running_process env rd acc i).2.plugins = acc.2.plugins := by
  unfold read_running_process
  split_ifs
  · exact process_internal_msg_plugins env i acc.2
  · rfl
  · rfl

theorem read_fold_plugins (env : externals) (rd : Int → Bool) (l : List Nat)
    (acc : Nat × launcher) :
    (l.foldl (read_running_process env rd) acc).2.plugins = acc.2.plugins := by
  induction l generalizing acc with
  | nil => rfl
  | cons x xs ih =>
    rw [List.foldl_cons, ih, read_running_process_plugins]

theorem read_running_processes_plugins (env : externals) (s : launcher) :
    (read_running_processes env s).plugins = s.plugins := by
  unfold read_running_processes
  dsimp only
  have key := read_fold_plugins env (env.select s.tick (watched_set s)).2
    (List.range MAX_PROCESSES) (0, (s.emit (event.select (watched_set s) 500000)).step)
  split_ifs
  · rfl
  · rfl
  · dsimp only
    exact key
  · exact key

theorem wait_for_children_plugins (s : launcher) :
    (wait_for_children s).plugins = s.plugins := by
  unfold wait_for_children
  generalize List.range MAX_PROCESSES = l
  induction l generalizing s with
  | nil => rfl
  | cons x xs ih =>
    rw [List.foldl_cons, ih]
    split_ifs
    · rfl
    · rfl

theorem update_running_process_state_kept (env : externals) (now : timeval) (i : Nat)
    (s : launcher) : StateKept s (update_running_process env now i s) := by
  intro a
  rcases update_running_process_cases now (s.processes i) with h | ⟨h, ha⟩ | ⟨h, ha, _⟩
  · rw [update_running_process_skip env now i s h]
    exact Or.inl rfl
  · rw [(update_running_process_dead env now i s h ha).2.2.2]
    by_cases e : a = (s.processes i).plugin
    · subst e
      right
      simp
    · left
      simp [Function.update_noteq e]
  · rw [(update_running_process_timed_out env now i s h ha).2.2.2]
    by_cases e : a = (s.processes i).plugin
    · subst e
      right
      simp
    · left
      simp [Function.update_noteq e]

theorem update_running_processes_state_kept (env : externals) (s : launcher) :
    StateKept s (update_running_processes env s) := by
  unfold update_running_processes
  dsimp only
  split_ifs
  · exact StateKept.of_eq rfl
  · exact (StateKept.of_eq rfl : StateKept s s.step).chain
      (StateKept.fold _ _ (fun st i => update_running_process_state_kept env _ i st) _)

theorem drain_state_kept (env : externals) (s : launcher) :
    StateKept s
      (wait_for_children (update_running_processes env (read_running_processes env s))) :=
  ((StateKept.of_eq (read_running_processes_plugins env s)).chain
    (update_running_processes_state_kept env _)).chain
    (StateKept.of_eq (wait_for_children_plugins _))

theorem wait_while_alive_state_kept (env : externals) (pid : Int) (fuel : Nat)
    (s s1 : launcher) (h : wait_while_alive env pid fuel s = Except.ok s1) :
    StateKept s s1 := by
  induction fuel generalizing s with
  | zero => simp [wait_while_alive] at h
  | succ n ih =>
    unfold wait_while_alive at h
    dsimp only at h
    split_ifs at h with ha
    · exact (StateKept.of_eq rfl : StateKept s (s.emit (event.process_alive pid
        (env.process_alive s.tick pid))).step).chain
        ((drain_state_kept env _).chain (ih _ h))
    · cases h
      exact StateKept.of_eq rfl

theorem next_free_wait_state_kept (env : externals) (fuel : Nat) (upcoming : Nat)
    (s s1 : launcher) (r : Nat) (h : next_free_wait env fuel upcoming s r = Except.ok s1) :
    StateKept s s1 := by
  unfold next_free_wait at h
  split_ifs at h
  · unfold wait_if_simult_ports at h
    split_ifs at h
    · exact wait_while_alive_state_kept env _ fuel s s1 h
    · cases h
      exact StateKept.same _
  · cases h
    exact StateKept.same _

theorem next_free_process_state_kept (env : externals) (fuel : Nat) (upcoming : Nat)
    (s s1 : launcher) (p : Int)
    (h : next_free_process env fuel upcoming s = Except.ok (p, s1)) : StateKept s s1 := by
  unfold next_free_process at h
  split at h
  · cases h
  · rename_i s2 hs2
    cases h
    exact (StateKept.of_eq (wait_for_children_plugins s)).chain
      (StateKept.foldM _ (fun a r b => next_free_wait_state_kept env fuel upcoming a b r)
        _ _ _ hs2)

theorem wait_for_admission_state_kept (env : externals) (fuel : Nat) (s s1 : launcher)
    (h : wait_for_admission env fuel s = Except.ok s1) : StateKept s s1 := by
  induction fuel generalizing s with
  | zero => simp [wait_for_admission] at h
  | succ n ih =>
    unfold wait_for_admission at h
    split_ifs at h with hc
    · exact ((StateKept.of_eq (read_running_processes_plugins env s)).chain
        (update_running_processes_state_kept env _)).chain (ih _ h)
    · cases h
      exact StateKept.same _

/-! ## What the launch does once the slot is chosen -/

theorem launch_in_slot_effect (env : externals) (global_socket : Int) (plugin p : Nat)
    (s : launcher) :
    (launch_in_slot env global_socket plugin p s).2.events
        = s.events ++ [event.nasl_plugin_launch (s.plugins plugin).oid
            (env.socketpair s.tick).2.2, event.close (env.socketpair s.tick).2.2]
      ∧ (0 < (launch_in_slot env global_socket plugin p s).1 →
          (launch_in_slot env global_socket plugin p s).2.num_running_processes
              = s.num_running_processes + 1
            ∧ (launch_in_slot env global_socket plugin p s).2.plugins = s.plugins)
      ∧ ((launch_in_slot env global_socket plugin p s).1 ≤ 0 →
          (launch_in_slot env global_socket plugin p s).2.num_running_processes
              = s.num_running_processes
            ∧ (launch_in_slot env global_socket plugin p s).2.plugins
              = Function.update s.plugins plugin
                  { s.plugins plugin with
                    running_state := plugin_status.PLUGIN_STATUS_UNRUN }) := by
  unfold launch_in_slot
  dsimp only [launcher.step, launcher.emit, launcher.set_process, launcher.set_running_state]
  split_ifs with hpid
  · refine ⟨by simp, fun _ => ⟨rfl, rfl⟩, fun hle => ?_⟩
    omega
  · refine ⟨by simp, fun hlt => ?_, fun _ => ⟨rfl, rfl⟩⟩
    exact absurd hlt hpid

/-- The whole of `plugin_launch`, step by step: the state `sb` the waits leave,
the slot record written, the events of the spawn and the pid returned. -/
theorem plugin_launch_at_steps (env : externals) (fuel : Nat) (global_socket : Int)
    (plugin : Nat) (s s1 : launcher) (p : Nat) (pid : Int)
    (h : plugin_launch_at env fuel global_socket plugin s = Except.ok (p, pid, s1)) :
    ∃ sa sb, wait_for_admission env fuel s = Except.ok sa
      ∧ next_free_process env fuel plugin sa = Except.ok ((p : Int), sb)
      ∧ launch_in_slot env global_socket plugin p sb = (pid, s1)
      ∧ p < MAX_PROCESSES ∧ (sb.processes p).pid ≤ 0
      ∧ Drained s sb ∧ StateKept s sb
      ∧ pid = env.nasl_plugin_launch (sb.tick + 1 + 1) (sb.plugins plugin).oid
          (env.socketpair sb.tick).2.2
      ∧ s1.processes p
        = { plugin := plugin, start := env.gettimeofday (sb.tick + 1), pid := pid,
            timeout := launch_timeout env (sb.plugins plugin).oid,
            upstream_soc := global_socket, internal_soc := (env.socketpair sb.tick).2.1,
            alive := 1 } := by
  obtain ⟨sa, sb, h1, h2, h3⟩ := plugin_launch_at_ok env fuel global_socket plugin s s1 p pid h
  have d1 := (wait_for_admission_drained env fuel s sa h1).1
  obtain ⟨d2, hfree⟩ := next_free_process_drained env fuel plugin sa sb p h2
  have k1 := wait_for_admission_state_kept env fuel s sa h1
  have k2 := next_free_process_state_kept env fuel plugin sa sb p h2
  have hnn : 0 ≤ first_free sb := by rw [← hfree]; exact Int.natCast_nonneg _
  have hs := first_free_spec sb hnn
  rw [← hfree, Int.toNat_ofNat] at hs
  obtain ⟨e1, e2⟩ := launch_in_slot_slot env global_socket plugin p sb
  rw [h3] at e1 e2
  dsimp only at e1 e2
  refine ⟨sa, sb, h1, h2, h3, hs.1, hs.2, d1.trans d2, k1.chain k2, e2, ?_⟩
  rw [e1, e2]

set_option maxRecDepth 100000 in
/-- C11 (counterexample): the first launch of the concrete run succeeds with
the pid 102; the routine was UNRUN when `plugin_launch` was called and is
still UNRUN, not RUNNING, when it returns. -/
theorem launch_success_counterexample :
    plugin_launch demo_env 1 7 1 demo_init = Except.ok (102, demo_one)
      ∧ (demo_one.processes 0).pid = 102
      ∧ (demo_one.processes 0).plugin = 1
      ∧ (demo_init.plugins 1).running_state = plugin_status.PLUGIN_STATUS_UNRUN
      ∧ (demo_one.plugins 1).running_state = plugin_status.PLUGIN_STATUS_UNRUN
      ∧ (demo_one.plugins 1).running_state ≠ plugin_status.PLUGIN_STATUS_RUNNING :=
  ⟨demo_one_run, by decide, by decide, by decide, by decide, by decide⟩

/-- C11 (amended): when the spawner returns a pid > 0, `plugin_launch` returns
that pid and leaves the chosen slot `p` with that pid, `alive = 1`, the
launched routine, the local end of the new socket pair as `internal_soc`
and the time read before the spawn as `start`; the count is one more than
after the waits (`sb`), and no `running_state` is written: the routine's
state is the one it had when `plugin_launch` was called, or DONE if a slot
holding it was reclaimed during the waits. -/
theorem plugin_launch_success (env : externals) (fuel : Nat) (global_socket : Int)
    (plugin : Nat) (s s1 : launcher) (p : Nat) (pid : Int)
    (h : plugin_launch_at env fuel global_socket plugin s = Except.ok (p, pid, s1))
    (hpos : 0 < pid) :
    ∃ sb, launch_in_slot env global_socket plugin p sb = (pid, s1)
      ∧ plugin_launch env fuel global_socket plugin s = Except.ok (pid, s1)
      ∧ pid = env.nasl_plugin_launch (sb.tick + 1 + 1) (sb.plugins plugin).oid
          (env.socketpair sb.tick).2.2
      ∧ (s1.processes p).pid = pid
      ∧ (s1.processes p).alive = 1
      ∧ (s1.processes p).plugin = plugin
      ∧ (s1.processes p).internal_soc = (env.socketpair sb.tick).2.1
      ∧ (s1.processes p).start = env.gettimeofday (sb.tick + 1)
      ∧ s1.num_running_processes = sb.num_running_processes + 1
      ∧ s1.plugins = sb.plugins
      ∧ ((s1.plugins plugin).running_state = (s.plugins plugin).running_state
          ∨ (s1.plugins plugin).running_state = plugin_status.PLUGIN_STATUS_DONE) := by
  obtain ⟨sa, sb, _, _, h3, _, _, _, k, hpid, hslot⟩ :=
    plugin_launch_at_steps env fuel global_socket plugin s s1 p pid h
  have he := (launch_in_slot_effect env global_socket plugin p sb).2.1
  rw [h3] at he
  obtain ⟨hnum, hplug⟩ := he hpos
  dsimp only at hnum hplug
  refine ⟨sb, h3, plugin_launch_of_at env fuel global_socket plugin s s1 p pid h, hpid, ?_, ?_,
    ?_, ?_, ?_, hnum, hplug, ?_⟩
  · rw [hslot]
  · rw [hslot]
  · rw [hslot]
  · rw [hslot]
  · rw [hslot]
  · rw [hplug]
    exact k plugin

set_option maxRecDepth 100000 in
/-- Witness for C11 (amended): the second launch of the concrete run. -/
theorem plugin_launch_success_witness :
    plugin_launch_at demo_env 1 7 2 demo_one = Except.ok (1, 106, demo_two)
      ∧ (demo_two.processes 1).pid = 106
      ∧ (demo_two.processes 1).alive = 1
      ∧ demo_one.num_running_processes = 1
      ∧ demo_two.num_running_processes = 2 :=
  ⟨demo_two_run_at,
    (plugin_launch_success demo_env 1 7 2 demo_one demo_two 1 106 demo_two_run_at
      (by decide)).elim (fun _ hsb => hsb.2.2.2.1),
    by decide, by decide, by decide⟩

theorem flaky_init_run :
    pluginlaunch_init flaky_env (some "testhost") queued_boot = Except.ok flaky_init := rfl

set_option maxRecDepth 100000 in
theorem flaky_one_run :
    plugin_launch flaky_env 1 7 1 flaky_init = Except.ok (102, flaky_one) := rfl

set_option maxRecDepth 100000 in
theorem flaky_two_run :
    plugin_launch flaky_env 1 7 2 flaky_one = Except.ok (-1, flaky_two) := rfl

theorem flaky_two_reachable : Reachable flaky_env flaky_two :=
  Reachable.launch 1 7 2 (-1) flaky_one flaky_two
    (Reachable.launch 1 7 1 102 flaky_init flaky_one
      (Reachable.init (some "testhost") queued_boot flaky_init flaky_init_run) flaky_one_run)
    flaky_two_run

theorem read_running_processes_pid (env : externals) (s : launcher) (j : Nat) :
    ((read_running_processes env s).processes j).pid = (s.processes j).pid := by
  unfold read_running_processes
  dsimp only
  have key := (read_fold env (env.select s.tick (watched_set s)).2
    (List.range MAX_PROCESSES) (0, (s.emit (event.select (watched_set s) 500000)).step)).2.1 j
  split_ifs
  · rfl
  · rfl
  · dsimp only
    exact key
  · exact key

theorem stop_process_other (s : launcher) (i j : Nat) (h : j ≠ i) :
    (stop_process s i).processes j = s.processes j := by
  unfold stop_process
  dsimp only [launcher.emit, launcher.set_process, launcher.set_running_state]
  split_ifs
  · exact Function.update_noteq h _ _
  · rfl

theorem stop_process_self (s : launcher) (i : Nat) :
    (stop_process s i).processes i
      = if 0 < (s.processes i).pid then running.zero else s.processes i := by
  unfold stop_process
  dsimp only [launcher.emit, launcher.set_process, launcher.set_running_state]
  split_ifs
  · exact Function.update_same _ _ _
  · rfl

theorem stop_process_state (s : launcher) (i : Nat) :
    StateKept s (stop_process s i)
      ∧ (0 < (s.processes i).pid →
          ((stop_process s i).plugins (s.processes i).plugin).running_state
            = plugin_status.PLUGIN_STATUS_DONE) := by
  unfold stop_process
  dsimp only [launcher.emit, launcher.set_process, launcher.set_running_state]
  split_ifs with hpid
  · refine ⟨?_, fun _ => by simp⟩
    intro a
    dsimp only
    by_cases e : a = (s.processes i).plugin
    · subst e
      right
      simp
    · left
      simp [Function.update_noteq e]
  · exact ⟨StateKept.same s, fun h => absurd h hpid⟩

/-- The slot table and the routine states after the last loop of
`pluginlaunch_stop` has run over the distinct indices `l`. -/
theorem stop_fold (l : List Nat) (hl : l.Nodup) (s : launcher) :
    (∀ j, (l.foldl stop_process s).processes j
        = if j ∈ l ∧ 0 < (s.processes j).pid then running.zero else s.processes j)
      ∧ StateKept s (l.foldl stop_process s)
      ∧ ∀ j, j ∈ l → 0 < (s.processes j).pid →
          ((l.foldl stop_process s).plugins (s.processes j).plugin).running_state
            = plugin_status.PLUGIN_STATUS_DONE := by
  induction l generalizing s with
  | nil => exact ⟨fun j => by simp, StateKept.same s, fun j hj => by cases hj⟩
  | cons x xs ih =>
    rw [List.foldl_cons]
    have hx : x ∉ xs := (List.nodup_cons.1 hl).1
    obtain ⟨ih1, ih2, ih3⟩ := ih (List.nodup_cons.1 hl).2 (stop_process s x)
    obtain ⟨k1, k2⟩ := stop_process_state s x
    refine ⟨?_, k1.chain ih2, ?_⟩
    · intro j
      rw [ih1 j]
      by_cases hj : j = x
      · subst hj
        simp only [hx, false_and, if_false, List.mem_cons, true_or, true_and]
        exact stop_process_self s j
      · rw [stop_process_other s x j hj]
        simp [hj]
    · intro j hj hocc
      by_cases hjx : j = x
      · subst hjx
        rcases ih2 ((s.processes j).plugin) with e | e
        · exact e.trans (k2 hocc)
        · exact e
      · have hin : j ∈ xs := by
          rcases List.mem_cons.1 hj with e | e
          · exact absurd e hjx
          · exact e
        have := ih3 j hin (by rw [stop_process_other s x j hjx]; exact hocc)
        rw [stop_process_other s x j hjx] at this
        exact this

theorem sigterm_loop_processes (l : List Nat) (s : launcher) :
    (l.foldl (fun st i =>
        if 0 < (st.processes i).pid then st.emit (event.kill (st.processes i).pid SIGTERM)
        else st) s).processes = s.processes
      ∧ (l.foldl (fun st i =>
        if 0 < (st.processes i).pid then st.emit (event.kill (st.processes i).pid SIGTERM)
        else st) s).plugins = s.plugins := by
  induction l generalizing s with
  | nil => exact ⟨rfl, rfl⟩
  | cons x xs ih =>
    rw [List.foldl_cons]
    obtain ⟨a, b⟩ := ih (if 0 < (s.processes x).pid then
      s.emit (event.kill (s.processes x).pid SIGTERM) else s)
    rw [a, b]
    split_ifs
    · exact ⟨rfl, rfl⟩
    · exact ⟨rfl, rfl⟩

set_option maxRecDepth 100000 in
/-- After `pluginlaunch_stop` every slot that was occupied is zero and its
routine DONE; every slot that was free is as it was. -/
theorem pluginlaunch_stop_slots (env : externals) (soft_stop : Int) (s : launcher) (j : Nat)
    (hj : j < MAX_PROCESSES) :
    (pluginlaunch_stop env soft_stop s).processes j
        = (if 0 < (s.processes j).pid then running.zero else s.processes j)
      ∧ (0 < (s.processes j).pid →
          ((pluginlaunch_stop env soft_stop s).plugins (s.processes j).plugin).running_state
            = plugin_status.PLUGIN_STATUS_DONE) := by
  unfold pluginlaunch_stop
  dsimp only
  by_cases hs : soft_stop ≠ 0
  · rw [if_pos hs]
    obtain ⟨f1, _, f3⟩ := stop_fold (List.range MAX_PROCESSES) (List.nodup_range _)
      ((List.foldl (fun (st : launcher) (i : Nat) =>
        if 0 < (st.processes i).pid then st.emit (event.kill (st.processes i).pid SIGTERM)
        else st) (read_running_processes env s) (List.range MAX_PROCESSES)).emit
        (event.usleep 20000))
    obtain ⟨g1, g2⟩ := sigterm_loop_processes (List.range MAX_PROCESSES)
      (read_running_processes env s)
    have hmem : j ∈ List.range MAX_PROCESSES := List.mem_range.2 hj
    have hproc : ∀ k, ((List.foldl (fun (st : launcher) (i : Nat) =>
        if 0 < (st.processes i).pid then st.emit (event.kill (st.processes i).pid SIGTERM)
        else st) (read_running_processes env s) (List.range MAX_PROCESSES)).emit
        (event.usleep 20000)).processes k = (read_running_processes env s).processes k := by
      intro k
      exact congrFun g1 k
    have hpid := read_running_processes_pid env s j
    have d := read_running_processes_drained env s
    constructor
    · rw [f1 j, hproc j]
      by_cases hocc : 0 < (s.processes j).pid
      · have : 0 < ((read_running_processes env s).processes j).pid := by rw [hpid]; exact hocc
        rw [if_pos ⟨hmem, this⟩, if_pos hocc]
      · have hn : ¬ 0 < ((read_running_processes env s).processes j).pid := by
          rw [hpid]; exact hocc
        rw [if_neg (fun c => hn c.2), if_neg hocc]
        exact d.free j (not_lt.1 hocc)
    · intro hocc
      have hocc2 : 0 < ((read_running_processes env s).processes j).pid := by
        rw [hpid]; exact hocc
      have hplug : ((read_running_processes env s).processes j).plugin
          = (s.processes j).plugin := (d.occupied j hocc2).2
      have := f3 j hmem (by rw [hproc j]; exact hocc2)
      rw [hproc j, hplug] at this
      exact this
  · rw [if_neg hs]
    obtain ⟨f1, _, f3⟩ := stop_fold (List.range MAX_PROCESSES) (List.nodup_range _) s
    have hmem : j ∈ List.range MAX_PROCESSES := List.mem_range.2 hj
    constructor
    · rw [f1 j]
      by_cases hocc : 0 < (s.processes j).pid
      · rw [if_pos ⟨hmem, hocc⟩, if_pos hocc]
      · rw [if_neg (fun c => hocc c.2), if_neg hocc]
    · exact f3 j hmem

theorem wait_for_children_fields (s : launcher) :
    (wait_for_children s).processes = s.processes
      ∧ (wait_for_children s).num_running_processes = s.num_running_processes := by
  unfold wait_for_children
  generalize List.range MAX_PROCESSES = l
  induction l generalizing s with
  | nil => exact ⟨rfl, rfl⟩
  | cons x xs ih =>
    rw [List.foldl_cons]
    obtain ⟨a, b⟩ := ih (if (s.processes x).pid ≠ 0 then
      s.emit (event.waitpid (-1) WNOHANG) else s)
    rw [a, b]
    split_ifs
    · exact ⟨rfl, rfl⟩
    · exact ⟨rfl, rfl⟩

theorem read_running_processes_idle (env : externals) (s : launcher)
    (h : s.num_running_processes = 0) : read_running_processes env s = s := by
  unfold read_running_processes
  rw [if_pos h]

/-- One step of the drain loops in a state whose count is 0: only
`wait_for_children` acts. -/
theorem drain_step_idle (env : externals) (s : launcher) (h : s.num_running_processes = 0) :
    update_running_processes env (read_running_processes env (wait_for_children s))
      = (wait_for_children s).step := by
  have hw : (wait_for_children s).num_running_processes = 0 :=
    (wait_for_children_fields s).2.trans h
  rw [read_running_processes_idle env _ hw, update_running_processes_idle env _ hw]

theorem pluginlaunch_wait_idle (env : externals) (fuel : Nat) (s : launcher)
    (h : s.num_running_processes = 0) :
    pluginlaunch_wait env (fuel + 1) s = Except.ok (wait_for_children s).step := by
  unfold pluginlaunch_wait
  dsimp only
  rw [drain_step_idle env s h]
  have hw : (wait_for_children s).step.num_running_processes = 0 :=
    (wait_for_children_fields s).2.trans h
  rw [if_neg (not_not.2 hw)]

theorem occupied_count_eq_zero (s : launcher)
    (h : ∀ j, j < MAX_PROCESSES → (s.processes j).pid ≤ 0) : occupied_count s = 0 := by
  unfold occupied_count
  rw [List.countP_eq_zero]
  intro j hj
  have := h j (List.mem_range.1 hj)
  simp only [decide_eq_true_eq, not_lt]
  exact this

set_option maxRecDepth 100000 in
/-- The part of L2 that holds: from a state whose count equals the number of
occupied slots, `pluginlaunch_stop` followed by `pluginlaunch_wait` returns
after one step of the loop with the count 0, every slot that was occupied
zeroed and its routine DONE; a slot that was not occupied is left as it was. -/
theorem stop_then_wait (env : externals) (soft_stop : Int) (fuel : Nat) (s : launcher)
    (hc : counted s) :
    ∃ s1, pluginlaunch_wait env (fuel + 1) (pluginlaunch_stop env soft_stop s) = Except.ok s1
      ∧ s1.num_running_processes = 0
      ∧ ∀ j, j < MAX_PROCESSES →
          s1.processes j = (if 0 < (s.processes j).pid then running.zero else s.processes j)
          ∧ (0 < (s.processes j).pid →
              (s1.plugins (s.processes j).plugin).running_state
                = plugin_status.PLUGIN_STATUS_DONE) := by
  have d := pluginlaunch_stop_drained env soft_stop s
  have hfree : ∀ j, j < MAX_PROCESSES →
      ((pluginlaunch_stop env soft_stop s).processes j).pid ≤ 0 := by
    intro j hj
    rw [(pluginlaunch_stop_slots env soft_stop s j hj).1]
    split_ifs with hocc
    · simp [running.zero]
    · exact not_lt.1 hocc
  have h0 : (pluginlaunch_stop env soft_stop s).num_running_processes = 0 := by
    have := d.count_kept hc
    unfold counted at this
    rw [this, occupied_count_eq_zero _ hfree]
    rfl
  refine ⟨_, pluginlaunch_wait_idle env fuel _ h0, ?_, ?_⟩
  · exact (wait_for_children_fields _).2.trans h0
  · intro j hj
    obtain ⟨a, b⟩ := pluginlaunch_stop_slots env soft_stop s j hj
    constructor
    · show (wait_for_children (pluginlaunch_stop env soft_stop s)).processes j = _
      rw [(wait_for_children_fields _).1, a]
    · intro hocc
      show ((wait_for_children (pluginlaunch_stop env soft_stop s)).plugins _).running_state = _
      rw [wait_for_children_plugins]
      exact b hocc

set_option maxRecDepth 100000 in
/-- C13 (failing input): in the run with the flaky spawner the launch of the
second routine fails with `-1`; the state is reachable and slot 1 has
`pid = -1` while it keeps the routine pointer, the timeout, the start time,
both sockets and `alive = 1`; the local end 18 of its socket pair has not
been closed. -/
theorem failed_launch_keeps_slot :
    Reachable flaky_env flaky_two
      ∧ plugin_launch flaky_env 1 7 2 flaky_one = Except.ok (-1, flaky_two)
      ∧ flaky_two.processes 1
        = { plugin := 2, start := { tv_sec := 5, tv_usec := 0 }, pid := -1, timeout := 320,
            upstream_soc := 7, internal_soc := 18, alive := 1 }
      ∧ (flaky_two.processes 1).pid ≤ 0
      ∧ flaky_two.processes 1 ≠ { running.zero with pid := (flaky_two.processes 1).pid }
      ∧ event.close 18 ∉ flaky_two.events :=
  ⟨flaky_two_reachable, flaky_two_run, by decide, by decide, by decide, by decide⟩

set_option maxRecDepth 100000 in
/-- C14 (failing input): from the reachable state of the run with the flaky
spawner, `pluginlaunch_stop` followed by `pluginlaunch_wait` returns with the
count 0 and the occupied slot 0 zeroed and its routine DONE, but slot 1, left
by the failed launch, is not zero; the same holds for a soft stop. -/
theorem stop_wait_keeps_failed_slot :
    Reachable flaky_env flaky_two
      ∧ pluginlaunch_wait flaky_env 1 (pluginlaunch_stop flaky_env 0 flaky_two)
        = Except.ok flaky_stopped
      ∧ flaky_stopped.num_running_processes = 0
      ∧ flaky_stopped.processes 0 = running.zero
      ∧ (flaky_stopped.plugins 1).running_state = plugin_status.PLUGIN_STATUS_DONE
      ∧ flaky_stopped.processes 1
        = { plugin := 2, start := { tv_sec := 5, tv_usec := 0 }, pid := -1, timeout := 320,
            upstream_soc := 7, internal_soc := 18, alive := 1 }
      ∧ flaky_stopped.processes 1 ≠ running.zero
      ∧ (state_of (pluginlaunch_wait flaky_env 1 (pluginlaunch_stop flaky_env 1 flaky_two))
          flaky_two).processes 1 ≠ running.zero :=
  ⟨flaky_two_reachable, rfl, by decide, by decide, by decide, by decide, by decide, by decide⟩

/-! ## Initialisation -/

theorem foldl_prepend (l init : List String) :
    l.foldl (fun acc piece => piece :: acc) init = l.reverse ++ init := by
  induction l generalizing init with
  | nil => rfl
  | cons x xs ih =>
    rw [List.foldl_cons, ih, List.reverse_cons, List.append_assoc]
    rfl

theorem pluginlaunch_init_ok (env : externals) (host : Option String) (s0 : launcher)
    (text : String) (h : env.prefs_get "non_simult_ports" = some text) :
    pluginlaunch_init env host s0
      = Except.ok { s0 with
          non_simult_ports := (g_strsplit text).reverse ++ s0.non_simult_ports
          max_running_processes :=
            if env.get_max_checks_number ≥ (MAX_PROCESSES : Int) then (MAX_PROCESSES : Int) - 1
            else env.get_max_checks_number
          old_max_running_processes := env.get_max_checks_number
          hostname := host
          num_running_processes := 0
          processes := fun i => if i < MAX_PROCESSES then running.zero else s0.processes i } := by
  unfold pluginlaunch_init
  rw [h]
  dsimp only
  rw [foldl_prepend]

/-- C15: with the preference `non_simult_ports` present and the configured
`max_checks` value `c`, `pluginlaunch_init` returns and leaves
`max_running_processes = min (c, MAX_PROCESSES - 1) = min (c, 31)`,
`old_max_running_processes = c`, `hostname` the given host label,
`num_running_processes = 0` and every slot record zero. -/
theorem pluginlaunch_init_state (env : externals) (host : Option String) (s0 : launcher)
    (text : String) (h : env.prefs_get "non_simult_ports" = some text) :
    ∃ s, pluginlaunch_init env host s0 = Except.ok s
      ∧ s.max_running_processes = min env.get_max_checks_number ((MAX_PROCESSES : Int) - 1)
      ∧ s.max_running_processes = min env.get_max_checks_number 31
      ∧ s.old_max_running_processes = env.get_max_checks_number
      ∧ s.hostname = host
      ∧ s.num_running_processes = 0
      ∧ ∀ i, i < MAX_PROCESSES → s.processes i = running.zero := by
  refine ⟨_, pluginlaunch_init_ok env host s0 text h, ?_, ?_, rfl, rfl, rfl, ?_⟩
  · dsimp only
    unfold MAX_PROCESSES
    split_ifs with hc
    · rw [min_eq_right (by omega)]
    · rw [min_eq_left (by omega)]
  · dsimp only
    unfold MAX_PROCESSES
    split_ifs with hc
    · rw [min_eq_right (by omega)]
      rfl
    · rw [min_eq_left (by omega)]
  · intro i hi
    dsimp only
    rw [if_pos hi]

/-- Witness for C15: the configured value 100 is clamped to 31 and kept as
`old_max_running_processes`. -/
theorem pluginlaunch_init_state_witness :
    clamped_env.prefs_get "non_simult_ports" = some "139, 445"
      ∧ pluginlaunch_init clamped_env (some "testhost") demo_boot = Except.ok clamped_init
      ∧ clamped_init.max_running_processes = 31
      ∧ clamped_init.old_max_running_processes = 100
      ∧ ∃ s, pluginlaunch_init clamped_env (some "testhost") demo_boot = Except.ok s
          ∧ s.max_running_processes = min clamped_env.get_max_checks_number 31 :=
  ⟨rfl, clamped_init_run, by decide, by decide,
    (pluginlaunch_init_state clamped_env (some "testhost") demo_boot "139, 445" rfl).elim
      (fun s hs => ⟨s, hs.1, hs.2.2.1⟩)⟩

theorem reinit_run :
    pluginlaunch_init reinit_env (some "otherhost") demo_init = Except.ok reinit_state := rfl

/-- C16 (counterexample): a second `pluginlaunch_init` with the preference
changed from `139, 445` to `80` leaves the tokens `445` and `139` of the
first call in `non_simult_ports`, next to the only piece `80` of the new
text. -/
theorem reinit_keeps_old_tokens :
    pluginlaunch_init demo_env (some "testhost") demo_boot = Except.ok demo_init
      ∧ demo_init.non_simult_ports = ["445", "139"]
      ∧ reinit_env.prefs_get "non_simult_ports" = some "80"
      ∧ pluginlaunch_init reinit_env (some "otherhost") demo_init = Except.ok reinit_state
      ∧ g_strsplit "80" = ["80"]
      ∧ reinit_state.non_simult_ports = ["80", "445", "139"]
      ∧ "139" ∈ reinit_state.non_simult_ports
      ∧ "139" ∉ g_strsplit "80" :=
  ⟨demo_init_run, by decide, by decide, reinit_run, by decide, by decide, by decide, by decide⟩

/-- C16 (amended): for every prior state and every configured string,
`pluginlaunch_init` puts the pieces of the split of the string on `, ` in
front of what `non_simult_ports` held before (last piece first): the tokens
after the call are the pieces and the tokens from before; they are exactly
the pieces when the list was empty before the call, as it is before the
first call.  `139, 445` gives the two tokens `139` and `445`, `139,445` the
single token `139,445`. -/
theorem pluginlaunch_init_tokens (env : externals) (host : Option String)
    (s0 s : launcher) (text : String)
    (h : env.prefs_get "non_simult_ports" = some text)
    (hs : pluginlaunch_init env host s0 = Except.ok s) :
    s.non_simult_ports = (g_strsplit text).reverse ++ s0.non_simult_ports
      ∧ (∀ t, t ∈ s.non_simult_ports ↔ t ∈ g_strsplit text ∨ t ∈ s0.non_simult_ports)
      ∧ (s0.non_simult_ports = [] → ∀ t, t ∈ s.non_simult_ports ↔ t ∈ g_strsplit text)
      ∧ g_strsplit "139, 445" = ["139", "445"]
      ∧ g_strsplit "139,445" = ["139,445"] := by
  rw [pluginlaunch_init_ok env host s0 text h] at hs
  simp only [Except.ok.injEq] at hs
  subst hs
  refine ⟨rfl, ?_, ?_, by decide, by decide⟩
  · intro t
    simp
  · intro h0 t
    simp [h0]

/-- Witness for C16 (amended): the first `pluginlaunch_init` of the concrete
run, from an empty list. -/
theorem pluginlaunch_init_tokens_witness :
    demo_env.prefs_get "non_simult_ports" = some "139, 445"
      ∧ pluginlaunch_init demo_env (some "testhost") demo_boot = Except.ok demo_init
      ∧ demo_boot.non_simult_ports = []
      ∧ demo_init.non_simult_ports = ["445", "139"]
      ∧ ∀ t, t ∈ demo_init.non_simult_ports ↔ t ∈ g_strsplit "139, 445" :=
  ⟨rfl, demo_init_run, rfl, by decide,
    (pluginlaunch_init_tokens demo_env (some "testhost") demo_boot demo_init "139, 445" rfl
      demo_init_run).2.2.1 rfl⟩

/-! ## Reclaiming in one sweep -/

theorem update_running_process_done (env : externals) (now : timeval) (i : Nat)
    (s : launcher) (h : sweep_reclaims now (s.processes i)) :
    ((update_running_process env now i s).plugins (s.processes i).plugin).running_state
      = plugin_status.PLUGIN_STATUS_DONE := by
  by_cases ha : (s.processes i).alive = 0
  · rw [(update_running_process_dead env now i s h ha).2.2.2]
    simp
  · rw [(update_running_process_timed_out env now i s h ha).2.2.2]
    simp

theorem update_running_process_other (env : externals) (now : timeval) (i j : Nat)
    (s : launcher) (h : j ≠ i) :
    (update_running_process env now i s).processes j = s.processes j := by
  rw [update_running_process_processes]
  split_ifs
  · exact Function.update_noteq h _ _
  · rfl

/-- After the loop of `update_running_processes` over the indices `l`, the
routine of every reclaimed slot is DONE. -/
theorem sweep_fold_done (env : externals) (now : timeval) (l : List Nat) (hl : l.Nodup)
    (s : launcher) :
    StateKept s (l.foldl (fun st i => update_running_process env now i st) s)
      ∧ ∀ j, j ∈ l → sweep_reclaims now (s.processes j) →
          ((l.foldl (fun st i => update_running_process env now i st) s).plugins
            (s.processes j).plugin).running_state = plugin_status.PLUGIN_STATUS_DONE := by
  induction l generalizing s with
  | nil => exact ⟨StateKept.same s, fun j hj => by cases hj⟩
  | cons x xs ih =>
    rw [List.foldl_cons]
    have hx : x ∉ xs := (List.nodup_cons.1 hl).1
    obtain ⟨ih1, ih2⟩ := ih (List.nodup_cons.1 hl).2 (update_running_process env now x s)
    have k1 := update_running_process_state_kept env now x s
    refine ⟨k1.chain ih1, ?_⟩
    intro j hj hr
    by_cases hjx : j = x
    · subst hjx
      rcases ih1 ((s.processes j).plugin) with e | e
      · exact e.trans (update_running_process_done env now j s hr)
      · exact e
    · have hin : j ∈ xs := by
        rcases List.mem_cons.1 hj with e | e
        · exact absurd e hjx
        · exact e
      have := ih2 j hin (by rw [update_running_process_other env now x j s hjx]; exact hr)
      rw [update_running_process_other env now x j s hjx] at this
      exact this

theorem not_occupied_of_count_zero (s : launcher) (h : occupied_count s = 0) (j : Nat)
    (hj : j < MAX_PROCESSES) : ¬ 0 < (s.processes j).pid := by
  unfold occupied_count at h
  rw [List.countP_eq_zero] at h
  have := h j (List.mem_range.2 hj)
  simpa using this

theorem close_mem_sweep_events (env : externals) (hostname : Option String)
    (oid : Option String) (now : timeval) (r : running) (h : sweep_reclaims now r) :
    event.close r.internal_soc ∈ sweep_events env hostname oid now r := by
  unfold sweep_events
  rw [if_pos h]
  exact List.mem_append_right _ (List.mem_singleton_self _)

theorem process_internal_msg_finished (env : externals) (p : Nat) (s : launcher)
    (he : 0 ≤ (env.internal_recv s.tick (s.processes p).internal_soc).1)
    (hd : (env.internal_recv s.tick (s.processes p).internal_soc).2.2
      &&& env.INTERNAL_COMM_MSG_TYPE_DATA = 0)
    (hc : (env.internal_recv s.tick (s.processes p).internal_soc).2.2
      &&& env.INTERNAL_COMM_MSG_TYPE_CTRL ≠ 0)
    (hf : (env.internal_recv s.tick (s.processes p).internal_soc).2.2
      &&& env.INTERNAL_COMM_CTRL_FINISHED ≠ 0) :
    process_internal_msg env p s
      = ((env.internal_recv s.tick (s.processes p).internal_soc).1,
          ((s.step.emit (event.kill (s.processes p).pid SIGTERM)).set_process p
            { s.processes p with alive := 0 })) := by
  unfold process_internal_msg
  dsimp only
  rw [if_neg (not_lt.2 he), if_neg (not_not.2 hd), if_pos hc, if_pos hf]
  rfl

set_option maxRecDepth 100000 in
/-- C17: one call of `update_running_processes` at time `now` on a state
whose count equals the number of occupied slots reclaims every occupied slot
that is dead (`alive = 0`) or timed out: the record becomes zero, the
routine's `running_state` DONE, `internal_soc` is closed, and the count
decreases by exactly the number of such slots.  In particular a slot whose
`alive` flag a FINISHED control frame has cleared is zero after the next
sweep. -/
theorem sweep_reclaims_dead_and_late (env : externals) (s : launcher)
    (hc : s.num_running_processes = (occupied_count s : Int)) :
    (∀ i, i < MAX_PROCESSES → sweep_reclaims (env.gettimeofday s.tick) (s.processes i) →
        (update_running_processes env s).processes i = running.zero
        ∧ ((update_running_processes env s).plugins (s.processes i).plugin).running_state
            = plugin_status.PLUGIN_STATUS_DONE
        ∧ event.close (s.processes i).internal_soc
            ∈ events_since s (update_running_processes env s))
      ∧ (update_running_processes env s).num_running_processes
        = s.num_running_processes
          - ((List.range MAX_PROCESSES).countP
              (fun i => decide (sweep_reclaims (env.gettimeofday s.tick) (s.processes i)))
              : Nat)
      ∧ (∀ p, p < MAX_PROCESSES → 0 < (s.processes p).pid →
          0 ≤ (env.internal_recv s.tick (s.processes p).internal_soc).1 →
          (env.internal_recv s.tick (s.processes p).internal_soc).2.2
            &&& env.INTERNAL_COMM_MSG_TYPE_DATA = 0 →
          (env.internal_recv s.tick (s.processes p).internal_soc).2.2
            &&& env.INTERNAL_COMM_MSG_TYPE_CTRL ≠ 0 →
          (env.internal_recv s.tick (s.processes p).internal_soc).2.2
            &&& env.INTERNAL_COMM_CTRL_FINISHED ≠ 0 →
          ((process_internal_msg env p s).2.processes p).alive = 0
          ∧ (update_running_processes env (process_internal_msg env p s).2).processes p
              = running.zero) := by
  have hgen : ∀ t : launcher, counted t → ∀ i, i < MAX_PROCESSES →
      sweep_reclaims (env.gettimeofday t.tick) (t.processes i) →
      (update_running_processes env t).processes i = running.zero
        ∧ ((update_running_processes env t).plugins (t.processes i).plugin).running_state
            = plugin_status.PLUGIN_STATUS_DONE
        ∧ event.close (t.processes i).internal_soc
            ∈ events_since t (update_running_processes env t) := by
    intro t ht i hi hr
    have hnum : t.num_running_processes ≠ 0 := by
      intro h0
      unfold counted at ht
      rw [h0] at ht
      exact not_occupied_of_count_zero t (by exact_mod_cast ht.symm) i hi hr.1
    obtain ⟨h1, h2, _⟩ := update_running_processes_sweep env t hnum
    refine ⟨?_, ?_, ?_⟩
    · rw [h1 i, if_pos ⟨hi, hr⟩]
    · have key : ((List.foldl
          (fun st i => update_running_process env (env.gettimeofday t.tick) i st) t.step
          (List.range MAX_PROCESSES)).plugins (t.processes i).plugin).running_state
          = plugin_status.PLUGIN_STATUS_DONE :=
        (sweep_fold_done env (env.gettimeofday t.tick) (List.range MAX_PROCESSES)
          (List.nodup_range _) t.step).2 i (List.mem_range.2 hi) hr
      unfold update_running_processes
      dsimp only
      rw [if_neg (show ¬ t.step.num_running_processes = 0 from hnum)]
      exact key
    · rw [events_since_append t _ _ h2]
      rw [List.mem_flatMap]
      exact ⟨i, List.mem_range.2 hi, close_mem_sweep_events env _ _ _ _ hr⟩
  refine ⟨hgen s hc, ?_, ?_⟩
  · by_cases h0 : s.num_running_processes = 0
    · rw [update_running_processes_idle env s h0]
      have hz : (List.range MAX_PROCESSES).countP
          (fun i => decide (sweep_reclaims (env.gettimeofday s.tick) (s.processes i))) = 0 := by
        rw [List.countP_eq_zero]
        intro i hi
        have hno := not_occupied_of_count_zero s
          (by rw [h0] at hc; exact_mod_cast hc.symm) i (List.mem_range.1 hi)
        simp only [decide_eq_true_eq]
        exact fun hr => hno hr.1
      rw [hz]
      show s.num_running_processes = s.num_running_processes - ((0 : Nat) : Int)
      simp
    · exact (update_running_processes_sweep env s h0).2.2
  · intro p hp hocc he hd hcb hf
    have hpm := process_internal_msg_finished env p s he hd hcb hf
    have hd1 := process_internal_msg_drained env p s hocc
    have halive : ((process_internal_msg env p s).2.processes p).alive = 0 := by
      rw [hpm]
      simp [launcher.set_process]
    have hpid : ((process_internal_msg env p s).2.processes p).pid = (s.processes p).pid :=
      process_internal_msg_pid env p s p
    refine ⟨halive, ?_⟩
    exact (hgen _ (hd1.count_kept hc) p hp ⟨by rw [hpid]; exact hocc, Or.inl halive⟩).1

set_option maxRecDepth 100000 in
/-- Witness for C17: the timeout scenario, where all three occupied slots are
dead or timed out at time 5. -/
theorem sweep_reclaims_dead_and_late_witness :
    timeout_state.num_running_processes = (occupied_count timeout_state : Int)
      ∧ timeout_state.num_running_processes = 3
      ∧ (timeout_state.processes 1).alive = 0
      ∧ (update_running_processes demo_env timeout_state).processes 1 = running.zero
      ∧ (update_running_processes demo_env timeout_state).num_running_processes = 0 :=
  ⟨by decide, by decide, by decide,
    ((sweep_reclaims_dead_and_late demo_env timeout_state (by decide)).1 1 (by decide)
      (by decide)).1,
    by decide⟩

/-! ## Slots a sweep leaves alone -/

theorem not_sweep_reclaims_of_live (now : timeval) (r : running) (halive : r.alive ≠ 0)
    (hT : r.timeout ≤ 0 ∨ now.tv_sec - r.start.tv_sec < r.timeout) :
    ¬ sweep_reclaims now r := by
  rintro ⟨_, h | ⟨h1, h2⟩⟩
  · exact halive h
  · rcases hT with h | h <;> omega

theorem update_running_processes_keeps (env : externals) (s : launcher) (i : Nat)
    (h : ¬ sweep_reclaims (env.gettimeofday s.tick) (s.processes i)) :
    (update_running_processes env s).processes i = s.processes i := by
  by_cases h0 : s.num_running_processes = 0
  · rw [update_running_processes_idle env s h0]
    rfl
  · rw [(update_running_processes_sweep env s h0).1 i, if_neg (fun c => h c.2)]

theorem sweeps_keep (env : externals) (n : Nat) (s : launcher) (i : Nat)
    (halive : (s.processes i).alive ≠ 0) (hT : (s.processes i).timeout ≤ 0) :
    (sweeps env n s).processes i = s.processes i := by
  induction n generalizing s with
  | zero => rfl
  | succ n ih =>
    have h1 := update_running_processes_keeps env s i
      (not_sweep_reclaims_of_live _ _ halive (Or.inl hT))
    show (sweeps env n (update_running_processes env s)).processes i = _
    rw [ih (update_running_processes env s) (by rw [h1]; exact halive)
      (by rw [h1]; exact hT), h1]

/-- C18: for every time `now`, `update_running_processes` leaves unchanged
every occupied slot that is not marked dead and whose timeout is not
positive or not yet reached: all its fields stay, and the external calls of
the sweep are those made for the other slots (no frame, no signal, no
`close` for this one).  A slot with a timeout that is not positive, such as
`-1`, stays as it is through any number of sweeps;
`pluginlaunch_stop` zeroes it. -/
theorem sweep_leaves_live_slot (env : externals) (s : launcher) (i : Nat)
    (hi : i < MAX_PROCESSES) (hpid : 0 < (s.processes i).pid)
    (halive : (s.processes i).alive ≠ 0)
    (hT : (s.processes i).timeout ≤ 0
      ∨ (env.gettimeofday s.tick).tv_sec - (s.processes i).start.tv_sec
          < (s.processes i).timeout) :
    (update_running_processes env s).processes i = s.processes i
      ∧ events_since s (update_running_processes env s)
        = (if s.num_running_processes = 0 then []
           else ((List.range MAX_PROCESSES).filter (fun j => decide (j ≠ i))).flatMap (fun j =>
              sweep_events env s.hostname (s.plugins (s.processes j).plugin).oid
                (env.gettimeofday s.tick) (s.processes j)))
      ∧ ((s.processes i).timeout ≤ 0 →
          ∀ n, (sweeps env n s).processes i = s.processes i)
      ∧ ∀ soft_stop, (pluginlaunch_stop env soft_stop s).processes i = running.zero := by
  have hnot := not_sweep_reclaims_of_live (env.gettimeofday s.tick) (s.processes i) halive hT
  refine ⟨update_running_processes_keeps env s i hnot, ?_,
    fun h n => sweeps_keep env n s i halive h, ?_⟩
  · by_cases h0 : s.num_running_processes = 0
    · rw [if_pos h0, update_running_processes_idle env s h0]
      exact events_since_append s s.step [] (by rw [List.append_nil]; rfl)
    · rw [if_neg h0, events_since_append s _ _ (update_running_processes_sweep env s h0).2.1]
      apply flatMap_filter_of_nil
      unfold sweep_events
      rw [if_neg hnot]
  · intro soft_stop
    rw [(pluginlaunch_stop_slots env soft_stop s i hi).1, if_pos hpid]

set_option maxRecDepth 100000 in
/-- Witness for C18: slot 2 of `patient_state` has the timeout `-1` and is
4 seconds old at time 5; three sweeps leave it, `pluginlaunch_stop` zeroes
it. -/
theorem sweep_leaves_live_slot_witness :
    (patient_state.processes 2).timeout = -1
      ∧ (patient_state.processes 2).alive = 1
      ∧ (patient_state.processes 2).pid = 102
      ∧ (sweeps demo_env 3 patient_state).processes 2 = patient_state.processes 2
      ∧ (pluginlaunch_stop demo_env 0 patient_state).processes 2 = running.zero :=
  ⟨by decide, by decide, by decide,
    (sweep_leaves_live_slot demo_env patient_state 2 (by decide) (by decide) (by decide)
      (Or.inl (by decide))).2.2.1 (by decide) 3,
    by decide⟩

/-! ## Forwarding DATA frames -/

theorem process_internal_msg_data (env : externals) (p : Nat) (s : launcher)
    (he : 0 ≤ (env.internal_recv s.tick (s.processes p).internal_soc).1)
    (hd : (env.internal_recv s.tick (s.processes p).internal_soc).2.2
      &&& env.INTERNAL_COMM_MSG_TYPE_DATA ≠ 0) :
    process_internal_msg env p s
      = (env.internal_send (s.tick + 1),
          (s.step.emit (event.internal_send (s.processes p).upstream_soc
            (env.internal_recv s.tick (s.processes p).internal_soc).2.1
            (env.internal_recv s.tick (s.processes p).internal_soc).2.2)).step) := by
  unfold process_internal_msg
  dsimp only
  rw [if_neg (not_lt.2 he), if_pos hd]
  rfl

theorem process_internal_msg_upstream (env : externals) (p : Nat) (s : launcher) (j : Nat) :
    ((process_internal_msg env p s).2.processes j).upstream_soc
      = (s.processes j).upstream_soc := by
  unfold process_internal_msg
  simp only [launcher.step, launcher.emit, launcher.set_process]
  split_ifs
  all_goals first
    | rfl
    | (by_cases h : j = p
       · subst h; simp
       · simp [Function.update_noteq h])

/-- The events one call of `process_internal_msg` adds, and the frames among
them. -/
theorem process_internal_msg_frames (env : externals) (p : Nat) (s : launcher) :
    ∃ a, (process_internal_msg env p s).2.events = s.events ++ a
      ∧ frames_sent a
        = if is_data_frame env (env.internal_recv s.tick (s.processes p).internal_soc) = true
          then [((s.processes p).upstream_soc,
                  (env.internal_recv s.tick (s.processes p).internal_soc).2.1,
                  (env.internal_recv s.tick (s.processes p).internal_soc).2.2)]
          else [] := by
  by_cases he : 0 ≤ (env.internal_recv s.tick (s.processes p).internal_soc).1
  · by_cases hd : (env.internal_recv s.tick (s.processes p).internal_soc).2.2
        &&& env.INTERNAL_COMM_MSG_TYPE_DATA ≠ 0
    · refine ⟨[event.internal_send (s.processes p).upstream_soc
          (env.internal_recv s.tick (s.processes p).internal_soc).2.1
          (env.internal_recv s.tick (s.processes p).internal_soc).2.2], ?_, ?_⟩
      · rw [process_internal_msg_data env p s he hd]
        rfl
      · have : is_data_frame env (env.internal_recv s.tick (s.processes p).internal_soc)
            = true := by
          unfold is_data_frame
          simp [he, hd]
        rw [if_pos this]
        rfl
    · have hnd : is_data_frame env (env.internal_recv s.tick (s.processes p).internal_soc)
          ≠ true := by
        unfold is_data_frame
        simp [he, hd]
      rw [if_neg hnd]
      unfold process_internal_msg
      dsimp only
      rw [if_neg (not_lt.2 he), if_neg hd]
      split_ifs
      · exact ⟨[event.kill (s.processes p).pid SIGTERM], rfl, rfl⟩
      · exact ⟨[], (List.append_nil _).symm, rfl⟩
      · exact ⟨[], (List.append_nil _).symm, rfl⟩
  · have hnd : is_data_frame env (env.internal_recv s.tick (s.processes p).internal_soc)
        ≠ true := by
      unfold is_data_frame
      simp [he]
    rw [if_neg hnd]
    unfold process_internal_msg
    dsimp only
    rw [if_pos (not_le.1 he)]
    exact ⟨[], (List.append_nil _).symm, rfl⟩

/-- The frames forwarded in `n` calls of `process_internal_msg` for one slot
are the DATA frames received, in order. -/
theorem pump_frames (env : externals) (p : Nat) (n : Nat) (s : launcher) :
    ∃ b, (pump env p n s).events = s.events ++ b
      ∧ frames_sent b
        = ((received env p n s).filter (is_data_frame env)).map
            (fun f => ((s.processes p).upstream_soc, f.2.1, f.2.2)) := by
  induction n generalizing s with
  | zero => exact ⟨[], (List.append_nil _).symm, rfl⟩
  | succ n ih =>
    obtain ⟨a, ha, hfa⟩ := process_internal_msg_frames env p s
    obtain ⟨b, hb, hfb⟩ := ih (process_internal_msg env p s).2
    refine ⟨a ++ b, ?_, ?_⟩
    · show (pump env p n (process_internal_msg env p s).2).events = _
      rw [hb, ha, List.append_assoc]
    · unfold frames_sent at hfa hfb ⊢
      rw [List.filterMap_append, hfa, hfb, process_internal_msg_upstream]
      show _ = List.map _ (List.filter _
        (env.internal_recv s.tick (s.processes p).internal_soc
          :: received env p n (process_internal_msg env p s).2))
      rw [List.filter_cons]
      split_ifs
      · rfl
      · rfl

set_option maxRecDepth 100000 in
/-- C19: when `process_internal_msg` receives from slot `p`, without error, a
frame whose type has the DATA bit, it sends exactly that buffer and type to
the slot's `upstream_soc` in one `internal_send` call, returns what that
call returns, makes no other external call and leaves the slot table, the
count and the routines as they are, whatever other bits the type has (a
frame with DATA, CONTROL and FINISHED set is forwarded and no signal sent).
The frames forwarded in any number of calls for one slot are the DATA frames
received on it, in order and unchanged. -/
theorem data_frames_forwarded (env : externals) (p : Nat) (s : launcher) :
    (0 ≤ (env.internal_recv s.tick (s.processes p).internal_soc).1 →
      (env.internal_recv s.tick (s.processes p).internal_soc).2.2
        &&& env.INTERNAL_COMM_MSG_TYPE_DATA ≠ 0 →
      events_since s (process_internal_msg env p s).2
          = [event.internal_send (s.processes p).upstream_soc
              (env.internal_recv s.tick (s.processes p).internal_soc).2.1
              (env.internal_recv s.tick (s.processes p).internal_soc).2.2]
        ∧ (process_internal_msg env p s).1 = env.internal_send (s.tick + 1)
        ∧ (process_internal_msg env p s).2.processes = s.processes
        ∧ (process_internal_msg env p s).2.plugins = s.plugins
        ∧ (process_internal_msg env p s).2.num_running_processes = s.num_running_processes)
      ∧ (∀ n, frames_sent (events_since s (pump env p n s))
          = ((received env p n s).filter (is_data_frame env)).map
              (fun f => ((s.processes p).upstream_soc, f.2.1, f.2.2)))
      ∧ events_since demo_one (process_internal_msg chatty_env 0 demo_one).2
          = [event.internal_send 7 "hello" 327681]
      ∧ (process_internal_msg chatty_env 0 demo_one).2.processes 0 = demo_one.processes 0 := by
  refine ⟨?_, ?_, by decide, by decide⟩
  · intro he hd
    rw [process_internal_msg_data env p s he hd]
    refine ⟨?_, rfl, rfl, rfl, rfl⟩
    exact events_since_append s _ _ rfl
  · intro n
    obtain ⟨b, hb, hfb⟩ := pump_frames env p n s
    rw [events_since_append s _ b hb, hfb]

/-! ## Resetting the preference caches -/

/-- What `preferences_reset_cache` does to the caches: three of them are
left as they are. -/
theorem preferences_reset_cache_eq (k : pref_constants) (c : prefs_cache) :
    preferences_reset_cache k c
      = { host_expansion := -1, checks_read_timeout := -1, log_whole_attack := -1,
          optimize_test := -1, log_plugins_at_load := -1, ntp_show_end := -1,
          plugins_timeout := -1, benice := c.benice, save_session := -1,
          save_empty_sessions := -1, autoload_dependencies := -1, safe_checks_enabled := -1,
          use_mac_addr := -1, nasl_no_signature_check := c.nasl_no_signature_check,
          report_killed_plugins := -1, silent_dependencies := -1,
          network_scan := c.network_scan } := rfl

/-- The getters whose cache `preferences_reset_cache` does reset: after it,
the next call with an argument list computes its value from that list, as on
a fresh cache. -/
theorem reset_cache_refills (k : pref_constants) (c : prefs_cache) (a : arglist) :
    (preferences_log_whole_attack (some a) (preferences_reset_cache k c)).1
        = (preferences_log_whole_attack (some a) fresh_cache).1
      ∧ (preferences_report_killed_plugins (some a) (preferences_reset_cache k c)).1
        = (preferences_report_killed_plugins (some a) fresh_cache).1
      ∧ (preferences_optimize_test (some a) (preferences_reset_cache k c)).1
        = (preferences_optimize_test (some a) fresh_cache).1
      ∧ (preferences_ntp_show_end (some a) (preferences_reset_cache k c)).1
        = (preferences_ntp_show_end (some a) fresh_cache).1
      ∧ (preferences_log_plugins_at_load (some a) (preferences_reset_cache k c)).1
        = (preferences_log_plugins_at_load (some a) fresh_cache).1
      ∧ (preferences_autoload_dependencies (some a) (preferences_reset_cache k c)).1
        = (preferences_autoload_dependencies (some a) fresh_cache).1
      ∧ (preferences_safe_checks_enabled (some a) (preferences_reset_cache k c)).1
        = (preferences_safe_checks_enabled (some a) fresh_cache).1
      ∧ (preferences_use_mac_addr (some a) (preferences_reset_cache k c)).1
        = (preferences_use_mac_addr (some a) fresh_cache).1
      ∧ (preferences_save_session (some a) (preferences_reset_cache k c)).1
        = (preferences_save_session (some a) fresh_cache).1
      ∧ (preferences_save_empty_sessions (some a) (preferences_reset_cache k c)).1
        = (preferences_save_empty_sessions (some a) fresh_cache).1
      ∧ (preferences_silent_dependencies (some a) (preferences_reset_cache k c)).1
        = (preferences_silent_dependencies (some a) fresh_cache).1 := by
  rw [preferences_reset_cache_eq]
  exact ⟨rfl, rfl, rfl, rfl, rfl, rfl, rfl, rfl, rfl, rfl, rfl⟩

/-- C20 (failing input): the caches of `preferences_benice`,
`preferences_nasl_no_signature_check` and `preferences_network_scan` were
filled from an argument list with the values `yes`.  After
`preferences_reset_cache` the three getters, called with a list whose values
are `no`, still return 1, where a fresh cache gives 0;
`preferences_silent_dependencies`, filled and reset the same way, returns
0. -/
theorem reset_cache_keeps_stale_values :
    warm_cache.benice = 1 ∧ warm_cache.nasl_no_signature_check = 1
      ∧ warm_cache.network_scan = 1 ∧ warm_cache.silent_dependencies = 1
      ∧ (preferences_benice (some all_no)
          (preferences_reset_cache demo_constants warm_cache)).1 = 1
      ∧ (preferences_benice (some all_no) fresh_cache).1 = 0
      ∧ (preferences_nasl_no_signature_check (some all_no)
          (preferences_reset_cache demo_constants warm_cache)).1 = 1
      ∧ (preferences_nasl_no_signature_check (some all_no) fresh_cache).1 = 0
      ∧ (preferences_network_scan (some all_no)
          (preferences_reset_cache demo_constants warm_cache)).1 = 1
      ∧ (preferences_network_scan (some all_no) fresh_cache).1 = 0
      ∧ (preferences_silent_dependencies (some all_no)
          (preferences_reset_cache demo_constants warm_cache)).1 = 0 := by
  decide

/-! ## Control frames and failed reads -/

theorem process_internal_msg_ignored (env : externals) (p : Nat) (s : launcher)
    (he : 0 ≤ (env.internal_recv s.tick (s.processes p).internal_soc).1)
    (hd : (env.internal_recv s.tick (s.processes p).internal_soc).2.2
      &&& env.INTERNAL_COMM_MSG_TYPE_DATA = 0)
    (hcf : (env.internal_recv s.tick (s.processes p).internal_soc).2.2
        &&& env.INTERNAL_COMM_MSG_TYPE_CTRL = 0
      ∨ (env.internal_recv s.tick (s.processes p).internal_soc).2.2
        &&& env.INTERNAL_COMM_CTRL_FINISHED = 0) :
    process_internal_msg env p s
      = ((env.internal_recv s.tick (s.processes p).internal_soc).1, s.step) := by
  unfold process_internal_msg
  dsimp only
  rw [if_neg (not_lt.2 he), if_neg (not_not.2 hd)]
  by_cases hc : (env.internal_recv s.tick (s.processes p).internal_soc).2.2
      &&& env.INTERNAL_COMM_MSG_TYPE_CTRL = 0
  · rw [if_neg (not_not.2 hc)]
  · rw [if_pos hc]
    have hf := hcf.resolve_left hc
    rw [if_neg (not_not.2 hf)]

theorem process_internal_msg_failed (env : externals) (p : Nat) (s : launcher)
    (he : (env.internal_recv s.tick (s.processes p).internal_soc).1 < 0) :
    process_internal_msg env p s
      = (-1, s.step.set_process p { s.processes p with alive := 0 }) := by
  unfold process_internal_msg
  dsimp only
  rw [if_pos he]
  rfl

theorem process_internal_msg_config (env : externals) (p : Nat) (s : launcher) :
    (process_internal_msg env p s).2.max_running_processes = s.max_running_processes
      ∧ (process_internal_msg env p s).2.old_max_running_processes
          = s.old_max_running_processes
      ∧ (process_internal_msg env p s).2.non_simult_ports = s.non_simult_ports
      ∧ (process_internal_msg env p s).2.hostname = s.hostname := by
  unfold process_internal_msg
  simp only [launcher.step, launcher.emit, launcher.set_process]
  split_ifs
  all_goals exact ⟨rfl, rfl, rfl, rfl⟩

/-- C23: what `process_internal_msg` does for slot `p` with a frame that is
not a DATA frame, and when `internal_recv` fails.

* Received without error, CONTROL and FINISHED bits set: the only outside
  call is `kill (processes[p].pid, SIGTERM)` (so nothing is sent upstream)
  and the only change of the table is `processes[p].alive = 0`.
* Received without error, CONTROL without FINISHED or neither DATA nor
  CONTROL: the table is unchanged and no outside call is made; the value of
  `internal_recv` is returned.
* `internal_recv` fails: the function returns `-1`, the only change of the
  table is `processes[p].alive = 0` and no outside call is made.
* In every case all pids, `num_running_processes`, the limits, the port list,
  the host name and the routine descriptors are as before. -/
theorem process_internal_msg_control (env : externals) (p : Nat) (s : launcher) :
    (0 ≤ (env.internal_recv s.tick (s.processes p).internal_soc).1 →
      (env.internal_recv s.tick (s.processes p).internal_soc).2.2
        &&& env.INTERNAL_COMM_MSG_TYPE_DATA = 0 →
      (env.internal_recv s.tick (s.processes p).internal_soc).2.2
        &&& env.INTERNAL_COMM_MSG_TYPE_CTRL ≠ 0 →
      (env.internal_recv s.tick (s.processes p).internal_soc).2.2
        &&& env.INTERNAL_COMM_CTRL_FINISHED ≠ 0 →
      events_since s (process_internal_msg env p s).2
          = [event.kill (s.processes p).pid SIGTERM]
        ∧ frames_sent (events_since s (process_internal_msg env p s).2) = []
        ∧ (process_internal_msg env p s).2.processes
          = Function.update s.processes p { s.processes p with alive := 0 }
        ∧ ((process_internal_msg env p s).2.processes p).alive = 0)
    ∧ (0 ≤ (env.internal_recv s.tick (s.processes p).internal_soc).1 →
      (env.internal_recv s.tick (s.processes p).internal_soc).2.2
        &&& env.INTERNAL_COMM_MSG_TYPE_DATA = 0 →
      ((env.internal_recv s.tick (s.processes p).internal_soc).2.2
          &&& env.INTERNAL_COMM_MSG_TYPE_CTRL = 0
        ∨ (env.internal_recv s.tick (s.processes p).internal_soc).2.2
          &&& env.INTERNAL_COMM_CTRL_FINISHED = 0) →
      events_since s (process_internal_msg env p s).2 = []
        ∧ (process_internal_msg env p s).2.processes = s.processes
        ∧ (process_internal_msg env p s).1
          = (env.internal_recv s.tick (s.processes p).internal_soc).1)
    ∧ ((env.internal_recv s.tick (s.processes p).internal_soc).1 < 0 →
      (process_internal_msg env p s).1 = -1
        ∧ events_since s (process_internal_msg env p s).2 = []
        ∧ (process_internal_msg env p s).2.processes
          = Function.update s.processes p { s.processes p with alive := 0 }
        ∧ ((process_internal_msg env p s).2.processes p).alive = 0)
    ∧ (∀ j, ((process_internal_msg env p s).2.processes j).pid = (s.processes j).pid)
    ∧ (process_internal_msg env p s).2.num_running_processes = s.num_running_processes
    ∧ (process_internal_msg env p s).2.max_running_processes = s.max_running_processes
    ∧ (process_internal_msg env p s).2.old_max_running_processes
        = s.old_max_running_processes
    ∧ (process_internal_msg env p s).2.non_simult_ports = s.non_simult_ports
    ∧ (process_internal_msg env p s).2.hostname = s.hostname
    ∧ (process_internal_msg env p s).2.plugins = s.plugins := by
  obtain ⟨c1, c2, c3, c4⟩ := process_internal_msg_config env p s
  refine ⟨?_, ?_, ?_, process_internal_msg_pid env p s, process_internal_msg_num env p s,
    c1, c2, c3, c4, process_internal_msg_plugins env p s⟩
  · intro he hd hc hf
    rw [process_internal_msg_finished env p s he hd hc hf]
    have hev : events_since s ((s.step.emit (event.kill (s.processes p).pid SIGTERM)).set_process p
        { s.processes p with alive := 0 }) = [event.kill (s.processes p).pid SIGTERM] :=
      events_since_append _ _ _ rfl
    dsimp only
    rw [hev]
    refine ⟨rfl, rfl, rfl, ?_⟩
    simp [launcher.set_process]
  · intro he hd hcf
    rw [process_internal_msg_ignored env p s he hd hcf]
    have hev : events_since s s.step = [] :=
      events_since_append _ _ _ (List.append_nil _).symm
    exact ⟨hev, rfl, rfl⟩
  · intro he
    rw [process_internal_msg_failed env p s he]
    have hev : events_since s (s.step.set_process p { s.processes p with alive := 0 }) = [] :=
      events_since_append _ _ _ (List.append_nil _).symm
    dsimp only
    rw [hev]
    refine ⟨rfl, rfl, rfl, ?_⟩
    simp [launcher.set_process]

/-! ## The index of the free slot -/

theorem vacated_refl (s : launcher) : Vacated s s := fun _ => Or.inl rfl

theorem vacated_trans {s s1 s2 : launcher} (d : Drained s1 s2) (h1 : Vacated s s1)
    (h2 : Vacated s1 s2) : Vacated s s2 := by
  intro j
  rcases h2 j with a | a
  · rcases h1 j with b | b
    · exact Or.inl (a.trans b)
    · have hz : (s1.processes j).pid ≤ 0 := by rw [b]; simp [running.zero]
      exact Or.inr ((d.free j hz).trans b)
  · exact Or.inr a

theorem vacated_of_pids {s s1 : launcher}
    (h : ∀ j, (s1.processes j).pid = (s.processes j).pid) : Vacated s s1 :=
  fun j => Or.inl (h j)

theorem vacated_foldl (f : launcher → Nat → launcher) (l : List Nat)
    (hd : ∀ s i, i ∈ l → Drained s (f s i)) (hv : ∀ s i, i ∈ l → Vacated s (f s i))
    (s : launcher) : Vacated s (l.foldl f s) := by
  induction l generalizing s with
  | nil => exact vacated_refl s
  | cons x xs ih =>
    rw [List.foldl_cons]
    exact vacated_trans
      (Drained.foldl f xs (fun s i hi => hd s i (List.mem_cons_of_mem _ hi)) (f s x))
      (hv s x (List.mem_cons_self _ _))
      (ih (fun s i hi => hd s i (List.mem_cons_of_mem _ hi))
        (fun s i hi => hv s i (List.mem_cons_of_mem _ hi)) (f s x))

theorem update_running_process_vacated (env : externals) (now : timeval) (i : Nat)
    (s : launcher) : Vacated s (update_running_process env now i s) := by
  intro j
  rw [update_running_process_processes]
  split_ifs
  · by_cases h : j = i
    · subst h
      exact Or.inr (by simp)
    · exact Or.inl (by simp [Function.update_noteq h])
  · exact Or.inl rfl

theorem update_running_processes_vacated (env : externals) (s : launcher) :
    Vacated s (update_running_processes env s) := by
  unfold update_running_processes
  dsimp only
  split_ifs
  · exact vacated_of_pids (fun _ => rfl)
  · exact vacated_trans
      (Drained.foldl _ _ (fun st i hi =>
        update_running_process_drained env _ i (List.mem_range.1 hi) st) _)
      (vacated_of_pids (fun _ => rfl))
      (vacated_foldl _ _
        (fun st i hi => update_running_process_drained env _ i (List.mem_range.1 hi) st)
        (fun st i _ => update_running_process_vacated env _ i st) _)

theorem drain_vacated (env : externals) (s : launcher) :
    Vacated s (wait_for_children (update_running_processes env (read_running_processes env s)))
      := by
  have v1 : Vacated s (read_running_processes env s) :=
    vacated_of_pids (read_running_processes_pid env s)
  have v2 := update_running_processes_vacated env (read_running_processes env s)
  have v3 : Vacated (update_running_processes env (read_running_processes env s))
      (wait_for_children (update_running_processes env (read_running_processes env s))) :=
    vacated_of_pids (fun j => by rw [(wait_for_children_fields _).1])
  exact vacated_trans
    ((update_running_processes_drained env _).trans (wait_for_children_drained _)) v1
    (vacated_trans (wait_for_children_drained _) v2 v3)

theorem wait_while_alive_vacated (env : externals) (pid : Int) (fuel : Nat) (s s1 : launcher)
    (h : wait_while_alive env pid fuel s = Except.ok s1) : Vacated s s1 := by
  induction fuel generalizing s with
  | zero => simp [wait_while_alive] at h
  | succ n ih =>
    unfold wait_while_alive at h
    dsimp only at h
    split_ifs at h with ha
    · have v := ih _ h
      have d := wait_while_alive_drained env pid n _ s1 h
      have v0 : Vacated s (s.emit (event.process_alive pid (env.process_alive s.tick pid))).step :=
        vacated_of_pids (fun _ => rfl)
      have v1 := drain_vacated env
        (s.emit (event.process_alive pid (env.process_alive s.tick pid))).step
      have d1 : Drained (s.emit (event.process_alive pid (env.process_alive s.tick pid))).step
          (wait_for_children (update_running_processes env (read_running_processes env
            (s.emit (event.process_alive pid (env.process_alive s.tick pid))).step))) :=
        ((read_running_processes_drained env _).trans
          (update_running_processes_drained env _)).trans (wait_for_children_drained _)
      exact vacated_trans (d1.trans d) v0 (vacated_trans d v1 v)
    · cases h
      exact vacated_of_pids (fun _ => rfl)

theorem next_free_wait_vacated (env : externals) (fuel : Nat) (upcoming : Nat)
    (s s1 : launcher) (r : Nat) (h : next_free_wait env fuel upcoming s r = Except.ok s1) :
    Vacated s s1 := by
  unfold next_free_wait at h
  split_ifs at h
  · unfold wait_if_simult_ports at h
    split_ifs at h
    · exact wait_while_alive_vacated env _ fuel s s1 h
    · cases h
      exact vacated_refl _
  · cases h
    exact vacated_refl _

theorem foldlM_vacated (f : launcher → Nat → Except failure launcher)
    (hd : ∀ s r s1, f s r = Except.ok s1 → Drained s s1)
    (hv : ∀ s r s1, f s r = Except.ok s1 → Vacated s s1) (l : List Nat) (s s1 : launcher)
    (h : l.foldlM f s = Except.ok s1) : Vacated s s1 := by
  induction l generalizing s with
  | nil =>
    simp only [List.foldlM_nil, pure, Except.pure] at h
    cases h
    exact vacated_refl _
  | cons x xs ih =>
    rw [List.foldlM_cons] at h
    cases hx : f s x with
    | error e => simp [hx, bind, Except.bind] at h
    | ok s2 =>
      simp only [hx, bind, Except.bind] at h
      exact vacated_trans (foldlM_drained f hd xs s2 s1 h) (hv s x s2 hx) (ih s2 h)

theorem next_free_process_vacated (env : externals) (fuel : Nat) (upcoming : Nat)
    (s s1 : launcher) (p : Int)
    (h : next_free_process env fuel upcoming s = Except.ok (p, s1)) : Vacated s s1 := by
  unfold next_free_process at h
  split at h
  · cases h
  · rename_i s2 hs2
    cases h
    have v0 : Vacated s (wait_for_children s) :=
      vacated_of_pids (fun j => by rw [(wait_for_children_fields s).1])
    exact vacated_trans
      (foldlM_drained _ (fun a r b => next_free_wait_drained env fuel upcoming a b r) _ _ _ hs2)
      v0
      (foldlM_vacated _ (fun a r b => next_free_wait_drained env fuel upcoming a b r)
        (fun a r b => next_free_wait_vacated env fuel upcoming a b r) _ _ _ hs2)

/-- The first hit of a search through `0, 1, ..., n - 1` has no hit below it. -/
theorem find_range_least (q : Nat → Bool) (n r : Nat)
    (h : (List.range n).find? q = some r) : ∀ j, j < r → q j = false := by
  induction n with
  | zero => simp at h
  | succ n ih =>
    rw [List.range_succ, List.find?_append] at h
    cases hf : (List.range n).find? q with
    | some r1 =>
      rw [hf] at h
      have h1 : r1 = r := by simpa using h
      subst h1
      exact ih hf
    | none =>
      rw [hf] at h
      have h1 : List.find? q [n] = some r := by simpa using h
      have hr : r = n := by
        have := List.mem_of_find?_eq_some h1
        simpa using this
      subst hr
      intro j hj
      have := List.find?_eq_none.1 hf j (List.mem_range.2 hj)
      simpa using this

theorem first_free_least (s : launcher) (r : Nat) (h : first_free s = (r : Int)) :
    ∀ j, j < r → 0 < (s.processes j).pid := by
  unfold first_free at h
  cases hf : (List.range MAX_PROCESSES).find? (fun r => decide ((s.processes r).pid ≤ 0)) with
  | none =>
    rw [hf] at h
    simp only at h
    omega
  | some r1 =>
    rw [hf] at h
    simp only [Nat.cast_inj] at h
    subst h
    intro j hj
    have := find_range_least _ _ _ hf j hj
    simpa using this

theorem first_free_none (s : launcher) :
    first_free s = -1 ↔ ∀ r, r < MAX_PROCESSES → 0 < (s.processes r).pid := by
  unfold first_free
  cases hf : (List.range MAX_PROCESSES).find? (fun r => decide ((s.processes r).pid ≤ 0)) with
  | none =>
    simp only [true_iff]
    intro r hr
    have := List.find?_eq_none.1 hf r (List.mem_range.2 hr)
    simpa using this
  | some r1 =>
    have h1 := List.find?_some hf
    have h2 := List.mem_range.1 (List.mem_of_find?_eq_some hf)
    simp only [decide_eq_true_eq] at h1
    constructor
    · intro h
      simp only at h
      omega
    · intro h
      have := h r1 h2
      omega

theorem first_free_range (s : launcher) :
    first_free s = -1 ∨ (0 ≤ first_free s ∧ first_free s < (MAX_PROCESSES : Int)) := by
  unfold first_free
  cases hf : (List.range MAX_PROCESSES).find? (fun r => decide ((s.processes r).pid ≤ 0)) with
  | none => exact Or.inl rfl
  | some r1 =>
    have h2 := List.mem_range.1 (List.mem_of_find?_eq_some hf)
    right
    simp only
    omega

/-- C25: when `next_free_process` returns the index `p` in the state `s1`
(the state after `wait_for_children` and the conflict waits), `p` is `-1` or
an index of the table; an index `p` is the smallest one whose slot has
`pid <= 0` in `s1`; `p` is `-1` exactly when every one of the `MAX_PROCESSES`
slots has `pid > 0` in `s1`.  The function does not populate a slot: the
returned slot is as it was on entry or all zero (reclaimed during the waits),
and every slot occupied in `s1` held the same pid and routine on entry. -/
theorem next_free_process_index (env : externals) (fuel : Nat) (upcoming : Nat)
    (s s1 : launcher) (p : Int)
    (h : next_free_process env fuel upcoming s = Except.ok (p, s1)) :
    (p = -1 ∨ (0 ≤ p ∧ p < (MAX_PROCESSES : Int)))
      ∧ (0 ≤ p → (s1.processes p.toNat).pid ≤ 0
          ∧ (∀ j : Nat, (j : Int) < p → 0 < (s1.processes j).pid)
          ∧ (∀ r : Nat, r < MAX_PROCESSES → (s1.processes r).pid ≤ 0 → p ≤ (r : Int)))
      ∧ (p = -1 ↔ ∀ r, r < MAX_PROCESSES → 0 < (s1.processes r).pid)
      ∧ (0 ≤ p → s1.processes p.toNat = s.processes p.toNat
          ∨ s1.processes p.toNat = running.zero)
      ∧ (∀ j, 0 < (s1.processes j).pid →
          (s1.processes j).pid = (s.processes j).pid
            ∧ (s1.processes j).plugin = (s.processes j).plugin) := by
  obtain ⟨d, hp⟩ := next_free_process_drained env fuel upcoming s s1 p h
  have v := next_free_process_vacated env fuel upcoming s s1 p h
  subst hp
  refine ⟨first_free_range s1, ?_, first_free_none s1, ?_, d.occupied⟩
  · intro h0
    have hs := first_free_spec s1 h0
    have hcast : first_free s1 = ((first_free s1).toNat : Int) :=
      (Int.toNat_of_nonneg h0).symm
    have hl := first_free_least s1 _ hcast
    refine ⟨hs.2, ?_, ?_⟩
    · intro j hj
      exact hl j (by omega)
    · intro r _ hr
      by_contra hlt
      have := hl r (by omega)
      omega
  · intro h0
    have hs := first_free_spec s1 h0
    by_cases hfree : (s.processes (first_free s1).toNat).pid ≤ 0
    · exact Or.inl (d.free _ hfree)
    · rcases v (first_free s1).toNat with a | a
      · omega
      · exact Or.inr a

set_option maxRecDepth 100000 in
theorem demo_free_run :
    next_free_process demo_env 1 2 demo_one = Except.ok (1, demo_free) := rfl

set_option maxRecDepth 100000 in
/-- Witness for C25: in the concrete run with one routine running in slot 0,
`next_free_process` returns the index 1; slot 0 is occupied and slot 1 is
free and as it was on entry. -/
theorem next_free_process_index_witness :
    next_free_process demo_env 1 2 demo_one = Except.ok (1, demo_free)
      ∧ 0 < (demo_free.processes 0).pid
      ∧ (demo_free.processes 1).pid ≤ 0
      ∧ demo_free.processes 1 = demo_one.processes 1
      ∧ (∀ j : Nat, (j : Int) < 1 → 0 < (demo_free.processes j).pid) :=
  ⟨demo_free_run, by decide, by decide, by decide,
    ((next_free_process_index demo_env 1 2 demo_one demo_free 1 demo_free_run).2.1
      (by decide)).2.1⟩

/-! ## The repair of the count -/

theorem watched_set_empty (s : launcher)
    (h : ∀ j, j < MAX_PROCESSES → (s.processes j).pid ≤ 0) : watched_set s = [] := by
  unfold watched_set
  rw [List.filterMap_eq_nil_iff]
  intro i hi
  have := h i (List.mem_range.1 hi)
  rw [if_neg (by omega)]

/-- When `select` returns 0, `read_running_processes` returns right after
it: the count and the table are as before. -/
theorem read_running_processes_timeout (env : externals) (s : launcher)
    (hn : s.num_running_processes ≠ 0) (he : (env.select s.tick (watched_set s)).1 = 0) :
    read_running_processes env s = (s.emit (event.select (watched_set s) 500000)).step := by
  unfold read_running_processes
  dsimp only
  rw [if_neg hn, if_pos he]

/-- When `select` returns a value other than 0 and no slot is occupied, the
last statement of `read_running_processes` sets the count to 0. -/
theorem read_running_processes_repairs (env : externals) (s : launcher)
    (hn : s.num_running_processes ≠ 0)
    (h : ∀ j, j < MAX_PROCESSES → (s.processes j).pid ≤ 0)
    (he : (env.select s.tick (watched_set s)).1 ≠ 0) :
    (read_running_processes env s).num_running_processes = 0 := by
  obtain ⟨_, hp, hnum, hf⟩ := read_fold env (env.select s.tick (watched_set s)).2
    (List.range MAX_PROCESSES) (0, (s.emit (event.select (watched_set s) 500000)).step)
  have hz : List.countP (fun i => decide (0 < (s.processes i).pid))
      (List.range MAX_PROCESSES) = 0 := occupied_count_eq_zero s h
  have hflag : (List.foldl (read_running_process env (env.select s.tick (watched_set s)).2)
      (0, (s.emit (event.select (watched_set s) 500000)).step)
      (List.range MAX_PROCESSES)).1 = 0 := by
    rw [hf, zero_add]
    exact hz
  have hnum1 : (List.foldl (read_running_process env (env.select s.tick (watched_set s)).2)
      (0, (s.emit (event.select (watched_set s) 500000)).step)
      (List.range MAX_PROCESSES)).2.num_running_processes ≠ 0 := by
    rw [hnum]
    exact hn
  unfold read_running_processes
  dsimp only
  rw [if_neg hn, if_neg he, if_pos ⟨hflag, hnum1⟩]

set_option maxRecDepth 100000 in
/-- C24 (failing input): in the state `stale_state` the count is 1 and no
slot has `pid > 0`, so the watched set is empty; `select` reports no ready
descriptor (it returns 0), `read_running_processes` returns at
`if (e == 0) return;` and the count is still 1, not 0.  With a `select`
that returns `-1` the last statement of the function is reached and the count
becomes 0. -/
theorem read_keeps_stale_count :
    0 < stale_state.num_running_processes
      ∧ (∀ j, j < MAX_PROCESSES → (stale_state.processes j).pid ≤ 0)
      ∧ watched_set stale_state = []
      ∧ (demo_env.select stale_state.tick (watched_set stale_state)).1 = 0
      ∧ (∀ fd, (demo_env.select stale_state.tick (watched_set stale_state)).2 fd = false)
      ∧ (read_running_processes demo_env stale_state).num_running_processes = 1
      ∧ (read_running_processes demo_env stale_state).num_running_processes ≠ 0
      ∧ (read_running_processes failing_select_env stale_state).num_running_processes = 0 := by
  have hfree : ∀ j, j < MAX_PROCESSES → (stale_state.processes j).pid ≤ 0 := by decide
  refine ⟨by decide, hfree, watched_set_empty stale_state hfree, rfl, fun _ => rfl, ?_, ?_, ?_⟩
  · rw [read_running_processes_timeout demo_env stale_state (by decide) rfl]
    rfl
  · rw [read_running_processes_timeout demo_env stale_state (by decide) rfl]
    decide
  · exact read_running_processes_repairs failing_select_env stale_state (by decide) hfree
      (by decide)

/-! ## The slot index in `plugin_launch` -/

theorem occupied_count_full (s : launcher)
    (h : ∀ r, r < MAX_PROCESSES → 0 < (s.processes r).pid) :
    occupied_count s = MAX_PROCESSES := by
  unfold occupied_count
  have : List.countP (fun i => decide (0 < (s.processes i).pid)) (List.range MAX_PROCESSES)
      = (List.range MAX_PROCESSES).length := by
    rw [List.countP_eq_length]
    intro i hi
    simpa using h i (List.mem_range.1 hi)
  rw [this, List.length_range]

theorem wait_while_alive_error (env : externals) (pid : Int) (fuel : Nat) (s : launcher)
    (e : failure) (h : wait_while_alive env pid fuel s = Except.error e) :
    e = failure.out_of_fuel := by
  induction fuel generalizing s with
  | zero =>
    simp only [wait_while_alive] at h
    cases h
    rfl
  | succ n ih =>
    unfold wait_while_alive at h
    dsimp only at h
    split_ifs at h with ha
    exact ih _ h

theorem next_free_wait_error (env : externals) (fuel : Nat) (upcoming : Nat)
    (s : launcher) (r : Nat) (e : failure)
    (h : next_free_wait env fuel upcoming s r = Except.error e) : e = failure.out_of_fuel := by
  unfold next_free_wait at h
  split_ifs at h
  unfold wait_if_simult_ports at h
  split_ifs at h
  exact wait_while_alive_error env _ fuel s e h

theorem foldlM_error (f : launcher → Nat → Except failure launcher)
    (hf : ∀ s r e, f s r = Except.error e → e = failure.out_of_fuel) (l : List Nat)
    (s : launcher) (e : failure) (h : l.foldlM f s = Except.error e) :
    e = failure.out_of_fuel := by
  induction l generalizing s with
  | nil => simp [pure, Except.pure] at h
  | cons x xs ih =>
    rw [List.foldlM_cons] at h
    cases hx : f s x with
    | error e1 =>
      simp only [hx, bind, Except.bind, Except.error.injEq] at h
      rw [← h]
      exact hf s x e1 hx
    | ok s2 =>
      simp only [hx, bind, Except.bind] at h
      exact ih s2 h

theorem next_free_process_error (env : externals) (fuel : Nat) (upcoming : Nat)
    (s : launcher) (e : failure)
    (h : next_free_process env fuel upcoming s = Except.error e) :
    e = failure.out_of_fuel := by
  unfold next_free_process at h
  split at h
  · rename_i f hf
    simp only [Except.error.injEq] at h
    rw [← h]
    exact foldlM_error _ (fun a r b => next_free_wait_error env fuel upcoming a r b) _ _ _ hf
  · cases h

theorem wait_for_admission_error (env : externals) (fuel : Nat) (s : launcher)
    (e : failure) (h : wait_for_admission env fuel s = Except.error e) :
    e = failure.out_of_fuel := by
  induction fuel generalizing s with
  | zero =>
    simp only [wait_for_admission] at h
    cases h
    rfl
  | succ n ih =>
    unfold wait_for_admission at h
    split_ifs at h with hc
    exact ih _ h

/-- C26: if `plugin_launch` is entered in a state whose count equals the
number of occupied slots and whose limit is between 1 and `MAX_PROCESSES - 1`,
then whenever the admission loop and `next_free_process` return, the index
`p` is not `-1`: `0 <= p < MAX_PROCESSES` and `processes[p].pid <= 0`, so the
slot written by `plugin_launch` is in the table and free; `plugin_launch`
continues with that slot and never ends with the write through
`processes[-1]`. -/
theorem plugin_launch_slot_in_table (env : externals) (fuel : Nat) (global_socket : Int)
    (plugin : Nat) (s : launcher)
    (hc : s.num_running_processes = (occupied_count s : Int))
    (_hmin : 1 ≤ s.max_running_processes)
    (hmax : s.max_running_processes ≤ (MAX_PROCESSES : Int) - 1) :
    (∀ (sa sb : launcher) (p : Int),
        wait_for_admission env fuel s = Except.ok sa →
        next_free_process env fuel plugin sa = Except.ok (p, sb) →
        p ≠ -1 ∧ 0 ≤ p ∧ p < (MAX_PROCESSES : Int) ∧ (sb.processes p.toNat).pid ≤ 0
          ∧ plugin_launch_at env fuel global_socket plugin s
            = Except.ok (p.toNat, launch_in_slot env global_socket plugin p.toNat sb))
      ∧ plugin_launch_at env fuel global_socket plugin s ≠ Except.error failure.out_of_bounds
      ∧ plugin_launch env fuel global_socket plugin s
          ≠ Except.error failure.out_of_bounds := by
  have key : ∀ (sa sb : launcher) (p : Int),
      wait_for_admission env fuel s = Except.ok sa →
      next_free_process env fuel plugin sa = Except.ok (p, sb) →
      p ≠ -1 ∧ 0 ≤ p ∧ p < (MAX_PROCESSES : Int) ∧ (sb.processes p.toNat).pid ≤ 0 := by
    intro sa sb p ha hb
    obtain ⟨d1, hlt⟩ := wait_for_admission_drained env fuel s sa ha
    obtain ⟨d2, hp⟩ := next_free_process_drained env fuel plugin sa sb p hb
    have c1 : counted sa := d1.count_kept hc
    have c2 : counted sb := d2.count_kept c1
    have hle := d2.num_le c1
    have hm := d1.max_eq
    unfold counted at c2
    have hne : p ≠ -1 := by
      intro hneg
      rw [hp] at hneg
      have hfull := occupied_count_full sb ((first_free_none sb).1 hneg)
      rw [hfull] at c2
      omega
    rcases first_free_range sb with h1 | h1
    · exact absurd (hp.trans h1) hne
    · rw [← hp] at h1
      have hs := first_free_spec sb (by rw [← hp]; exact h1.1)
      rw [← hp] at hs
      exact ⟨hne, h1.1, h1.2, hs.2⟩
  have hat : ∀ (sa sb : launcher) (p : Int),
      wait_for_admission env fuel s = Except.ok sa →
      next_free_process env fuel plugin sa = Except.ok (p, sb) →
      plugin_launch_at env fuel global_socket plugin s
        = Except.ok (p.toNat, launch_in_slot env global_socket plugin p.toNat sb) := by
    intro sa sb p ha hb
    have hk := key sa sb p ha hb
    unfold plugin_launch_at
    simp only [ha, hb]
    rw [if_neg (not_lt.2 hk.2.1)]
  have hnb : plugin_launch_at env fuel global_socket plugin s
      ≠ Except.error failure.out_of_bounds := by
    cases ha : wait_for_admission env fuel s with
    | error e =>
      have he := wait_for_admission_error env fuel s e ha
      unfold plugin_launch_at
      simp only [ha]
      rw [he]
      simp
    | ok sa =>
      cases hb : next_free_process env fuel plugin sa with
      | error e =>
        have he := next_free_process_error env fuel plugin sa e hb
        unfold plugin_launch_at
        simp only [ha, hb]
        rw [he]
        simp
      | ok r =>
        obtain ⟨p, sb⟩ := r
        rw [hat sa sb p ha hb]
        simp
  refine ⟨fun sa sb p ha hb => ?_, hnb, ?_⟩
  · obtain ⟨a, b, c, d⟩ := key sa sb p ha hb
    exact ⟨a, b, c, d, hat sa sb p ha hb⟩
  · unfold plugin_launch
    cases hr : plugin_launch_at env fuel global_socket plugin s with
    | error e =>
      simp only
      intro hcontra
      apply hnb
      rw [hr]
      simp only [Except.error.injEq] at hcontra
      rw [hcontra]
    | ok r => simp

set_option maxRecDepth 100000 in
/-- Witness for C26: the second launch of the concrete run, entered with one
occupied slot, the count 1 and the limit 4, obtains the free slot 1. -/
theorem plugin_launch_slot_in_table_witness :
    demo_one.num_running_processes = (occupied_count demo_one : Int)
      ∧ demo_one.max_running_processes = 4
      ∧ wait_for_admission demo_env 1 demo_one = Except.ok demo_one
      ∧ next_free_process demo_env 1 2 demo_one = Except.ok (1, demo_free)
      ∧ (demo_free.processes 1).pid ≤ 0
      ∧ plugin_launch demo_env 1 7 2 demo_one ≠ Except.error failure.out_of_bounds :=
  ⟨by decide, by decide, rfl, demo_free_run, by decide,
    (plugin_launch_slot_in_table demo_env 1 7 2 demo_one (by decide) (by decide)
      (by decide)).2.2⟩

/-! ## The drain step in an idle launcher -/

/-- The outside calls of `wait_for_children`: one non-blocking
`waitpid (-1, ...)` for every slot whose pid is not zero. -/
theorem wait_for_children_events (s : launcher) :
    (wait_for_children s).events
      = s.events ++ (List.range MAX_PROCESSES).flatMap
          (fun i => if (s.processes i).pid ≠ 0 then [event.waitpid (-1) WNOHANG] else []) := by
  unfold wait_for_children
  generalize List.range MAX_PROCESSES = l
  induction l generalizing s with
  | nil => simp
  | cons x xs ih =>
    rw [List.foldl_cons, List.flatMap_cons]
    by_cases hx : (s.processes x).pid ≠ 0
    · rw [if_pos hx, if_pos hx, ih]
      simp [launcher.emit]
    · rw [if_neg hx, if_neg hx, ih]
      simp

theorem wait_for_children_config (s : launcher) :
    (wait_for_children s).max_running_processes = s.max_running_processes
      ∧ (wait_for_children s).old_max_running_processes = s.old_max_running_processes
      ∧ (wait_for_children s).non_simult_ports = s.non_simult_ports
      ∧ (wait_for_children s).hostname = s.hostname :=
  ⟨(wait_for_children_drained s).max_eq, (wait_for_children_drained s).old_eq,
    (wait_for_children_drained s).ports_eq, (wait_for_children_drained s).host_eq⟩

theorem wait_for_change_idle (env : externals) (fuel : Nat) (s : launcher)
    (h : s.num_running_processes = 0) :
    wait_for_change env 0 fuel s = Except.error failure.out_of_fuel := by
  induction fuel generalizing s with
  | zero => rfl
  | succ n ih =>
    unfold wait_for_change
    dsimp only
    rw [drain_step_idle env s h]
    have hw : (wait_for_children s).step.num_running_processes = 0 :=
      (wait_for_children_fields s).2.trans h
    rw [if_pos hw]
    exact ih _ hw

/-- C27: in a state whose count is 0 and in which no slot has `pid > 0`, one
drain step (`wait_for_children`, `read_running_processes`,
`update_running_processes`) leaves the table, the count, both limits, the
port list, the host name and the routine descriptors as they are.  Its only
outside calls are the non-blocking `waitpid (-1, NULL, WNOHANG)` of
`wait_for_children`, one per slot whose pid is not zero (a negative pid): no
`select`, no frame, no signal and no `close`.  So `pluginlaunch_wait` returns
after one step, with any bound of at least one iteration, while the loop of
`pluginlaunch_wait_for_free_process` exhausts every bound. -/
theorem idle_drain_step (env : externals) (s : launcher)
    (h0 : s.num_running_processes = 0)
    (_hfree : ∀ j, j < MAX_PROCESSES → (s.processes j).pid ≤ 0) :
    (update_running_processes env (read_running_processes env (wait_for_children s))).processes
        = s.processes
      ∧ (update_running_processes env (read_running_processes env
          (wait_for_children s))).num_running_processes = 0
      ∧ (update_running_processes env (read_running_processes env
          (wait_for_children s))).max_running_processes = s.max_running_processes
      ∧ (update_running_processes env (read_running_processes env
          (wait_for_children s))).old_max_running_processes = s.old_max_running_processes
      ∧ (update_running_processes env (read_running_processes env
          (wait_for_children s))).non_simult_ports = s.non_simult_ports
      ∧ (update_running_processes env (read_running_processes env
          (wait_for_children s))).hostname = s.hostname
      ∧ (update_running_processes env (read_running_processes env
          (wait_for_children s))).plugins = s.plugins
      ∧ events_since s (update_running_processes env (read_running_processes env
          (wait_for_children s)))
        = (List.range MAX_PROCESSES).flatMap
            (fun i => if (s.processes i).pid ≠ 0 then [event.waitpid (-1) WNOHANG] else [])
      ∧ (∀ e, e ∈ events_since s (update_running_processes env (read_running_processes env
          (wait_for_children s))) → e = event.waitpid (-1) WNOHANG)
      ∧ (∀ fuel, pluginlaunch_wait env (fuel + 1) s
          = Except.ok (update_running_processes env (read_running_processes env
              (wait_for_children s))))
      ∧ (∀ fuel, pluginlaunch_wait_for_free_process env fuel s
          = Except.error failure.out_of_fuel) := by
  have hstep := drain_step_idle env s h0
  obtain ⟨c1, c2, c3, c4⟩ := wait_for_children_config s
  have hev : events_since s (wait_for_children s).step
      = (List.range MAX_PROCESSES).flatMap
          (fun i => if (s.processes i).pid ≠ 0 then [event.waitpid (-1) WNOHANG] else []) :=
    events_since_append _ _ _ (wait_for_children_events s)
  rw [hstep]
  refine ⟨(wait_for_children_fields s).1, (wait_for_children_fields s).2.trans h0,
    c1, c2, c3, c4, wait_for_children_plugins s, hev, ?_, ?_, ?_⟩
  · intro e he
    rw [hev, List.mem_flatMap] at he
    obtain ⟨i, _, hi⟩ := he
    split_ifs at hi
    · simpa using hi
    · simp at hi
  · intro fuel
    exact pluginlaunch_wait_idle env fuel s h0
  · intro fuel
    unfold pluginlaunch_wait_for_free_process
    rw [h0]
    exact wait_for_change_idle env fuel s h0

set_option maxRecDepth 100000 in
/-- Witness for C27: the state the run with the failed launch is in after
`pluginlaunch_stop` and `pluginlaunch_wait` has the count 0 and no slot with
`pid > 0`; slot 1 has the pid `-1`, so the drain step makes one `waitpid`
call and nothing else. -/
theorem idle_drain_step_witness :
    flaky_stopped.num_running_processes = 0
      ∧ (∀ j, j < MAX_PROCESSES → (flaky_stopped.processes j).pid ≤ 0)
      ∧ (flaky_stopped.processes 1).pid = -1
      ∧ events_since flaky_stopped (update_running_processes flaky_env
          (read_running_processes flaky_env (wait_for_children flaky_stopped)))
        = [event.waitpid (-1) WNOHANG]
      ∧ (update_running_processes flaky_env (read_running_processes flaky_env
          (wait_for_children flaky_stopped))).processes = flaky_stopped.processes
      ∧ pluginlaunch_wait_for_free_process flaky_env 5 flaky_stopped
          = Except.error failure.out_of_fuel :=
  ⟨by decide, by decide, by decide, by decide,
    (idle_drain_step flaky_env flaky_stopped (by decide) (by decide)).1,
    (idle_drain_step flaky_env flaky_stopped (by decide) (by decide)).2.2.2.2.2.2.2.2.2.2 5⟩

/-! ## Reading preferences -/

/-- C21 (counterexample): the preference `report_email` of `sample_prefs` is
stored as the empty string, which is not `no`, and `preferences_get_string`
returns `NULL` for it, not the stored value. -/
theorem get_string_empty_counterexample :
    sample_prefs.arg_get_value "report_email" = some ""
      ∧ preferences_get_string sample_prefs "report_email" = none
      ∧ ¬ (∀ (a : arglist) (name v : String), a.arg_get_value name = some v → v ≠ "no" →
            preferences_get_string a name = some v) := by
  refine ⟨rfl, rfl, fun h => ?_⟩
  have := h sample_prefs "report_email" "" rfl (by decide)
  exact absurd this (by decide)

/-- C21 (amended): `preferences_get_string` returns `NULL` when the
preference is absent, stored as the empty string or stored as `no`, and the
stored value itself in every other case. -/
theorem preferences_get_string_value (a : arglist) (name : String) :
    (∀ v, a.arg_get_value name = some v → v ≠ "" → v ≠ "no" →
        preferences_get_string a name = some v)
      ∧ (a.arg_get_value name = some "no" → preferences_get_string a name = none)
      ∧ (a.arg_get_value name = some "" → preferences_get_string a name = none)
      ∧ (a.arg_get_value name = none → preferences_get_string a name = none)
      ∧ (preferences_get_string a name = none ↔
          a.arg_get_value name = none ∨ a.arg_get_value name = some ""
            ∨ a.arg_get_value name = some "no")
      ∧ (∀ v, preferences_get_string a name = some v → a.arg_get_value name = some v) := by
  unfold preferences_get_string
  cases hv : a.arg_get_value name with
  | none => simp
  | some pref =>
    by_cases h1 : pref = ""
    · simp [h1]
    · by_cases h2 : pref = "no"
      · simp [h2]
      · simp [h1, h2]

theorem get_string_sample :
    preferences_get_string sample_prefs "logfile" = some "/var/log/openvas.log"
      ∧ preferences_get_string sample_prefs "kb_dir" = none
      ∧ preferences_get_string sample_prefs "report_email" = none
      ∧ preferences_get_string sample_prefs "port_range" = none :=
  ⟨rfl, rfl, rfl, rfl⟩

/-- C22: `preferences_plugin_timeout` for the routine `oid` reads the entry
`"timeout." ++ oid`.  Without an entry of the type `ARG_STRING` under that
name it returns 0; with one, whose value is `v`, it returns `atoi v`; the
result is 0 exactly when there is no such entry or its value has the integer
value 0. -/
theorem preferences_plugin_timeout_value (ARG_STRING : Int) (a : arglist) (oid : String) :
    (a.arg_get_type ("timeout." ++ oid) ≠ ARG_STRING →
        preferences_plugin_timeout ARG_STRING a (some oid) = Except.ok 0)
      ∧ (∀ v, a.arg_get_type ("timeout." ++ oid) = ARG_STRING →
          a.arg_get_value ("timeout." ++ oid) = some v →
          preferences_plugin_timeout ARG_STRING a (some oid) = Except.ok (atoi v))
      ∧ (preferences_plugin_timeout ARG_STRING a (some oid) = Except.ok 0 ↔
          a.arg_get_type ("timeout." ++ oid) ≠ ARG_STRING
            ∨ (a.arg_get_type ("timeout." ++ oid) = ARG_STRING
                ∧ ∃ v, a.arg_get_value ("timeout." ++ oid) = some v ∧ atoi v = 0)) := by
  unfold preferences_plugin_timeout
  simp only [fmt_s]
  by_cases ht : a.arg_get_type ("timeout." ++ oid) = ARG_STRING
  · rw [if_pos ht]
    cases hv : a.arg_get_value ("timeout." ++ oid) with
    | none => simp [ht]
    | some text =>
      by_cases hz : atoi text = 0
      · simp [ht, hz]
      · simp [ht, hz]
  · rw [if_neg ht]
    simp [ht]

theorem plugin_timeout_sample :
    preferences_plugin_timeout 1 sample_prefs (some "1.3.6.1") = Except.ok 120
      ∧ preferences_plugin_timeout 1 sample_prefs (some "1.3.6.2") = Except.ok 0
      ∧ preferences_plugin_timeout 1 sample_prefs (some "1.3.6.3") = Except.ok 0 :=
  ⟨rfl, rfl, rfl⟩

/-- C28 (failing inputs): the trimming loops of `preferences_process` leave
the string they trim.

* For the lines `= x` and ` = x` the loop on the option name reads
  `opt[-1]`, the byte before the array `buffer`.
* For the line `a = ` the loop on the value reads `t[-1]` (the blank after
  the `=`), overwrites it, reads `t[-2]` and ends with `len = -1`, the length
  then passed to `strncpy`.
* For the line `a=` the loop on the value reads `t[-1]`, the byte that
  replaced the `=`, and ends with `len = 0`.
* For the line `a = x` every access is at an index of at least 0. -/
theorem trimming_leaves_the_string :
    trim_line "= x\n".data = Except.error failure.out_of_bounds
      ∧ trim_line " = x\n".data = Except.error failure.out_of_bounds
      ∧ trim_line "a = \n".data
        = Except.ok (some (4,
            { buffer := ['a', NUL, NUL, ' ', NUL, NUL], len := 1, reads := [1, 0],
              writes := [1] },
            { buffer := ['a', NUL, NUL, NUL, NUL, NUL], len := -1, reads := [-1, -2],
              writes := [-1] }))
      ∧ preferences_process_line "= x\n".data = Except.error failure.out_of_bounds
      ∧ preferences_process_line " = x\n".data = Except.error failure.out_of_bounds
      ∧ preferences_process_line "a = \n".data = Except.error failure.out_of_bounds
      ∧ trim_line "a=\n".data
        = Except.ok (some (2,
            { buffer := ['a', NUL, NUL, NUL], len := 1, reads := [0], writes := [] },
            { buffer := ['a', NUL, NUL, NUL], len := 0, reads := [-1], writes := [] }))
      ∧ trim_line "a = x\n".data
        = Except.ok (some (4,
            { buffer := ['a', NUL, NUL, ' ', 'x', NUL, NUL], len := 1, reads := [1, 0],
              writes := [1] },
            { buffer := ['a', NUL, NUL, ' ', 'x', NUL, NUL], len := 1, reads := [0],
              writes := [] }))
      ∧ preferences_process_line "a = x\n".data = Except.ok (some ("a", "x")) := by
  refine ⟨rfl, rfl, rfl, rfl, rfl, rfl, rfl, rfl, rfl⟩

/-! ## A launch into a full table -/

theorem launched_state_reachable (env : externals) (fuel : Nat) (global_socket : Int)
    (plugin : Nat) (s : launcher) (h : Reachable env s) :
    Reachable env (launched_state (plugin_launch env fuel global_socket plugin s) s) := by
  cases hr : plugin_launch env fuel global_socket plugin s with
  | error e => exact h
  | ok r =>
    obtain ⟨pid, s1⟩ := r
    exact Reachable.launch fuel global_socket plugin pid s s1 h hr

theorem launches_reachable (env : externals) (n a : Nat) (s : launcher)
    (h : Reachable env s) : Reachable env (launches env n a s) := by
  induction n generalizing a s with
  | zero => exact h
  | succ n ih =>
    exact ih (a + 1) _ (launched_state_reachable env 1 7 a s h)

/-- A launch through `processes[-1]` with a spawner that returns a positive
pid adds one to the count and leaves every slot of the table as it is. -/
theorem launch_outside_table_count (env : externals) (global_socket : Int) (plugin : Nat)
    (outside : running) (s : launcher)
    (hpid : 0 < env.nasl_plugin_launch (s.tick + 1 + 1) (s.plugins plugin).oid
      (env.socketpair s.tick).2.2) :
    (launch_outside_table env global_socket plugin outside s).2.2.num_running_processes
        = s.num_running_processes + 1
      ∧ (launch_outside_table env global_socket plugin outside s).2.2.processes
        = s.processes := by
  unfold launch_outside_table
  dsimp only [launcher.step, launcher.emit]
  rw [if_pos hpid]
  exact ⟨rfl, rfl⟩

/-- From a state whose count is the number of occupied slots and whose limit
is at most `MAX_PROCESSES - 1`, no run of `plugin_launch` ends with the write
through `processes[-1]`. -/
theorem counted_launch_in_table (env : externals) (fuel : Nat) (global_socket : Int)
    (plugin : Nat) (s : launcher) (hc : counted s)
    (hmax : s.max_running_processes ≤ (MAX_PROCESSES : Int) - 1) :
    plugin_launch env fuel global_socket plugin s ≠ Except.error failure.out_of_bounds := by
  have hat : plugin_launch_at env fuel global_socket plugin s
      ≠ Except.error failure.out_of_bounds := by
    cases ha : wait_for_admission env fuel s with
    | error e =>
      have he := wait_for_admission_error env fuel s e ha
      unfold plugin_launch_at
      simp only [ha]
      rw [he]
      simp
    | ok sa =>
      cases hb : next_free_process env fuel plugin sa with
      | error e =>
        have he := next_free_process_error env fuel plugin sa e hb
        unfold plugin_launch_at
        simp only [ha, hb]
        rw [he]
        simp
      | ok r =>
        obtain ⟨p, sb⟩ := r
        obtain ⟨d1, hlt⟩ := wait_for_admission_drained env fuel s sa ha
        obtain ⟨d2, hp⟩ := next_free_process_drained env fuel plugin sa sb p hb
        have c1 : counted sa := d1.count_kept hc
        have c2 : counted sb := d2.count_kept c1
        have hle := d2.num_le c1
        have hm := d1.max_eq
        unfold counted at c2
        have hne : p ≠ -1 := by
          intro hneg
          rw [hp] at hneg
          have hfull := occupied_count_full sb ((first_free_none sb).1 hneg)
          rw [hfull] at c2
          omega
        have h0 : 0 ≤ p := by
          rcases first_free_range sb with h1 | h1
          · exact absurd (hp.trans h1) hne
          · rw [hp]
            exact h1.1
        unfold plugin_launch_at
        simp only [ha, hb]
        rw [if_neg (not_lt.2 h0)]
        simp
  unfold plugin_launch
  cases hr : plugin_launch_at env fuel global_socket plugin s with
  | error e =>
    simp only
    intro hcontra
    apply hat
    rw [hr]
    simp only [Except.error.injEq] at hcontra
    rw [hcontra]
  | ok r => simp

/-- With a configured `max_checks` of at most `MAX_PROCESSES - 1` no launch
from a reachable state writes through `processes[-1]`: the reachable states
are then all the states the launcher reaches, and in each of them the count is
the number of occupied slots. -/
theorem reachable_launch_in_table (env : externals) (s : launcher) (h : Reachable env s)
    (hhi : env.get_max_checks_number ≤ (MAX_PROCESSES : Int) - 1)
    (fuel : Nat) (global_socket : Int) (plugin : Nat) :
    counted s
      ∧ plugin_launch env fuel global_socket plugin s
          ≠ Except.error failure.out_of_bounds := by
  have hc := reachable_counted env s h
  obtain ⟨_, hm⟩ := reachable_limits env s h hhi
  refine ⟨hc, counted_launch_in_table env fuel global_socket plugin s hc ?_⟩
  rcases hm with e | e
  · rw [e]
    unfold MAX_PROCESSES
    omega
  · rw [e]
    exact hhi

theorem crowded_init_run :
    pluginlaunch_init crowded_env (some "testhost") crowded_boot = Except.ok crowded_init :=
  rfl

theorem full_table_reachable : Reachable crowded_env full_table :=
  launches_reachable crowded_env 32 1 _
    (Reachable.enable crowded_init
      (Reachable.init (some "testhost") crowded_boot crowded_init crowded_init_run))

set_option maxRecDepth 1000000 in
theorem full_table_facts :
    full_table.num_running_processes = 32
      ∧ full_table.max_running_processes = 100
      ∧ (∀ r, r < MAX_PROCESSES → 0 < (full_table.processes r).pid) := by
  decide

set_option maxRecDepth 1000000 in
theorem full_free_run :
    next_free_process crowded_env 1 33 full_table = Except.ok (-1, full_free) := rfl

set_option maxRecDepth 1000000 in
/-- C1 (failing input): with a configured `max_checks` of 100,
`pluginlaunch_init` clamps the limit to 31 but saves 100, which
`pluginlaunch_enable_parrallel_checks` restores.  After 32 launches the state
is reachable, the count is 32 and all 32 slots are occupied.  In the 33rd
call of `plugin_launch` the admission loop does not wait (32 < 100),
`next_free_process` returns `-1` and the launch writes through
`processes[-1]`; the spawner returns a positive pid, so the count becomes 33
while 32 slots of the table are occupied. -/
theorem full_table_launch_overflows :
    crowded_env.get_max_checks_number = 100
      ∧ full_table
        = launches crowded_env 32 1 (pluginlaunch_enable_parrallel_checks crowded_init)
      ∧ Reachable crowded_env full_table
      ∧ full_table.num_running_processes = 32
      ∧ full_table.max_running_processes = 100
      ∧ (∀ r, r < MAX_PROCESSES → 0 < (full_table.processes r).pid)
      ∧ wait_for_admission crowded_env 1 full_table = Except.ok full_table
      ∧ next_free_process crowded_env 1 33 full_table = Except.ok (-1, full_free)
      ∧ plugin_launch crowded_env 1 7 33 full_table = Except.error failure.out_of_bounds
      ∧ 0 < (launch_outside_table crowded_env 7 33 running.zero full_free).1
      ∧ (launch_outside_table crowded_env 7 33 running.zero full_free).2.2.num_running_processes
          = 33
      ∧ occupied_count (launch_outside_table crowded_env 7 33 running.zero full_free).2.2 = 32
      ∧ ¬ counted (launch_outside_table crowded_env 7 33 running.zero full_free).2.2 := by
  obtain ⟨f1, f2, f3⟩ := full_table_facts
  have hpid : 0 < (launch_outside_table crowded_env 7 33 running.zero full_free).1 := by
    decide
  have hnum : (launch_outside_table crowded_env 7 33 running.zero
      full_free).2.2.num_running_processes = 33 := by
    decide
  have hocc : occupied_count (launch_outside_table crowded_env 7 33 running.zero
      full_free).2.2 = 32 := by
    decide
  refine ⟨rfl, rfl, full_table_reachable, f1, f2, f3, rfl, full_free_run, rfl, hpid, hnum,
    hocc, ?_⟩
  unfold counted
  rw [hnum, hocc]
  decide

end PluginLaunch
